import Mathlib

/-!
Verification development for the Capybara Go damage simulator.

This file gives a shallow embedding of the engine in `src/model` into Lean:

* Python floats are modelled as exact rationals (`ℚ`); decimal literals in
  the source are written as the same decimal literals in Lean, which Lean
  reads as exact rationals.
* Python ints used as counters are modelled as `ℕ` (they never go negative
  in the source); configuration integers that the source compares with `<`
  or `>` against 0 are modelled as `ℤ`.
* The single RNG stream `state.rng` (a `random.Random` instance) is
  modelled as an explicit stream of draws `ℕ → ℚ` together with a cursor;
  `rng.random()` reads the stream at the cursor and advances it.  The
  stream stands for the deterministic sequence of outputs that
  `random.Random(seed)` denotes for the configured seed.
* Exceptions are modelled with `Except PyError`.  In particular, reading a
  dataclass attribute that was never assigned raises `AttributeError` in
  Python; attributes that no reachable code ever assigns are modelled as
  `Option` fields initialised to `none`, and reading them through
  `getattrOrThrow` produces the corresponding error.
* Mutable effect objects are flattened: the per-instance mutable fields of
  the effect classes (Nashir charge level and bolt stacks, Arcane Tome
  counters, the Leo one-time-buff flag) live in a single `SimState` record
  next to the `BattleState`, because the builder creates at most one
  instance of each such class per run and bolt-producing effects mutate the
  shared Nashir instance through an object reference.
-/

namespace CapybaraSim

/-- Free-form hit labels used in `tags` sets of the source. -/
inductive Tag
  | basic
  | skill
  | lightning
  | ninjutsu
  | bolt
  | demonic
  | ezra
  | artifact
  | dragonFlame
  deriving DecidableEq, Repr

/-- Damage type constants from the `DamageType` class in `core.py`. -/
inductive DamageType
  | basic
  | dragon_flame
  | dragon_breath
  | other_skill
  | ninjutsu
  | hurricane
  | ultimate
  deriving DecidableEq, Repr

/-- Python exceptions that the embedded code can raise. -/
inductive PyError
  | attributeError (name : String)
  deriving DecidableEq, Repr

/-- The deterministic RNG stream: `stream` is the sequence of outputs of
`random.random()` in draw order, `pos` is the number of draws consumed. -/
structure RNG where
  stream : ℕ → ℚ
  pos : ℕ := 0

/-- One record of `state.debug_logs`, appended by `debug_log_hit`. -/
structure DebugEntry where
  round : ℕ
  hit_index : ℕ
  type : DamageType
  tags : List Tag
  coeff : ℚ
  atk_eff : ℚ
  K : ℚ
  global_total : ℚ
  inbattle_total : ℚ
  final_total : ℚ
  damage : ℚ
  lc_stacks : ℕ
  lc_bonus : ℚ
  deriving DecidableEq

/-- The `BattleState` dataclass of `core.py`.  The two `Option` fields at
the end are NOT declared in the dataclass: `lightning.py` reads
`state.lightning_as_demonic` and `state.daji_bolt_coeff_bonus`, attributes
that only the never-registered Daji module would assign; they are modelled
as dynamic attributes that are absent (`none`) unless some code assigns
them. -/
structure BattleState where
  round_index : ℕ := 1

  dragon_stacks : ℕ := 0
  breath_global_next : ℚ := 0.0
  breath_dragon_next : ℚ := 0.0
  breath_global_this : ℚ := 0.0
  breath_dragon_this : ℚ := 0.0

  combo_stacks : ℕ := 0

  base_global_bonus : ℚ := 0.0
  base_inbattle_bonus : ℚ := 0.0
  base_final_bonus : ℚ := 0.0

  base_global_lightning_bonus : ℚ := 0.0
  base_global_skill_bonus : ℚ := 0.0
  base_global_ninjutsu_bonus : ℚ := 0.0

  base_final_skill_bonus : ℚ := 0.0
  base_final_lightning_bonus : ℚ := 0.0

  base_inbattle_basic_bonus : ℚ := 0.0
  base_inbattle_skill_bonus : ℚ := 0.0
  base_inbattle_lightning_bonus : ℚ := 0.0

  lightning_charge_step : ℚ := 0.0
  lightning_charge_stacks : ℕ := 0
  dynamic_inbattle_lightning_bonus : ℚ := 0.0

  temp_final_lightning_bonus : ℚ := 0.0

  dynamic_global_ninjutsu_bonus : ℚ := 0.0

  lightning_as_ninjutsu : Bool := false

  dmg_basic : ℚ := 0.0
  dmg_flame : ℚ := 0.0
  dmg_breath : ℚ := 0.0
  dmg_other : ℚ := 0.0
  dmg_bolt : ℚ := 0.0
  dmg_artifact : ℚ := 0.0

  dmg_ninjutsu : ℚ := 0.0
  dmg_hurricane : ℚ := 0.0
  dmg_ultimate : ℚ := 0.0

  rng : RNG := { stream := fun _ => 0 }

  debug : Bool := false
  debug_logs : List DebugEntry := []

  -- Dynamic attributes never declared in the dataclass and never assigned
  -- by any registered effect (only the dead Daji module writes them).
  lightning_as_demonic : Option Bool := none
  daji_bolt_coeff_bonus : Option ℚ := none

/-- ATK_BASE constant from `core.py`. -/
def ATK_BASE : ℚ := 1000.0

/-- K_BASIC constant from `core.py`. -/
def K_BASIC : ℚ := 12.0

/-- K_SKILL constant from `core.py`. -/
def K_SKILL : ℚ := 50.0

/-- The `HitContext` dataclass of `core.py`. -/
structure HitContext where
  damage_type : DamageType
  coeff : ℚ
  is_basic : Bool := false
  is_combo : Bool := false
  hit_index_in_round : ℕ := 1

  atk_base : ℚ := ATK_BASE
  atk_mult_adventurer : ℚ := 1.0
  atk_mult_buff : ℚ := 1.0

  global_bonus : ℚ := 0.0
  inbattle_bonus : ℚ := 0.0
  final_bonus : ℚ := 0.0

  tags : List Tag := []

  damage_done : ℚ := 0.0

/-- Reading a dynamic attribute: absent attributes raise AttributeError. -/
def getattrOrThrow {α : Type} (name : String) : Option α → Except PyError α
  | some v => .ok v
  | none => .error (.attributeError name)

/-- The `debug_log_hit` helper of `core.py`: appends a breakdown record to
`state.debug_logs` when debugging is on, otherwise does nothing. -/
def debug_log_hit (state : BattleState) (ctx : HitContext) (K atk_eff global_total
    inbattle_total final_total dmg : ℚ) : BattleState :=
  if state.debug then
    { state with debug_logs := state.debug_logs ++ [{
        round := state.round_index
        hit_index := ctx.hit_index_in_round
        type := ctx.damage_type
        tags := ctx.tags
        coeff := ctx.coeff
        atk_eff := atk_eff
        K := K
        global_total := global_total
        inbattle_total := inbattle_total
        final_total := final_total
        damage := dmg
        lc_stacks := state.lightning_charge_stacks
        lc_bonus := state.dynamic_inbattle_lightning_bonus }] }
  else
    state

/-- The Lightning Charge side effect at the end of `compute_hit_damage`:
after a bolt-and-lightning hit with a positive configured step, add one
charge stack (capped at 99) and recompute the dynamic in-battle lightning
bonus as stacks times step. -/
def lightning_charge_update (ctx : HitContext) (state : BattleState) : BattleState :=
  if ctx.tags.contains .bolt ∧ ctx.tags.contains .lightning
      ∧ state.lightning_charge_step > 0.0 then
    if state.lightning_charge_stacks < 99 then
      let newStacks := state.lightning_charge_stacks + 1
      { state with
          lightning_charge_stacks := newStacks
          dynamic_inbattle_lightning_bonus :=
            (newStacks : ℚ) * state.lightning_charge_step }
    else state
  else state

/-- The core damage formula `compute_hit_damage` of `core.py`: returns the
damage together with the updated state (debug log append and the Lightning
Charge stack side effect on bolt hits). -/
def compute_hit_damage (ctx : HitContext) (state : BattleState) : ℚ × BattleState :=
  let K : ℚ := if ctx.damage_type = .basic then K_BASIC else K_SKILL

  let atk_eff := ctx.atk_base * ctx.atk_mult_adventurer * ctx.atk_mult_buff

  let global_total := ctx.global_bonus + state.base_global_bonus
  let global_total := if ctx.tags.contains .skill then
    global_total + state.base_global_skill_bonus else global_total
  let global_total := if ctx.tags.contains .lightning then
    global_total + state.base_global_lightning_bonus else global_total
  let global_total := if ctx.tags.contains .ninjutsu then
    global_total + state.base_global_ninjutsu_bonus
      + state.dynamic_global_ninjutsu_bonus else global_total

  let inbattle_total := ctx.inbattle_bonus + state.base_inbattle_bonus
  let inbattle_total := if ctx.tags.contains .basic then
    inbattle_total + state.base_inbattle_basic_bonus else inbattle_total
  let inbattle_total := if ctx.tags.contains .skill then
    inbattle_total + state.base_inbattle_skill_bonus else inbattle_total
  let inbattle_total := if ctx.tags.contains .lightning then
    inbattle_total + state.base_inbattle_lightning_bonus
      + state.dynamic_inbattle_lightning_bonus else inbattle_total

  let final_total := ctx.final_bonus + state.base_final_bonus
  let final_total := if ctx.tags.contains .skill then
    final_total + state.base_final_skill_bonus else final_total
  let final_total := if ctx.tags.contains .lightning then
    final_total + state.base_final_lightning_bonus
      + state.temp_final_lightning_bonus else final_total

  let dmg := atk_eff * ctx.coeff * K * (1.0 + global_total)
    * (1.0 + inbattle_total) * (1.0 + final_total)

  let state := debug_log_hit state ctx K atk_eff global_total inbattle_total final_total dmg

  let state := lightning_charge_update ctx state

  (dmg, state)

/-!
Effect instances.  Each constructor carries the immutable constructor
arguments of the corresponding Python effect class.  The `nashirMult`
fields of the three lightning-skill effects model the `nashir` object
reference those classes capture: `none` when the builder passed `None`,
`some m` (the adv_atk_mult of the shared Nashir instance) otherwise.
-/
inductive EffectInst
  | dgStacks (enabled : Bool) (stack_step : ℚ) (max_stacks : ℕ)
  | dgFlame (coeff : ℚ)
  | dgBreath (enabled : Bool) (coeff dragon_bonus_next global_bonus_next : ℚ)
  | comboMastery (atk_step : ℚ) (max_stacks : ℕ)
  | nashirScepter (adv_atk_mult : ℚ)
  | ezraRing (adv_atk_mult final_light_bonus : ℚ)
  | extraEndBolts (adv_atk_mult : ℚ) (n_bolts : ℤ) (nashirMult : Option ℚ) (multi_factor : ℤ)
  | basicAtkBolt (adv_atk_mult chance : ℚ) (nashirMult : Option ℚ) (multi_factor : ℤ)
  | fiveBoltsAfterRound6 (adv_atk_mult : ℚ) (nashirMult : Option ℚ) (multi_factor : ℤ)
  | arcaneTome (adv_atk_mult : ℚ) (bolts_per_proc : ℕ) (coeff : ℚ)
  | leoMultiHit (adv_atk_mult : ℚ) (has_2star : Bool)
  | leoHurricane (adv_atk_mult : ℚ) (start_round interval : ℕ) (coeff : ℚ)
  | leoLightningFlag (enabled : Bool)
  | leoChargeRelease (adv_atk_mult coeff : ℚ) (grant_global_ninjutsu : Bool)
  deriving DecidableEq, Repr

/-- Full simulation state: the shared `BattleState` plus the mutable
per-instance fields of the effect objects, flattened here because the
builder creates at most one instance of each stateful effect class and
bolt producers mutate the shared Nashir instance through a reference. -/
structure SimState where
  battle : BattleState
  effects : List EffectInst := []
  -- NashirScepterEffect instance fields
  nashir_charge_level : ℕ := 1
  nashir_bolt_stacks : ℚ := 0.0
  -- ArcaneTomeEffect instance fields
  tome_bolt_counter : ℕ := 0
  tome_procs_this_round : ℕ := 0
  -- LeoChargeReleaseNinjutsuEffect instance field
  leo_cr_buff_applied : Bool := false

/-- One call of `rng.random()` on the single state-owned stream. -/
def rng_next (s : SimState) : ℚ × SimState :=
  let r := s.battle.rng
  (r.stream r.pos, { s with battle := { s.battle with rng := { r with pos := r.pos + 1 } } })

/-- hasattr of the broadcast hook: NO effect class in the repository
defines a method named on_after_bolt.  ArcaneTomeEffect, which per its own
docstring is meant to count every bolt, defines `on_after_hit` instead, so
the hasattr test in every bolt producer is False for every registered
effect. -/
def has_on_after_bolt (_e : EffectInst) : Bool := false

/-- The broadcast loop every bolt producer runs after a bolt resolves:
`for e in state.effects: if hasattr(e, "on_after_bolt"): e.on_after_bolt(...)`.
Since no class defines the hook, every iteration is a no-op. -/
def on_after_bolt_scan (s : SimState) (_ctx : HitContext) : SimState :=
  s.effects.foldl (fun acc e => if has_on_after_bolt e then acc else acc) s

/-! NashirScepterEffect (`weapons/nashir.py`). -/

/-- Nashir base lightning coefficient: 30 percent plus 6 percent weapon. -/
def nashir_base_lightning_coeff : ℚ := 0.30 + 0.06

/-- Nashir base thunder coefficient: 90 percent plus 6 percent weapon. -/
def nashir_base_thunder_coeff : ℚ := 0.90 + 0.06

/-- The `thunder_bonus_by_level` dict; `charge_level` only ever holds 1, 2
or 3 (any other key would raise KeyError in Python). -/
def nashir_thunder_bonus_by_level (lvl : ℕ) : ℚ :=
  if lvl = 1 then 0.15
  else if lvl = 2 then 0.15 + 0.30
  else if lvl = 3 then 0.15 + 0.30 + 0.45
  else 0

/-- The `_thunder_coeff` helper. -/
def nashir_thunder_coeff (lvl : ℕ) : ℚ :=
  nashir_base_thunder_coeff + nashir_thunder_bonus_by_level lvl

/-- The `_bolt_mult` helper: plus 20 percent per bolt stack, stacks capped
at `max_bolt_stacks = 9.0`. -/
def nashir_bolt_mult (bolt_stacks : ℚ) : ℚ := 1.0 + 0.2 * min bolt_stacks 9.0

/-- Loop body of `process_lightning_bolt`: each real lightning bolt rolls
the stream once, upgrades to thunder when the draw is below 0.5, resolves
the bolt, applies the bolt-stack multiplier to the booked damage, runs the
(empty) after-bolt broadcast, and adds a bolt stack on thunder. -/
def nashir_process_bolts (advM buff gb : ℚ) : ℕ → SimState → SimState
  | 0, s => s
  | n + 1, s =>
    let (u, s) := rng_next s
    let is_thunder : Bool := decide (u < (0.5 : ℚ))
    let coeff := if is_thunder then nashir_thunder_coeff s.nashir_charge_level
      else nashir_base_lightning_coeff
    let ctx : HitContext := {
      damage_type := .other_skill
      coeff := coeff
      atk_mult_adventurer := advM
      atk_mult_buff := buff
      global_bonus := gb
      tags := [.skill, .lightning, .bolt] }
    let res := compute_hit_damage ctx s.battle
    let s := { s with battle := res.2 }
    let M_bolt := nashir_bolt_mult s.nashir_bolt_stacks
    let s := { s with battle :=
      { s.battle with dmg_bolt := s.battle.dmg_bolt + res.1 * M_bolt } }
    let s := on_after_bolt_scan s ctx
    let s := if is_thunder then
      { s with nashir_bolt_stacks := min (s.nashir_bolt_stacks + 1.0) 9.0 } else s
    nashir_process_bolts advM buff gb n s

/-- The `process_lightning_bolt` method: early return on `count <= 0`,
otherwise reads the common global bonus once and processes the bolts. -/
def nashir_process_lightning_bolt (advM : ℚ) (s : SimState) (atk_mult_buff : ℚ)
    (count : ℤ) : SimState :=
  if count ≤ 0 then s
  else nashir_process_bolts advM atk_mult_buff s.battle.breath_global_this count.toNat s

/-- The `_atk_buff_mult` helper (Combo Mastery ATK buff). -/
def atk_buff_mult (b : BattleState) : ℚ := 1.0 + 0.10 * (b.combo_stacks : ℚ)

/-- Nashir `on_end_round_skills`: the weapon fires one bolt of its own. -/
def nashir_on_end_round_skills (advM : ℚ) (s : SimState) : SimState :=
  let buff := atk_buff_mult s.battle
  nashir_process_lightning_bolt advM s buff 1

/-- Burst loop of Nashir `on_end_round_charge_release`: six thunder bolts,
each reading the thunder coefficient at the current (still 3) charge level,
multiplying booked damage by the current bolt-stack multiplier and then
adding a bolt stack; the burst bolts run no after-bolt broadcast. -/
def nashir_release_loop (advM buff gb : ℚ) : ℕ → SimState → SimState
  | 0, s => s
  | n + 1, s =>
    let coeff := nashir_thunder_coeff s.nashir_charge_level
    let ctx : HitContext := {
      damage_type := .other_skill
      coeff := coeff
      atk_mult_adventurer := advM
      atk_mult_buff := buff
      global_bonus := gb
      tags := [.skill, .lightning, .bolt] }
    let res := compute_hit_damage ctx s.battle
    let s := { s with battle := res.2 }
    let M_bolt := nashir_bolt_mult s.nashir_bolt_stacks
    let s := { s with battle :=
      { s.battle with dmg_bolt := s.battle.dmg_bolt + res.1 * M_bolt } }
    let s := { s with nashir_bolt_stacks := min (s.nashir_bolt_stacks + 1.0) 9.0 }
    nashir_release_loop advM buff gb n s

/-- Nashir `on_end_round_charge_release`: at charge level 3 release six
thunder bolts; then advance the level (1 to 2, 2 to 3) or reset it to 1
after a release. -/
def nashir_on_end_round_charge_release (advM : ℚ) (s : SimState) : SimState :=
  let buff := atk_buff_mult s.battle
  let gb := s.battle.breath_global_this
  let s := if s.nashir_charge_level = 3 then nashir_release_loop advM buff gb 6 s else s
  if s.nashir_charge_level < 3 then
    { s with nashir_charge_level := s.nashir_charge_level + 1 }
  else
    { s with nashir_charge_level := 1 }

/-! Generic lightning bolts (`skills/lightning.py`), the branch taken when
no Nashir instance was passed.  The loop body is textually identical in
the three effect classes, so it is shared here.  Building the tag set
reads `state.lightning_as_demonic`, an attribute that `BattleState` does
not declare and that no registered effect assigns, so the first iteration
raises AttributeError. -/
def plain_lightning_bolts (advM buff : ℚ) : ℕ → SimState → Except PyError SimState
  | 0, s => .ok s
  | n + 1, s => do
    let tags := [Tag.skill, Tag.lightning, Tag.bolt]
    let tags := if s.battle.lightning_as_ninjutsu then tags ++ [Tag.ninjutsu] else tags
    let lad ← getattrOrThrow "lightning_as_demonic" s.battle.lightning_as_demonic
    let tags := if lad then tags ++ [Tag.demonic] else tags
    let dcb ← getattrOrThrow "daji_bolt_coeff_bonus" s.battle.daji_bolt_coeff_bonus
    let ctx : HitContext := {
      damage_type := .other_skill
      coeff := 0.30 + dcb
      atk_mult_adventurer := advM
      atk_mult_buff := buff
      global_bonus := s.battle.breath_global_this
      tags := tags }
    let res := compute_hit_damage ctx s.battle
    let s := { s with battle :=
      { res.2 with dmg_other := res.2.dmg_other + res.1 } }
    let s := on_after_bolt_scan s ctx
    plain_lightning_bolts advM buff n s

/-- ExtraEndOfRoundBoltsEffect `on_end_round_skills`. -/
def extra_end_bolts_skills (advM : ℚ) (n_bolts : ℤ) (nashirMult : Option ℚ)
    (multi_factor : ℤ) (s : SimState) : Except PyError SimState :=
  if n_bolts ≤ 0 then .ok s
  else
    let buff := 1.0 + 0.10 * (s.battle.combo_stacks : ℚ)
    let total_bolts := n_bolts * multi_factor
    match nashirMult with
    | some m => .ok (nashir_process_lightning_bolt m s buff total_bolts)
    | none => plain_lightning_bolts advM buff total_bolts.toNat s

/-- BasicAttackBoltEffect `on_after_hit`: rolls the stream on every basic
hit; on success fires `2 * multi_factor` bolts with the current combo
buff. -/
def basic_atk_bolt_after_hit (advM chance : ℚ) (nashirMult : Option ℚ)
    (multi_factor : ℤ) (s : SimState) : Except PyError SimState :=
  let (u, s) := rng_next s
  if u ≥ chance then .ok s
  else
    let n_bolts := 2 * multi_factor
    let buff := 1.0 + 0.10 * (s.battle.combo_stacks : ℚ)
    match nashirMult with
    | some m => .ok (nashir_process_lightning_bolt m s buff n_bolts)
    | none => plain_lightning_bolts advM buff n_bolts.toNat s

/-- FiveBoltsAfterRound6Effect `on_end_round_skills`: from round 6 onward
fires `5 * multi_factor` bolts. -/
def five_bolts_skills (advM : ℚ) (nashirMult : Option ℚ) (multi_factor : ℤ)
    (s : SimState) : Except PyError SimState :=
  if s.battle.round_index < 6 then .ok s
  else
    let buff := 1.0 + 0.10 * (s.battle.combo_stacks : ℚ)
    let total_bolts := 5 * multi_factor
    match nashirMult with
    | some m => .ok (nashir_process_lightning_bolt m s buff total_bolts)
    | none => plain_lightning_bolts advM buff total_bolts.toNat s

/-! EzraRingEffect (`skills/ezra_ring.py`). -/

/-- Ezra Ring `on_round_start`: adds the temporary final-lightning buff for
this round and fires one special bolt into the bolt bucket. -/
def ezra_on_round_start (advM final_light_bonus : ℚ) (s : SimState) : SimState :=
  let s := { s with battle := { s.battle with
    temp_final_lightning_bonus :=
      s.battle.temp_final_lightning_bonus + final_light_bonus } }
  let buff := 1.0 + 0.10 * (s.battle.combo_stacks : ℚ)
  let tags := [Tag.skill, Tag.lightning, Tag.bolt, Tag.ezra]
  let tags := if s.battle.lightning_as_ninjutsu then tags ++ [Tag.ninjutsu] else tags
  let ctx : HitContext := {
    damage_type := .other_skill
    coeff := 1.0
    atk_mult_adventurer := advM
    atk_mult_buff := buff
    global_bonus := s.battle.breath_global_this
    tags := tags }
  let res := compute_hit_damage ctx s.battle
  { s with battle := { res.2 with dmg_bolt := res.2.dmg_bolt + res.1 } }

/-! ArcaneTomeEffect (`artifacts/arcane_tome.py`). -/

/-- The while loop of ArcaneTome `on_after_hit`: consume
`bolts_per_proc` bolts per proc while the per-round budget (3) allows.
The fuel argument bounds the iterations; since `procs_this_round`
increases every iteration and must stay below 3, three units of fuel
always suffice. -/
def tome_proc_loop (advM coeffQ : ℚ) (per : ℕ) : ℕ → SimState → SimState
  | 0, s => s
  | fuel + 1, s =>
    if s.tome_bolt_counter ≥ per ∧ s.tome_procs_this_round < 3 then
      let s := { s with
        tome_bolt_counter := s.tome_bolt_counter - per
        tome_procs_this_round := s.tome_procs_this_round + 1 }
      let buff := 1.0 + 0.10 * (s.battle.combo_stacks : ℚ)
      let ctx : HitContext := {
        damage_type := .other_skill
        coeff := coeffQ
        atk_mult_adventurer := advM
        atk_mult_buff := buff
        global_bonus := s.battle.breath_global_this
        tags := [.skill, .lightning, .artifact] }
      let res := compute_hit_damage ctx s.battle
      let s := { s with battle :=
        { res.2 with dmg_other := res.2.dmg_other + res.1 } }
      tome_proc_loop advM coeffQ per fuel s
    else s

/-- ArcaneTome `on_after_hit`: count only contexts tagged both bolt and
lightning, then consume the counter into procs. -/
def tome_after_hit (advM : ℚ) (per : ℕ) (coeffQ : ℚ) (ctx : HitContext)
    (s : SimState) : SimState :=
  if ¬ ctx.tags.contains .bolt ∨ ¬ ctx.tags.contains .lightning then s
  else
    let s := { s with tome_bolt_counter := s.tome_bolt_counter + 1 }
    tome_proc_loop advM coeffQ per 3 s

/-! Leo effects (`adventurers/leo.py`). -/

/-- The three-part basic coefficients of LeoMultiHitNinjutsuEffect. -/
def leo_basic_parts : List ℚ := [0.30, 0.70, 1.00]

/-- Per-part body of LeoMultiHit `on_after_hit`: one basic sub-hit, then at
2 star a 70 percent roll for a ninjutsu proc of the same coefficient. -/
def leo_multi_hit_part (advM : ℚ) (has_2star : Bool) (ctx : HitContext)
    (s : SimState) (part_coeff : ℚ) : SimState :=
  let basic_ctx : HitContext := {
    damage_type := .basic
    coeff := part_coeff
    is_basic := ctx.is_basic
    is_combo := ctx.is_combo
    hit_index_in_round := ctx.hit_index_in_round
    atk_base := ctx.atk_base
    atk_mult_adventurer := advM
    atk_mult_buff := ctx.atk_mult_buff
    global_bonus := ctx.global_bonus
    tags := [.basic] }
  let res := compute_hit_damage basic_ctx s.battle
  let s := { s with battle :=
    { res.2 with dmg_basic := res.2.dmg_basic + res.1 } }
  if has_2star then
    let (u, s) := rng_next s
    if u < 0.70 then
      let ninj_ctx : HitContext := {
        damage_type := .other_skill
        coeff := part_coeff
        atk_base := ctx.atk_base
        atk_mult_adventurer := advM
        atk_mult_buff := ctx.atk_mult_buff
        global_bonus := ctx.global_bonus
        tags := [.skill, .ninjutsu, .basic] }
      let res2 := compute_hit_damage ninj_ctx s.battle
      { s with battle := { res2.2 with dmg_other := res2.2.dmg_other + res2.1 } }
    else s
  else s

/-- LeoMultiHit `on_after_hit`: only basic hits are replaced; three scripted
sub-hits plus optional ninjutsu procs, then one guaranteed 100 percent
ninjutsu hit. -/
def leo_multi_hit_after_hit (advM : ℚ) (has_2star : Bool) (ctx : HitContext)
    (s : SimState) : SimState :=
  if ctx.damage_type ≠ .basic then s
  else
    let s := leo_basic_parts.foldl (leo_multi_hit_part advM has_2star ctx) s
    let ninj_final_ctx : HitContext := {
      damage_type := .other_skill
      coeff := 1.0
      atk_base := ctx.atk_base
      atk_mult_adventurer := advM
      atk_mult_buff := ctx.atk_mult_buff
      global_bonus := ctx.global_bonus
      tags := [.skill, .ninjutsu] }
    let res := compute_hit_damage ninj_final_ctx s.battle
    { s with battle := { res.2 with dmg_other := res.2.dmg_other + res.1 } }

/-- Hit loop of LeoHurricane `on_end_round_adventurer`. -/
def leo_hurricane_hits (advM coeffQ : ℚ) : ℕ → SimState → SimState
  | 0, s => s
  | n + 1, s =>
    let ctx : HitContext := {
      damage_type := .other_skill
      coeff := coeffQ
      atk_mult_adventurer := advM
      global_bonus := s.battle.breath_global_this
      tags := [.skill, .ninjutsu] }
    let res := compute_hit_damage ctx s.battle
    let s := { s with battle := { res.2 with dmg_other := res.2.dmg_other + res.1 } }
    leo_hurricane_hits advM coeffQ n s

/-- LeoHurricane `on_end_round_adventurer`: from `start_round` on, every
`interval` rounds, five ninjutsu hits. -/
def leo_hurricane_adventurer (advM : ℚ) (start_round interval : ℕ) (coeffQ : ℚ)
    (s : SimState) : SimState :=
  let r := s.battle.round_index
  if r < start_round then s
  else if (r - start_round) % interval ≠ 0 then s
  else leo_hurricane_hits advM coeffQ 5 s

/-- LeoChargeReleaseNinjutsuEffect `on_before_charge_release`.  NOTE: this
hook name is not among the hooks the battle loop in `core.py` scans, and no
other code invokes it, so this function is defined by the source but never
called during a simulation. -/
def leo_on_before_charge_release (advM coeffQ : ℚ) (grant_global_ninjutsu : Bool)
    (s : SimState) : SimState :=
  let fire : ℕ → SimState → SimState := fun n s0 =>
    Nat.rec s0 (fun _ acc =>
      let ctx : HitContext := {
        damage_type := .other_skill
        coeff := coeffQ
        atk_mult_adventurer := advM
        global_bonus := acc.battle.breath_global_this
        tags := [.skill, .ninjutsu] }
      let res := compute_hit_damage ctx acc.battle
      { acc with battle := { res.2 with dmg_other := res.2.dmg_other + res.1 } }) n
  let s := fire 3 s
  if grant_global_ninjutsu ∧ ¬ s.leo_cr_buff_applied then
    { s with
      battle := { s.battle with dynamic_global_ninjutsu_bonus :=
        s.battle.dynamic_global_ninjutsu_bonus + 0.60 }
      leo_cr_buff_applied := true }
  else s

/-! Dragon Girl effects (`adventurers/dragon_girl.py`). -/

/-- DGDragonStacksEffect `on_round_start`. -/
def dg_stacks_round_start (enabled : Bool) (max_stacks : ℕ) (s : SimState) : SimState :=
  if ¬ enabled then s
  else { s with battle := { s.battle with
    dragon_stacks := min (s.battle.dragon_stacks + 1) max_stacks } }

/-- DGDragonStacksEffect `on_before_hit`: basic, dragon-flame and
dragon-breath hits gain the per-stack global bonus. -/
def dg_stacks_before_hit (enabled : Bool) (stack_step : ℚ) (s : SimState)
    (ctx : HitContext) : HitContext :=
  if ¬ enabled then ctx
  else if ctx.damage_type = .basic ∨ ctx.damage_type = .dragon_flame
      ∨ ctx.damage_type = .dragon_breath then
    { ctx with global_bonus :=
      ctx.global_bonus + stack_step * (s.battle.dragon_stacks : ℚ) }
  else ctx

/-- DGDragonStacksEffect `on_after_hit`. -/
def dg_stacks_after_hit (enabled : Bool) (max_stacks : ℕ) (s : SimState) : SimState :=
  if ¬ enabled then s
  else { s with battle := { s.battle with
    dragon_stacks := min (s.battle.dragon_stacks + 1) max_stacks } }

/-- DGDragonFlameOnHitEffect `on_after_hit`: one dragon-flame hit per basic
hit, with the attack buff recomputed from the current combo stacks. -/
def dg_flame_after_hit (coeffQ : ℚ) (ctx : HitContext) (s : SimState) : SimState :=
  let buff := 1.0 + 0.10 * (s.battle.combo_stacks : ℚ)
  let flame_ctx : HitContext := {
    damage_type := .dragon_flame
    coeff := coeffQ
    is_basic := false
    is_combo := false
    hit_index_in_round := ctx.hit_index_in_round
    atk_base := ctx.atk_base
    atk_mult_adventurer := ctx.atk_mult_adventurer
    atk_mult_buff := buff
    global_bonus := ctx.global_bonus + s.battle.breath_dragon_this
    tags := [.skill, .dragonFlame] }
  let res := compute_hit_damage flame_ctx s.battle
  { s with battle := { res.2 with dmg_flame := res.2.dmg_flame + res.1 } }

/-- DGDragonBreathEffect `on_round_start`: promote the next-round buffs to
this-round and clear the next slots. -/
def dg_breath_round_start (s : SimState) : SimState :=
  { s with battle := { s.battle with
    breath_global_this := s.battle.breath_global_next
    breath_dragon_this := s.battle.breath_dragon_next
    breath_global_next := 0.0
    breath_dragon_next := 0.0 } }

/-- DGDragonBreathEffect `on_before_hit`: the global breath buff applies to
all hits, with no enabled guard. -/
def dg_breath_before_hit (s : SimState) (ctx : HitContext) : HitContext :=
  { ctx with global_bonus := ctx.global_bonus + s.battle.breath_global_this }

/-- DGDragonBreathEffect `on_end_round_adventurer`: on odd rounds fire the
breath (a dragon-flame hit), then schedule the next-round buffs and also
apply them for the rest of this round. -/
def dg_breath_adventurer (enabled : Bool) (coeffQ dragon_bonus_next global_bonus_next : ℚ)
    (s : SimState) : SimState :=
  if ¬ enabled then s
  else if s.battle.round_index % 2 = 0 then s
  else
    let S := 0.05 * (s.battle.dragon_stacks : ℚ)
    let gb := s.battle.breath_global_this + s.battle.breath_dragon_this + S
    let breath_ctx : HitContext := {
      damage_type := .dragon_breath
      coeff := coeffQ
      atk_mult_adventurer := 1.15
      global_bonus := gb
      tags := [.skill, .dragonFlame] }
    let res := compute_hit_damage breath_ctx s.battle
    let s := { s with battle := { res.2 with dmg_breath := res.2.dmg_breath + res.1 } }
    { s with battle := { s.battle with
      breath_dragon_next := s.battle.breath_dragon_next + dragon_bonus_next
      breath_global_next := s.battle.breath_global_next + global_bonus_next
      breath_dragon_this := s.battle.breath_dragon_this + dragon_bonus_next
      breath_global_this := s.battle.breath_global_this + global_bonus_next } }

/-! Combo Mastery (`skills/combo_mastery.py`). -/

/-- ComboMasteryEffect `on_before_hit`: multiplies the attack-buff factor
by one plus step times the current (pre-hit) stacks. -/
def combo_before_hit (atk_step : ℚ) (s : SimState) (ctx : HitContext) : HitContext :=
  { ctx with atk_mult_buff :=
    ctx.atk_mult_buff * (1.0 + atk_step * (s.battle.combo_stacks : ℚ)) }

/-- ComboMasteryEffect `on_after_hit`: combo-flagged hits add one stack,
capped at `max_stacks`. -/
def combo_after_hit (max_stacks : ℕ) (ctx : HitContext) (s : SimState) : SimState :=
  if ctx.is_combo then
    { s with battle := { s.battle with
      combo_stacks := min (s.battle.combo_stacks + 1) max_stacks } }
  else s

/-! Hook dispatch.  The battle loop calls `on_round_start`,
`on_before_hit` and `on_after_hit` on every effect (they exist on
`BaseEffect` as no-ops); the four end-of-round phases are guarded by
hasattr, modelled here by returning the state unchanged for classes that
do not define the method. -/

/-- Dispatch of `on_round_start` over the effect classes. -/
def effect_on_round_start (e : EffectInst) (s : SimState) : SimState :=
  match e with
  | .dgStacks enabled _ max_stacks => dg_stacks_round_start enabled max_stacks s
  | .dgBreath _ _ _ _ => dg_breath_round_start s
  | .ezraRing advM bonus => ezra_on_round_start advM bonus s
  | .arcaneTome _ _ _ => { s with tome_procs_this_round := 0 }
  | .leoLightningFlag enabled =>
    { s with battle := { s.battle with lightning_as_ninjutsu := enabled } }
  | _ => s

/-- Dispatch of `on_before_hit` over the effect classes. -/
def effect_on_before_hit (e : EffectInst) (s : SimState) (ctx : HitContext) :
    SimState × HitContext :=
  match e with
  | .dgStacks enabled stack_step _ => (s, dg_stacks_before_hit enabled stack_step s ctx)
  | .dgBreath _ _ _ _ => (s, dg_breath_before_hit s ctx)
  | .comboMastery atk_step _ => (s, combo_before_hit atk_step s ctx)
  | .leoMultiHit _ _ =>
    if ctx.damage_type = .basic then (s, { ctx with coeff := 0.0 }) else (s, ctx)
  | _ => (s, ctx)

/-- Dispatch of `on_after_hit` over the effect classes. -/
def effect_on_after_hit (e : EffectInst) (s : SimState) (ctx : HitContext) :
    Except PyError SimState :=
  match e with
  | .dgStacks enabled _ max_stacks => .ok (dg_stacks_after_hit enabled max_stacks s)
  | .dgFlame coeffQ => .ok (dg_flame_after_hit coeffQ ctx s)
  | .comboMastery _ max_stacks => .ok (combo_after_hit max_stacks ctx s)
  | .basicAtkBolt advM chance nashirMult multi =>
    basic_atk_bolt_after_hit advM chance nashirMult multi s
  | .arcaneTome advM per coeffQ => .ok (tome_after_hit advM per coeffQ ctx s)
  | .leoMultiHit advM has_2star => .ok (leo_multi_hit_after_hit advM has_2star ctx s)
  | _ => .ok s

/-- Dispatch of `on_end_round_adventurer` (hasattr-guarded). -/
def effect_on_end_round_adventurer (e : EffectInst) (s : SimState) : SimState :=
  match e with
  | .dgBreath enabled coeffQ dn gn => dg_breath_adventurer enabled coeffQ dn gn s
  | .leoHurricane advM start_round interval coeffQ =>
    leo_hurricane_adventurer advM start_round interval coeffQ s
  | _ => s

/-- Dispatch of `on_end_round_skills` (hasattr-guarded). -/
def effect_on_end_round_skills (e : EffectInst) (s : SimState) : Except PyError SimState :=
  match e with
  | .nashirScepter advM => .ok (nashir_on_end_round_skills advM s)
  | .extraEndBolts advM n_bolts nashirMult multi =>
    extra_end_bolts_skills advM n_bolts nashirMult multi s
  | .fiveBoltsAfterRound6 advM nashirMult multi =>
    five_bolts_skills advM nashirMult multi s
  | _ => .ok s

/-- Dispatch of `on_end_round_buffs_expire` (hasattr-guarded). -/
def effect_on_end_round_buffs_expire (e : EffectInst) (s : SimState) : SimState :=
  match e with
  | .ezraRing _ _ =>
    { s with battle := { s.battle with temp_final_lightning_bonus := 0.0 } }
  | _ => s

/-- Dispatch of `on_end_round_charge_release` (hasattr-guarded). -/
def effect_on_end_round_charge_release (e : EffectInst) (s : SimState) : SimState :=
  match e with
  | .nashirScepter advM => nashir_on_end_round_charge_release advM s
  | _ => s

/-! The battle loop (`simulate_adventurer` in `core.py`). -/

/-- Scan of `on_round_start` over all effects in registration order. -/
def scan_round_start (es : List EffectInst) (s : SimState) : SimState :=
  es.foldl (fun acc e => effect_on_round_start e acc) s

/-- Scan of `on_before_hit` over all effects in registration order. -/
def scan_before_hit (es : List EffectInst) (s : SimState) (ctx : HitContext) :
    SimState × HitContext :=
  es.foldl (fun p e => effect_on_before_hit e p.1 p.2) (s, ctx)

/-- Scan of `on_after_hit` over all effects in registration order. -/
def scan_after_hit (es : List EffectInst) (s : SimState) (ctx : HitContext) :
    Except PyError SimState :=
  es.foldlM (fun acc e => effect_on_after_hit e acc ctx) s

/-- Scan of phase 1, `on_end_round_adventurer`. -/
def scan_end_adventurer (es : List EffectInst) (s : SimState) : SimState :=
  es.foldl (fun acc e => effect_on_end_round_adventurer e acc) s

/-- Scan of phase 2, `on_end_round_skills`. -/
def scan_end_skills (es : List EffectInst) (s : SimState) : Except PyError SimState :=
  es.foldlM (fun acc e => effect_on_end_round_skills e acc) s

/-- Scan of phase 3, `on_end_round_buffs_expire`. -/
def scan_end_buffs_expire (es : List EffectInst) (s : SimState) : SimState :=
  es.foldl (fun acc e => effect_on_end_round_buffs_expire e acc) s

/-- Scan of phase 4, `on_end_round_charge_release`. -/
def scan_end_charge_release (es : List EffectInst) (s : SimState) : SimState :=
  es.foldl (fun acc e => effect_on_end_round_charge_release e acc) s

/-- The engine-level Lightning Charge reset, every third round, placed
after the buffs-expire phase and before the charge-release phase. -/
def lightning_charge_reset (s : SimState) : SimState :=
  if s.battle.lightning_charge_step > 0.0 ∧ s.battle.round_index % 3 = 0 then
    { s with battle := { s.battle with
      lightning_charge_stacks := 0
      dynamic_inbattle_lightning_bonus := 0.0 } }
  else s

/-- One basic hit of the per-round hit loop: construct the basic context,
scan before-hit hooks, resolve via the damage formula, book the damage into
the basic bucket, then scan after-hit hooks. -/
def hit_step (advM : ℚ) (es : List EffectInst) (h : ℕ) (s : SimState) :
    Except PyError SimState :=
  let ctx : HitContext := {
    damage_type := .basic
    coeff := 1.0
    is_basic := h == 1
    is_combo := decide (h ≥ 2)
    hit_index_in_round := h
    atk_mult_adventurer := advM
    tags := [.basic] }
  let p := scan_before_hit es s ctx
  let res := compute_hit_damage p.2 p.1.battle
  let _ctx2 := { p.2 with damage_done := res.1 }
  let s := { p.1 with battle := { res.2 with dmg_basic := res.2.dmg_basic + res.1 } }
  scan_after_hit es s _ctx2

/-- One full round of `simulate_adventurer`: round-start scan, the basic
hit loop, then the four end-of-round phases with the Lightning Charge
reset interjected between phases 3 and 4. -/
def round_step (advM : ℚ) (es : List EffectInst) (hits : ℕ) (r : ℕ) (s : SimState) :
    Except PyError SimState :=
  let s := { s with battle := { s.battle with round_index := r } }
  let s := scan_round_start es s
  (List.range' 1 hits).foldlM (fun s h => hit_step advM es h s) s >>= fun s =>
  let s := scan_end_adventurer es s
  scan_end_skills es s >>= fun s =>
  let s := scan_end_buffs_expire es s
  let s := lightning_charge_reset s
  let s := scan_end_charge_release es s
  .ok s

/-- Keyword arguments of the two simulator entry points.  The `seed`
argument is replaced by the stream of draws that `random.Random(seed)`
denotes, making the RNG explicit. -/
structure SimArgs where
  adv_atk_mult : ℚ
  rounds : ℕ := 15
  basic_hits_per_round : ℕ := 5
  rng_stream : ℕ → ℚ := fun _ => 0
  base_global_bonus : ℚ := 0.0
  base_inbattle_bonus : ℚ := 0.0
  base_final_bonus : ℚ := 0.0
  base_global_skill_bonus : ℚ := 0.0
  base_global_lightning_bonus : ℚ := 0.0
  base_global_ninjutsu_bonus : ℚ := 0.0
  base_final_skill_bonus : ℚ := 0.0
  base_final_lightning_bonus : ℚ := 0.0
  base_inbattle_basic_bonus : ℚ := 0.0
  base_inbattle_skill_bonus : ℚ := 0.0
  base_inbattle_lightning_bonus : ℚ := 0.0
  debug : Bool := false
  lightning_charge_step : ℚ := 0.0

/-- The fresh state both simulators build before the round loop: a default
`BattleState` with the configured base multipliers, the effect roster and
the RNG stream. -/
def init_sim_state (args : SimArgs) (es : List EffectInst) : SimState :=
  { battle := {
      rng := { stream := args.rng_stream, pos := 0 }
      debug := args.debug
      base_global_bonus := args.base_global_bonus
      base_inbattle_bonus := args.base_inbattle_bonus
      base_final_bonus := args.base_final_bonus
      base_global_skill_bonus := args.base_global_skill_bonus
      base_global_lightning_bonus := args.base_global_lightning_bonus
      base_global_ninjutsu_bonus := args.base_global_ninjutsu_bonus
      base_final_skill_bonus := args.base_final_skill_bonus
      base_final_lightning_bonus := args.base_final_lightning_bonus
      base_inbattle_basic_bonus := args.base_inbattle_basic_bonus
      base_inbattle_skill_bonus := args.base_inbattle_skill_bonus
      base_inbattle_lightning_bonus := args.base_inbattle_lightning_bonus
      lightning_charge_step := args.lightning_charge_step
      dynamic_inbattle_lightning_bonus := 0.0
      lightning_charge_stacks := 0
      dynamic_global_ninjutsu_bonus := 0.0
      lightning_as_ninjutsu := false }
    effects := es }

/-- The `simulate_adventurer` entry point of `core.py`: run the configured
number of rounds over the fresh state; a Python exception raised inside a
hook aborts the run with that error. -/
def simulate_adventurer (args : SimArgs) (es : List EffectInst) :
    Except PyError SimState :=
  (List.range' 1 args.rounds).foldlM
    (fun s r => round_step args.adv_atk_mult es args.basic_hits_per_round r s)
    (init_sim_state args es)

/-- One entry of the per-round log of `simulate_adventurer_with_log`. -/
structure RoundLogEntry where
  round : ℕ
  basic : ℚ
  flame : ℚ
  breath : ℚ
  bolt : ℚ
  other : ℚ
  deriving DecidableEq

/-- One full round of `simulate_adventurer_with_log`: identical phase
sequence to `round_step`, but the five logged buckets are sampled at the
round start and the per-round deltas are returned next to the state. -/
def round_step_log (advM : ℚ) (es : List EffectInst) (hits : ℕ) (r : ℕ) (s : SimState) :
    Except PyError (SimState × RoundLogEntry) :=
  let s := { s with battle := { s.battle with round_index := r } }
  let b0 := s.battle.dmg_basic
  let f0 := s.battle.dmg_flame
  let br0 := s.battle.dmg_breath
  let bolt0 := s.battle.dmg_bolt
  let other0 := s.battle.dmg_other
  let s := scan_round_start es s
  (List.range' 1 hits).foldlM (fun s h => hit_step advM es h s) s >>= fun s =>
  let s := scan_end_adventurer es s
  scan_end_skills es s >>= fun s =>
  let s := scan_end_buffs_expire es s
  let s := lightning_charge_reset s
  let s := scan_end_charge_release es s
  .ok (s, {
    round := r
    basic := s.battle.dmg_basic - b0
    flame := s.battle.dmg_flame - f0
    breath := s.battle.dmg_breath - br0
    bolt := s.battle.dmg_bolt - bolt0
    other := s.battle.dmg_other - other0 })

/-- The `simulate_adventurer_with_log` entry point of `core.py`: same loop
as `simulate_adventurer`, additionally collecting one log entry per round. -/
def simulate_adventurer_with_log (args : SimArgs) (es : List EffectInst) :
    Except PyError (SimState × List RoundLogEntry) :=
  (List.range' 1 args.rounds).foldlM
    (fun p r =>
      round_step_log args.adv_atk_mult es args.basic_hits_per_round r p.1 >>= fun q =>
      .ok (q.1, p.2 ++ [q.2]))
    (init_sim_state args es, ([] : List RoundLogEntry))

/-! Configuration and builder (`core.py`). -/

/-- The `SimulationConfig` dataclass. -/
structure SimulationConfig where
  debug : Bool := false
  adventurer : String := "DG"
  star : ℤ := 0
  weapon : Option String := none
  combo_mastery : Bool := false

  use_extra_end_bolts : Bool := true
  extra_end_bolts_count : ℤ := 3
  basic_atk_bolt_level : ℤ := 0
  five_bolts_from_round6 : Bool := false

  rounds : ℕ := 15
  basic_hits_per_round : ℕ := 5

  base_global_bonus : ℚ := 0.0
  base_inbattle_bonus : ℚ := 0.0
  base_final_bonus : ℚ := 0.0

  base_global_skill_bonus : ℚ := 0.0
  base_global_lightning_bonus : ℚ := 0.0
  base_global_ninjutsu_bonus : ℚ := 0.0
  base_final_skill_bonus : ℚ := 0.0
  base_final_lightning_bonus : ℚ := 0.0

  base_inbattle_basic_bonus : ℚ := 0.0
  base_inbattle_skill_bonus : ℚ := 0.0
  base_inbattle_lightning_bonus : ℚ := 0.0

  lightning_charge_step : ℚ := 0.0
  multiple_lightning_factor : ℤ := 1

  use_ezra_ring : Bool := false
  ezra_final_light_bonus : ℚ := 0.20

  artifact : Option String := none
  artifact_level : ℤ := 0

/-- The `dg_effects_for_star` roster builder of `dragon_girl.py`. -/
def dg_effects_for_star (star : ℤ) (with_combo_mastery : Bool) : List EffectInst :=
  (if with_combo_mastery then [EffectInst.comboMastery 0.10 99] else [])
  ++ [EffectInst.dgStacks (decide (star ≥ 5)) 0.05 20]
  ++ [EffectInst.dgFlame (if star < 2 then 0.9 else 1.8)]
  ++ (if star < 4 then [EffectInst.dgBreath false 0.0 0.0 0.0]
      else if star ≤ 6 then [EffectInst.dgBreath true 6.0 0.3 0.0]
      else if star = 7 then [EffectInst.dgBreath true 12.0 0.6 0.0]
      else [EffectInst.dgBreath true 12.0 0.6 0.3])

/-- The `leo_effects_for_star` roster builder of `leo.py`.  Note that its
`with_combo_mastery` argument is accepted but unused by the source. -/
def leo_effects_for_star (star : ℤ) (_with_combo_mastery : Bool) : List EffectInst :=
  [EffectInst.leoMultiHit 1.10 (decide (star ≥ 2))]
  ++ (if 4 ≤ star ∧ star ≤ 6 then [EffectInst.leoHurricane 1.10 2 3 2.0]
      else if star ≥ 7 then [EffectInst.leoHurricane 1.10 1 2 4.0]
      else [])
  ++ [EffectInst.leoLightningFlag (decide (star ≥ 5))]
  ++ (if 8 ≤ star ∧ star ≤ 9 then [EffectInst.leoChargeRelease 1.10 3.0 false]
      else if star ≥ 10 then [EffectInst.leoChargeRelease 1.10 5.0 true]
      else [])

/-- The `build_effects_from_config` function of `core.py`: adventurer
roster, weapon, Ezra Ring, lightning skills and artifact, with unknown
names silently degrading to a neutral multiplier and no effects. -/
def build_effects_from_config (config : SimulationConfig) : List EffectInst × ℚ :=
  let advPair : List EffectInst × ℚ :=
    if config.adventurer = "DG" then
      (dg_effects_for_star config.star config.combo_mastery, 1.15)
    else if config.adventurer = "Leo" then
      (leo_effects_for_star config.star config.combo_mastery, 1.10)
    else if config.adventurer = "Daji" then ([], 1.15)
    else ([], 1.0)
  let adv_atk_mult := advPair.2
  let nashirMult : Option ℚ :=
    if config.weapon = some "Nashir" then some adv_atk_mult else none
  let es := advPair.1
  let es := es ++ (match nashirMult with
    | some m => [EffectInst.nashirScepter m]
    | none => [])
  let es := es ++ (if config.use_ezra_ring then
    [EffectInst.ezraRing adv_atk_mult config.ezra_final_light_bonus] else [])
  let es := es ++ (if config.use_extra_end_bolts ∧ config.extra_end_bolts_count > 0 then
    [EffectInst.extraEndBolts adv_atk_mult config.extra_end_bolts_count nashirMult
      config.multiple_lightning_factor] else [])
  let es := es ++ (if config.basic_atk_bolt_level > 0 then
    let chance : ℚ :=
      if config.adventurer = "Leo" then
        if config.basic_atk_bolt_level = 1 then 0.8336 else 0.984
      else
        if config.basic_atk_bolt_level = 1 then 0.45 else 0.75
    [EffectInst.basicAtkBolt adv_atk_mult chance nashirMult
      config.multiple_lightning_factor] else [])
  let es := es ++ (if config.five_bolts_from_round6 then
    [EffectInst.fiveBoltsAfterRound6 adv_atk_mult nashirMult
      config.multiple_lightning_factor] else [])
  let es := es ++ (if config.artifact = some "ArcaneTome" ∧ config.artifact_level > 0 then
    (if config.artifact_level = 1 then [EffectInst.arcaneTome adv_atk_mult 4 5.0]
     else [EffectInst.arcaneTome adv_atk_mult 3 7.5]) else [])
  (es, adv_atk_mult)

/-- The `SimArgs` that `run_simulation` passes to the simulators for a
configuration, with the stream standing in for `random.Random(seed)`. -/
def sim_args_of_config (config : SimulationConfig) (stream : ℕ → ℚ) : SimArgs :=
  { adv_atk_mult := (build_effects_from_config config).2
    rounds := config.rounds
    basic_hits_per_round := config.basic_hits_per_round
    rng_stream := stream
    base_global_bonus := config.base_global_bonus
    base_inbattle_bonus := config.base_inbattle_bonus
    base_final_bonus := config.base_final_bonus
    base_global_skill_bonus := config.base_global_skill_bonus
    base_global_lightning_bonus := config.base_global_lightning_bonus
    base_global_ninjutsu_bonus := config.base_global_ninjutsu_bonus
    base_final_skill_bonus := config.base_final_skill_bonus
    base_final_lightning_bonus := config.base_final_lightning_bonus
    base_inbattle_basic_bonus := config.base_inbattle_basic_bonus
    base_inbattle_skill_bonus := config.base_inbattle_skill_bonus
    base_inbattle_lightning_bonus := config.base_inbattle_lightning_bonus
    debug := config.debug
    lightning_charge_step := config.lightning_charge_step }

/-- The `run_simulation` entry point (`with_log=False` path): build the
effect roster from the configuration and run `simulate_adventurer`. -/
def run_simulation (config : SimulationConfig) (stream : ℕ → ℚ) :
    Except PyError SimState :=
  simulate_adventurer (sim_args_of_config config stream)
    (build_effects_from_config config).1

/-- The `run_simulation` entry point with `with_log=True`: same arguments,
routed to `simulate_adventurer_with_log`. -/
def run_simulation_with_log (config : SimulationConfig) (stream : ℕ → ℚ) :
    Except PyError (SimState × List RoundLogEntry) :=
  simulate_adventurer_with_log (sim_args_of_config config stream)
    (build_effects_from_config config).1

/-! Observation helpers used by concrete-run theorems (results of a run
cannot be compared whole, because the state carries the RNG stream, a
function; individual fields are decidable). -/

/-- Error projection of a simulation result. -/
def sim_error (x : Except PyError SimState) : Option PyError :=
  match x with
  | .error e => some e
  | .ok _ => none

/-- Field projection of a simulation result. -/
def sim_proj {α : Type} (f : SimState → α) (x : Except PyError SimState) : Option α :=
  match x with
  | .error _ => none
  | .ok s => some (f s)

/-- The nine damage accumulators of a battle state, as a list. -/
def dmg_buckets (b : BattleState) : List ℚ :=
  [b.dmg_basic, b.dmg_flame, b.dmg_breath, b.dmg_other, b.dmg_bolt,
   b.dmg_artifact, b.dmg_ninjutsu, b.dmg_hurricane, b.dmg_ultimate]

/-! Claim-side formula definitions, written from the words of the
specification (claim C1) for comparison with `compute_hit_damage`. -/

/-- Claimed base constant: 12 for basic damage, the larger skill constant
50 for every other damage type. -/
def claimed_K (ctx : HitContext) : ℚ :=
  if ctx.damage_type = .basic then 12.0 else 50.0

/-- Claimed effective attack. -/
def claimed_effective_attack (ctx : HitContext) : ℚ :=
  ctx.atk_base * ctx.atk_mult_adventurer * ctx.atk_mult_buff

/-- Claimed global bracket: the context value, the generic state bonus,
and every tag-conditional state bonus whose tag the hit carries. -/
def claimed_global_total (ctx : HitContext) (b : BattleState) : ℚ :=
  ctx.global_bonus + b.base_global_bonus
  + (if ctx.tags.contains .skill then b.base_global_skill_bonus else 0)
  + (if ctx.tags.contains .lightning then b.base_global_lightning_bonus else 0)
  + (if ctx.tags.contains .ninjutsu then
      b.base_global_ninjutsu_bonus + b.dynamic_global_ninjutsu_bonus else 0)

/-- Claimed in-battle bracket. -/
def claimed_inbattle_total (ctx : HitContext) (b : BattleState) : ℚ :=
  ctx.inbattle_bonus + b.base_inbattle_bonus
  + (if ctx.tags.contains .basic then b.base_inbattle_basic_bonus else 0)
  + (if ctx.tags.contains .skill then b.base_inbattle_skill_bonus else 0)
  + (if ctx.tags.contains .lightning then
      b.base_inbattle_lightning_bonus + b.dynamic_inbattle_lightning_bonus else 0)

/-- Claimed final bracket. -/
def claimed_final_total (ctx : HitContext) (b : BattleState) : ℚ :=
  ctx.final_bonus + b.base_final_bonus
  + (if ctx.tags.contains .skill then b.base_final_skill_bonus else 0)
  + (if ctx.tags.contains .lightning then
      b.base_final_lightning_bonus + b.temp_final_lightning_bonus else 0)

/-- Claimed damage: effective attack times coefficient times K, with the
three brackets compounding multiplicatively. -/
def claimed_damage (ctx : HitContext) (b : BattleState) : ℚ :=
  claimed_effective_attack ctx * ctx.coeff * claimed_K ctx
    * (1 + claimed_global_total ctx b)
    * (1 + claimed_inbattle_total ctx b)
    * (1 + claimed_final_total ctx b)

/-- Claimed shape of one basic hit: construct a basic context for hit
index h, run every on_before_hit, resolve through the damage formula and
add the result to the basic bucket, then run every on_after_hit. -/
def claimed_basic_hit (advM : ℚ) (es : List EffectInst) (h : ℕ) (s : SimState) :
    Except PyError SimState :=
  let ctx : HitContext := {
    damage_type := .basic
    coeff := 1.0
    is_basic := h == 1
    is_combo := decide (h ≥ 2)
    hit_index_in_round := h
    atk_mult_adventurer := advM
    tags := [.basic] }
  let p := scan_before_hit es s ctx
  let res := compute_hit_damage p.2 p.1.battle
  let resolved := { p.2 with damage_done := res.1 }
  let s1 := { p.1 with battle := { res.2 with dmg_basic := res.2.dmg_basic + res.1 } }
  scan_after_hit es s1 resolved

/-- Claimed shape of one round, phases in the claimed order: (a) every
on_round_start; (b) the basic hits; (c) the four end-of-round phases in
the order adventurer, skills, buffs-expire, charge-release, with the
per-3-rounds lightning-charge reset applied after buffs-expire and before
charge-release exactly when the step is positive and the round index is
divisible by 3. -/
def claimed_round (advM : ℚ) (es : List EffectInst) (hits : ℕ) (r : ℕ) (s : SimState) :
    Except PyError SimState :=
  let s := { s with battle := { s.battle with round_index := r } }
  let s := scan_round_start es s
  (List.range' 1 hits).foldlM (fun s h => claimed_basic_hit advM es h s) s >>= fun s =>
  let s := scan_end_adventurer es s
  scan_end_skills es s >>= fun s =>
  let s := scan_end_buffs_expire es s
  let s :=
    if s.battle.lightning_charge_step > 0.0 ∧ s.battle.round_index % 3 = 0 then
      { s with battle := { s.battle with
        lightning_charge_stacks := 0
        dynamic_inbattle_lightning_bonus := 0.0 } }
    else s
  .ok (scan_end_charge_release es s)

/-! Theorems for the claims. -/

/-- Per-round log record derived from two snapshots of the state. -/
def round_delta (r : ℕ) (s0 s1 : SimState) : RoundLogEntry :=
  { round := r
    basic := s1.battle.dmg_basic - s0.battle.dmg_basic
    flame := s1.battle.dmg_flame - s0.battle.dmg_flame
    breath := s1.battle.dmg_breath - s0.battle.dmg_breath
    bolt := s1.battle.dmg_bolt - s0.battle.dmg_bolt
    other := s1.battle.dmg_other - s0.battle.dmg_other }

/-- Configuration with the Arcane Tome (level 1, four bolts per proc), the
Nashir weapon and three extra end-of-round bolts, one round; the positive
lightning-charge step makes the engine count every resolved bolt hit. -/
def c5_failing_config : SimulationConfig :=
  { adventurer := "Daji", weapon := some "Nashir", artifact := some "ArcaneTome",
    artifact_level := 1, rounds := 1, lightning_charge_step := 0.01 }

/-- One basic hit per round, Nashir alone, and a draw stream that stays at
0.9 so no bolt ever upgrades to thunder. -/
def c6_args (r : ℕ) : SimArgs :=
  { adv_atk_mult := 1.0, rounds := r, basic_hits_per_round := 1,
    rng_stream := fun _ => 0.9 }

/-- The bolt context the amended claim describes, with the coefficient as
the only moving part. -/
def nashir_claimed_bolt_ctx (advM buff gb coeff : ℚ) : HitContext :=
  { damage_type := .other_skill
    coeff := coeff
    atk_mult_adventurer := advM
    atk_mult_buff := buff
    global_bonus := gb
    tags := [.skill, .lightning, .bolt] }

/-- Configuration whose adventurer, weapon and artifact names are all
unrecognized; every other field keeps its default (in particular the extra
end-of-round bolts stay enabled). -/
def c9_unknown_config : SimulationConfig :=
  { adventurer := "Bogus", weapon := some "Bogus", artifact := some "Bogus" }

/-- Two states agreeing on the ninjutsu dynamic bonus and combo stacks. -/
def frame_ok (s s' : SimState) : Prop :=
  s'.battle.dynamic_global_ninjutsu_bonus = s.battle.dynamic_global_ninjutsu_bonus
  ∧ s'.battle.combo_stacks = s.battle.combo_stacks

/-- Cap condition: every combo-mastery instance in the roster carries the
builder cap 99. -/
def cap_ok (e : EffectInst) : Prop :=
  match e with
  | .comboMastery _ cap => cap = 99
  | _ => True

/-- Membership-wide cap condition for a roster. -/
def all_cap_ok (l : List EffectInst) : Prop := ∀ e ∈ l, cap_ok e

/-- Concrete configuration for the C7 witness: dragon girl with combo
mastery and the crashing generic bolt path disabled. -/
def c7_witness_config : SimulationConfig :=
  { combo_mastery := true, use_extra_end_bolts := false }

/-- Nonnegativity of every additive battle-state quantity the damage
formula or a hook can feed into a booked damage amount. -/
structure BattleNonneg (b : BattleState) : Prop where
  breath_global_next : 0 ≤ b.breath_global_next
  breath_dragon_next : 0 ≤ b.breath_dragon_next
  breath_global_this : 0 ≤ b.breath_global_this
  breath_dragon_this : 0 ≤ b.breath_dragon_this
  base_global_bonus : 0 ≤ b.base_global_bonus
  base_inbattle_bonus : 0 ≤ b.base_inbattle_bonus
  base_final_bonus : 0 ≤ b.base_final_bonus
  base_global_lightning_bonus : 0 ≤ b.base_global_lightning_bonus
  base_global_skill_bonus : 0 ≤ b.base_global_skill_bonus
  base_global_ninjutsu_bonus : 0 ≤ b.base_global_ninjutsu_bonus
  base_final_skill_bonus : 0 ≤ b.base_final_skill_bonus
  base_final_lightning_bonus : 0 ≤ b.base_final_lightning_bonus
  base_inbattle_basic_bonus : 0 ≤ b.base_inbattle_basic_bonus
  base_inbattle_skill_bonus : 0 ≤ b.base_inbattle_skill_bonus
  base_inbattle_lightning_bonus : 0 ≤ b.base_inbattle_lightning_bonus
  lightning_charge_step : 0 ≤ b.lightning_charge_step
  dynamic_inbattle_lightning_bonus : 0 ≤ b.dynamic_inbattle_lightning_bonus
  temp_final_lightning_bonus : 0 ≤ b.temp_final_lightning_bonus
  dynamic_global_ninjutsu_bonus : 0 ≤ b.dynamic_global_ninjutsu_bonus
  daji_bolt_coeff_bonus : ∀ q ∈ b.daji_bolt_coeff_bonus, 0 ≤ q

/-- Nonnegativity of the full simulation state. -/
structure StateNonneg (s : SimState) : Prop where
  battle : BattleNonneg s.battle
  nashir_bolt_stacks : 0 ≤ s.nashir_bolt_stacks

/-- Nonnegativity of a hit context. -/
structure CtxNonneg (ctx : HitContext) : Prop where
  coeff : 0 ≤ ctx.coeff
  atk_base : 0 ≤ ctx.atk_base
  atk_mult_adventurer : 0 ≤ ctx.atk_mult_adventurer
  atk_mult_buff : 0 ≤ ctx.atk_mult_buff
  global_bonus : 0 ≤ ctx.global_bonus
  inbattle_bonus : 0 ≤ ctx.inbattle_bonus
  final_bonus : 0 ≤ ctx.final_bonus

/-- Pointwise order of the nine damage buckets. -/
structure DmgLe (s s' : SimState) : Prop where
  dmg_basic : s.battle.dmg_basic ≤ s'.battle.dmg_basic
  dmg_flame : s.battle.dmg_flame ≤ s'.battle.dmg_flame
  dmg_breath : s.battle.dmg_breath ≤ s'.battle.dmg_breath
  dmg_other : s.battle.dmg_other ≤ s'.battle.dmg_other
  dmg_bolt : s.battle.dmg_bolt ≤ s'.battle.dmg_bolt
  dmg_artifact : s.battle.dmg_artifact ≤ s'.battle.dmg_artifact
  dmg_ninjutsu : s.battle.dmg_ninjutsu ≤ s'.battle.dmg_ninjutsu
  dmg_hurricane : s.battle.dmg_hurricane ≤ s'.battle.dmg_hurricane
  dmg_ultimate : s.battle.dmg_ultimate ≤ s'.battle.dmg_ultimate

/-- All nine damage buckets nonnegative. -/
structure DmgNonneg (s : SimState) : Prop where
  dmg_basic : 0 ≤ s.battle.dmg_basic
  dmg_flame : 0 ≤ s.battle.dmg_flame
  dmg_breath : 0 ≤ s.battle.dmg_breath
  dmg_other : 0 ≤ s.battle.dmg_other
  dmg_bolt : 0 ≤ s.battle.dmg_bolt
  dmg_artifact : 0 ≤ s.battle.dmg_artifact
  dmg_ninjutsu : 0 ≤ s.battle.dmg_ninjutsu
  dmg_hurricane : 0 ≤ s.battle.dmg_hurricane
  dmg_ultimate : 0 ≤ s.battle.dmg_ultimate

/-- Nonnegativity of the numeric constructor arguments of an effect, as
`build_effects_from_config` always produces them. -/
def effect_nonneg (e : EffectInst) : Prop :=
  match e with
  | .dgStacks _ st _ => 0 ≤ st
  | .dgFlame c => 0 ≤ c
  | .dgBreath _ c dn gn => 0 ≤ c ∧ 0 ≤ dn ∧ 0 ≤ gn
  | .comboMastery st _ => 0 ≤ st
  | .nashirScepter a => 0 ≤ a
  | .ezraRing a fb => 0 ≤ a ∧ 0 ≤ fb
  | .extraEndBolts a _ nm _ => 0 ≤ a ∧ ∀ q ∈ nm, 0 ≤ q
  | .basicAtkBolt a _ nm _ => 0 ≤ a ∧ ∀ q ∈ nm, 0 ≤ q
  | .fiveBoltsAfterRound6 a nm _ => 0 ≤ a ∧ ∀ q ∈ nm, 0 ≤ q
  | .arcaneTome a _ c => 0 ≤ a ∧ 0 ≤ c
  | .leoMultiHit a _ => 0 ≤ a
  | .leoHurricane a _ _ c => 0 ≤ a ∧ 0 ≤ c
  | .leoLightningFlag _ => True
  | .leoChargeRelease _ _ _ => True

/-- Nonnegativity of the numeric simulator arguments. -/
structure ArgsNonneg (args : SimArgs) : Prop where
  adv_atk_mult : 0 ≤ args.adv_atk_mult
  base_global_bonus : 0 ≤ args.base_global_bonus
  base_inbattle_bonus : 0 ≤ args.base_inbattle_bonus
  base_final_bonus : 0 ≤ args.base_final_bonus
  base_global_skill_bonus : 0 ≤ args.base_global_skill_bonus
  base_global_lightning_bonus : 0 ≤ args.base_global_lightning_bonus
  base_global_ninjutsu_bonus : 0 ≤ args.base_global_ninjutsu_bonus
  base_final_skill_bonus : 0 ≤ args.base_final_skill_bonus
  base_final_lightning_bonus : 0 ≤ args.base_final_lightning_bonus
  base_inbattle_basic_bonus : 0 ≤ args.base_inbattle_basic_bonus
  base_inbattle_skill_bonus : 0 ≤ args.base_inbattle_skill_bonus
  base_inbattle_lightning_bonus : 0 ≤ args.base_inbattle_lightning_bonus
  lightning_charge_step : 0 ≤ args.lightning_charge_step

/-- Nonnegativity of the numeric configuration fields. -/
structure ConfigNonneg (cfg : SimulationConfig) : Prop where
  base_global_bonus : 0 ≤ cfg.base_global_bonus
  base_inbattle_bonus : 0 ≤ cfg.base_inbattle_bonus
  base_final_bonus : 0 ≤ cfg.base_final_bonus
  base_global_skill_bonus : 0 ≤ cfg.base_global_skill_bonus
  base_global_lightning_bonus : 0 ≤ cfg.base_global_lightning_bonus
  base_global_ninjutsu_bonus : 0 ≤ cfg.base_global_ninjutsu_bonus
  base_final_skill_bonus : 0 ≤ cfg.base_final_skill_bonus
  base_final_lightning_bonus : 0 ≤ cfg.base_final_lightning_bonus
  base_inbattle_basic_bonus : 0 ≤ cfg.base_inbattle_basic_bonus
  base_inbattle_skill_bonus : 0 ≤ cfg.base_inbattle_skill_bonus
  base_inbattle_lightning_bonus : 0 ≤ cfg.base_inbattle_lightning_bonus
  lightning_charge_step : 0 ≤ cfg.lightning_charge_step
  ezra_final_light_bonus : 0 ≤ cfg.ezra_final_light_bonus

/-- Membership-wide nonnegativity condition for a roster. -/
def all_effect_nonneg (l : List EffectInst) : Prop := ∀ e ∈ l, effect_nonneg e

/-- Configuration for the C8 counterexample: no crashing bolt path, one
round, and a configured negative global damage bonus. -/
def c8_failing_config : SimulationConfig :=
  { use_extra_end_bolts := false, base_global_bonus := -2.0, rounds := 1 }

/-- Concrete configuration for the C8 witness: dragon girl with combo
mastery and the crashing generic bolt path disabled. -/
def c8_witness_config : SimulationConfig :=
  { combo_mastery := true, use_extra_end_bolts := false }

lemma compute_hit_damage_fst (ctx : HitContext) (b : BattleState) :
    (compute_hit_damage ctx b).1 = claimed_damage ctx b := by
  simp only [compute_hit_damage, claimed_damage, claimed_effective_attack, claimed_K,
    claimed_global_total, claimed_inbattle_total, claimed_final_total, K_BASIC, K_SKILL]
  split_ifs <;> ring

/-! Claim-side round sequence, written from the words of claim C4. -/

unseal Rat.mul Rat.add Rat.sub Rat.inv Rat.ofScientific in
/-- C1: compute_hit_damage returns effective attack times coeff times K
(12 for basic, 50 otherwise) times the three compounded brackets, each
bracket summing the context value, the generic state bonus and the
tag-conditional state bonuses of the tags the hit carries; a skill plus
lightning tagged hit receives both the skill and the lightning global
bonus while an identical basic-tagged hit receives neither; the basic hit
example yields 12000 and with global 0.5 and final 0.2 yields 21600. -/
theorem c1_damage_formula :
    (∀ (ctx : HitContext) (b : BattleState),
      (compute_hit_damage ctx b).1 = claimed_damage ctx b)
    ∧ (compute_hit_damage { damage_type := .basic, coeff := 1.0, tags := [.basic] } {}).1
        = 12000
    ∧ (compute_hit_damage
        { damage_type := .basic, coeff := 1.0, global_bonus := 0.5, final_bonus := 0.2,
          tags := [.basic] } {}).1 = 21600
    ∧ (compute_hit_damage
        { damage_type := .other_skill, coeff := 1.0, tags := [.skill, .lightning] }
        { base_global_skill_bonus := 0.1, base_global_lightning_bonus := 0.2 }).1
        = 65000
    ∧ (compute_hit_damage
        { damage_type := .other_skill, coeff := 1.0, tags := [.basic] }
        { base_global_skill_bonus := 0.1, base_global_lightning_bonus := 0.2 }).1
        = 50000 :=
  ⟨compute_hit_damage_fst, by decide, by decide, by decide, by decide⟩

unseal Rat.mul Rat.add Rat.sub Rat.inv Rat.ofScientific in
/-- C3: the claim says every accepted configuration, in particular the
default one, runs to completion without an exception; in fact the default
configuration (no weapon, extra end-of-round bolts enabled) raises
AttributeError on the undeclared attribute lightning_as_demonic in the
generic bolt path during round 1, so the code contradicts the documented
no-raise contract. -/
theorem c3_default_config_raises :
    sim_error (run_simulation {} (fun _ => 1/2))
      = some (.attributeError "lightning_as_demonic") := by decide

/-- C4: each simulated round executes exactly the claimed sequence:
round-start scan, the configured basic hits (context build, before-hit
scan, formula resolution booked into the basic bucket, after-hit scan),
then the four end-of-round phases in the order adventurer, skills,
buffs-expire, charge-release, with the lightning-charge reset zeroing the
stacks and the dynamic bonus after buffs-expire and before charge-release
exactly when the step is positive and the round index is divisible by 3. -/
theorem c4_round_sequence :
    ∀ (advM : ℚ) (es : List EffectInst) (hits r : ℕ) (s : SimState),
      round_step advM es hits r s = claimed_round advM es hits r s := by
  intro advM es hits r s
  rfl

/-! Agreement of the two (textually duplicated) simulator entry points. -/

lemma round_step_log_eq (advM : ℚ) (es : List EffectInst) (hits r : ℕ) (s : SimState) :
    round_step_log advM es hits r s
      = (round_step advM es hits r s).map (fun s1 => (s1, round_delta r s s1)) := by
  simp only [round_step_log, round_step]
  cases h1 : (List.range' 1 hits).foldlM (fun s h => hit_step advM es h s)
      (scan_round_start es { s with battle := { s.battle with round_index := r } }) with
  | error e => rfl
  | ok s1 =>
    simp only [Bind.bind, Except.bind]
    cases h2 : scan_end_skills es (scan_end_adventurer es s1) with
    | error e => rfl
    | ok s2 => simp [Except.map, round_delta]

lemma with_log_fold_eq (advM : ℚ) (es : List EffectInst) (hits : ℕ) :
    ∀ (l : List ℕ) (s : SimState) (acc : List RoundLogEntry),
    (l.foldlM
      (fun p r => round_step_log advM es hits r p.1 >>= fun q => .ok (q.1, p.2 ++ [q.2]))
      (s, acc)).map Prod.fst
    = l.foldlM (fun s r => round_step advM es hits r s) s := by
  intro l
  induction l with
  | nil => intro s acc; rfl
  | cons r l ih =>
    intro s acc
    simp only [List.foldlM_cons]
    rw [round_step_log_eq]
    cases h : round_step advM es hits r s with
    | error e => rfl
    | ok s1 => exact ih s1 (acc ++ [round_delta r s s1])

/-- C2: the simulation is a pure function of its arguments (the RNG is the
explicit stream every stochastic decision consumes from, in hook order),
so two executions with identical arguments return identical damage
accumulators and identical per-round logs; moreover the two duplicated
entry points simulate_adventurer_with_log and simulate_adventurer compute
identical battle states for every argument and effect roster. -/
theorem c2_deterministic_runs :
    ∀ (args : SimArgs) (es : List EffectInst),
      (simulate_adventurer_with_log args es).map Prod.fst
        = simulate_adventurer args es := by
  intro args es
  exact with_log_fold_eq args.adv_atk_mult es args.basic_hits_per_round
    (List.range' 1 args.rounds) (init_sim_state args es) []

/-! Concrete run used for claim C5. -/

unseal Rat.mul Rat.add Rat.sub Rat.inv Rat.ofScientific in
/-- C5: the claim (and the docstring of ArcaneTomeEffect) says the tome
observes every bolt-and-lightning tagged hit through the on_after_bolt
broadcast and procs every bolts_per_proc bolts; in fact no effect class
defines on_after_bolt (the tome implements on_after_hit, which the loop
only invokes on basic-tagged hits), so in a one-round run in which four
bolt hits resolved (witnessed by the engine-side lightning-charge counter
reaching 4) the tome counted nothing, proced nothing and booked no
damage. -/
theorem c5_tome_never_counts :
    (∀ e : EffectInst, has_on_after_bolt e = false)
    ∧ sim_proj (fun s => (s.battle.lightning_charge_stacks, s.tome_bolt_counter,
        s.tome_procs_this_round, s.battle.dmg_other))
        (run_simulation c5_failing_config (fun _ => 0.9))
      = some (4, 0, 0, 0) :=
  ⟨fun _ => rfl, by decide⟩

/-! Concrete runs used for claim C6. -/

unseal Rat.mul Rat.add Rat.sub Rat.inv Rat.ofScientific in
/-- C6 counterexample: with a stream that never rolls below 0.5 no bolt is
ever upgraded, so no charged (thunder) hit occurs, witnessed by the bolt
stacks staying 0 after rounds 1 and 2 (each thunder hit would add one);
yet the charge level still advances 1 to 2 to 3 on those rounds, and the
round-3 charge release fires its 6-thunder burst anyway (stacks jump to
6, level resets to 1) — refuting the claim that the charged hits are what
accumulate the charge level. -/
theorem c6_counterexample :
    sim_proj (fun s => (s.nashir_charge_level, s.nashir_bolt_stacks))
        (simulate_adventurer (c6_args 1) [.nashirScepter 1.0]) = some (2, 0)
    ∧ sim_proj (fun s => (s.nashir_charge_level, s.nashir_bolt_stacks))
        (simulate_adventurer (c6_args 2) [.nashirScepter 1.0]) = some (3, 0)
    ∧ sim_proj (fun s => (s.nashir_charge_level, s.nashir_bolt_stacks))
        (simulate_adventurer (c6_args 3) [.nashirScepter 1.0]) = some (1, 6) := by
  refine ⟨by decide, by decide, by decide⟩

/-! Field-preservation lemmas for the damage formula: its state side
effects touch only the debug log, the lightning-charge stack counter and
the dynamic in-battle lightning bonus. -/

lemma compute_snd_eq (ctx : HitContext) (b : BattleState) :
    ∃ K ae g i f d, (compute_hit_damage ctx b).2
      = lightning_charge_update ctx (debug_log_hit b ctx K ae g i f d) :=
  ⟨_, _, _, _, _, _, rfl⟩

lemma compute_snd_shape (ctx : HitContext) (b : BattleState) :
    (compute_hit_damage ctx b).2
      = { b with
          debug_logs := (compute_hit_damage ctx b).2.debug_logs
          lightning_charge_stacks := (compute_hit_damage ctx b).2.lightning_charge_stacks
          dynamic_inbattle_lightning_bonus :=
            (compute_hit_damage ctx b).2.dynamic_inbattle_lightning_bonus } := by
  obtain ⟨K, ae, g, i, f, d, h⟩ := compute_snd_eq ctx b
  rw [h]
  unfold lightning_charge_update debug_log_hit
  split_ifs <;> rfl

lemma compute_preserves_round_index (ctx : HitContext) (b : BattleState) :
    (compute_hit_damage ctx b).2.round_index = b.round_index := by
  rw [compute_snd_shape ctx b]

lemma compute_preserves_dragon_stacks (ctx : HitContext) (b : BattleState) :
    (compute_hit_damage ctx b).2.dragon_stacks = b.dragon_stacks := by
  rw [compute_snd_shape ctx b]

lemma compute_preserves_breath_global_next (ctx : HitContext) (b : BattleState) :
    (compute_hit_damage ctx b).2.breath_global_next = b.breath_global_next := by
  rw [compute_snd_shape ctx b]

lemma compute_preserves_breath_dragon_next (ctx : HitContext) (b : BattleState) :
    (compute_hit_damage ctx b).2.breath_dragon_next = b.breath_dragon_next := by
  rw [compute_snd_shape ctx b]

lemma compute_preserves_breath_global_this (ctx : HitContext) (b : BattleState) :
    (compute_hit_damage ctx b).2.breath_global_this = b.breath_global_this := by
  rw [compute_snd_shape ctx b]

lemma compute_preserves_breath_dragon_this (ctx : HitContext) (b : BattleState) :
    (compute_hit_damage ctx b).2.breath_dragon_this = b.breath_dragon_this := by
  rw [compute_snd_shape ctx b]

lemma compute_preserves_combo_stacks (ctx : HitContext) (b : BattleState) :
    (compute_hit_damage ctx b).2.combo_stacks = b.combo_stacks := by
  rw [compute_snd_shape ctx b]

lemma compute_preserves_base_global_bonus (ctx : HitContext) (b : BattleState) :
    (compute_hit_damage ctx b).2.base_global_bonus = b.base_global_bonus := by
  rw [compute_snd_shape ctx b]

lemma compute_preserves_base_inbattle_bonus (ctx : HitContext) (b : BattleState) :
    (compute_hit_damage ctx b).2.base_inbattle_bonus = b.base_inbattle_bonus := by
  rw [compute_snd_shape ctx b]

lemma compute_preserves_base_final_bonus (ctx : HitContext) (b : BattleState) :
    (compute_hit_damage ctx b).2.base_final_bonus = b.base_final_bonus := by
  rw [compute_snd_shape ctx b]

lemma compute_preserves_base_global_lightning_bonus (ctx : HitContext) (b : BattleState) :
    (compute_hit_damage ctx b).2.base_global_lightning_bonus = b.base_global_lightning_bonus := by
  rw [compute_snd_shape ctx b]

lemma compute_preserves_base_global_skill_bonus (ctx : HitContext) (b : BattleState) :
    (compute_hit_damage ctx b).2.base_global_skill_bonus = b.base_global_skill_bonus := by
  rw [compute_snd_shape ctx b]

lemma compute_preserves_base_global_ninjutsu_bonus (ctx : HitContext) (b : BattleState) :
    (compute_hit_damage ctx b).2.base_global_ninjutsu_bonus = b.base_global_ninjutsu_bonus := by
  rw [compute_snd_shape ctx b]

lemma compute_preserves_base_final_skill_bonus (ctx : HitContext) (b : BattleState) :
    (compute_hit_damage ctx b).2.base_final_skill_bonus = b.base_final_skill_bonus := by
  rw [compute_snd_shape ctx b]

lemma compute_preserves_base_final_lightning_bonus (ctx : HitContext) (b : BattleState) :
    (compute_hit_damage ctx b).2.base_final_lightning_bonus = b.base_final_lightning_bonus := by
  rw [compute_snd_shape ctx b]

lemma compute_preserves_base_inbattle_basic_bonus (ctx : HitContext) (b : BattleState) :
    (compute_hit_damage ctx b).2.base_inbattle_basic_bonus = b.base_inbattle_basic_bonus := by
  rw [compute_snd_shape ctx b]

lemma compute_preserves_base_inbattle_skill_bonus (ctx : HitContext) (b : BattleState) :
    (compute_hit_damage ctx b).2.base_inbattle_skill_bonus = b.base_inbattle_skill_bonus := by
  rw [compute_snd_shape ctx b]

lemma compute_preserves_base_inbattle_lightning_bonus (ctx : HitContext) (b : BattleState) :
    (compute_hit_damage ctx b).2.base_inbattle_lightning_bonus = b.base_inbattle_lightning_bonus := by
  rw [compute_snd_shape ctx b]

lemma compute_preserves_lightning_charge_step (ctx : HitContext) (b : BattleState) :
    (compute_hit_damage ctx b).2.lightning_charge_step = b.lightning_charge_step := by
  rw [compute_snd_shape ctx b]

lemma compute_preserves_temp_final_lightning_bonus (ctx : HitContext) (b : BattleState) :
    (compute_hit_damage ctx b).2.temp_final_lightning_bonus = b.temp_final_lightning_bonus := by
  rw [compute_snd_shape ctx b]

lemma compute_preserves_dynamic_global_ninjutsu_bonus (ctx : HitContext) (b : BattleState) :
    (compute_hit_damage ctx b).2.dynamic_global_ninjutsu_bonus = b.dynamic_global_ninjutsu_bonus := by
  rw [compute_snd_shape ctx b]

lemma compute_preserves_lightning_as_ninjutsu (ctx : HitContext) (b : BattleState) :
    (compute_hit_damage ctx b).2.lightning_as_ninjutsu = b.lightning_as_ninjutsu := by
  rw [compute_snd_shape ctx b]

lemma compute_preserves_dmg_basic (ctx : HitContext) (b : BattleState) :
    (compute_hit_damage ctx b).2.dmg_basic = b.dmg_basic := by
  rw [compute_snd_shape ctx b]

lemma compute_preserves_dmg_flame (ctx : HitContext) (b : BattleState) :
    (compute_hit_damage ctx b).2.dmg_flame = b.dmg_flame := by
  rw [compute_snd_shape ctx b]

lemma compute_preserves_dmg_breath (ctx : HitContext) (b : BattleState) :
    (compute_hit_damage ctx b).2.dmg_breath = b.dmg_breath := by
  rw [compute_snd_shape ctx b]

lemma compute_preserves_dmg_other (ctx : HitContext) (b : BattleState) :
    (compute_hit_damage ctx b).2.dmg_other = b.dmg_other := by
  rw [compute_snd_shape ctx b]

lemma compute_preserves_dmg_bolt (ctx : HitContext) (b : BattleState) :
    (compute_hit_damage ctx b).2.dmg_bolt = b.dmg_bolt := by
  rw [compute_snd_shape ctx b]

lemma compute_preserves_dmg_artifact (ctx : HitContext) (b : BattleState) :
    (compute_hit_damage ctx b).2.dmg_artifact = b.dmg_artifact := by
  rw [compute_snd_shape ctx b]

lemma compute_preserves_dmg_ninjutsu (ctx : HitContext) (b : BattleState) :
    (compute_hit_damage ctx b).2.dmg_ninjutsu = b.dmg_ninjutsu := by
  rw [compute_snd_shape ctx b]

lemma compute_preserves_dmg_hurricane (ctx : HitContext) (b : BattleState) :
    (compute_hit_damage ctx b).2.dmg_hurricane = b.dmg_hurricane := by
  rw [compute_snd_shape ctx b]

lemma compute_preserves_dmg_ultimate (ctx : HitContext) (b : BattleState) :
    (compute_hit_damage ctx b).2.dmg_ultimate = b.dmg_ultimate := by
  rw [compute_snd_shape ctx b]

lemma compute_preserves_rng (ctx : HitContext) (b : BattleState) :
    (compute_hit_damage ctx b).2.rng = b.rng := by
  rw [compute_snd_shape ctx b]

lemma compute_preserves_debug (ctx : HitContext) (b : BattleState) :
    (compute_hit_damage ctx b).2.debug = b.debug := by
  rw [compute_snd_shape ctx b]

lemma compute_preserves_lightning_as_demonic (ctx : HitContext) (b : BattleState) :
    (compute_hit_damage ctx b).2.lightning_as_demonic = b.lightning_as_demonic := by
  rw [compute_snd_shape ctx b]

lemma compute_preserves_daji_bolt_coeff_bonus (ctx : HitContext) (b : BattleState) :
    (compute_hit_damage ctx b).2.daji_bolt_coeff_bonus = b.daji_bolt_coeff_bonus := by
  rw [compute_snd_shape ctx b]

lemma compute_dynamic_inbattle_cases (ctx : HitContext) (b : BattleState) :
    (compute_hit_damage ctx b).2.dynamic_inbattle_lightning_bonus
        = b.dynamic_inbattle_lightning_bonus
    ∨ (compute_hit_damage ctx b).2.dynamic_inbattle_lightning_bonus
        = ((b.lightning_charge_stacks + 1 : ℕ) : ℚ) * b.lightning_charge_step := by
  obtain ⟨K, ae, g, i, f, d, h⟩ := compute_snd_eq ctx b
  rw [h]
  have hd : ∀ b2 : BattleState, (debug_log_hit b ctx K ae g i f d) = b2 →
      b2.dynamic_inbattle_lightning_bonus = b.dynamic_inbattle_lightning_bonus
      ∧ b2.lightning_charge_stacks = b.lightning_charge_stacks
      ∧ b2.lightning_charge_step = b.lightning_charge_step := by
    intro b2 hb2
    subst hb2
    unfold debug_log_hit
    split_ifs <;> exact ⟨rfl, rfl, rfl⟩
  obtain ⟨h1, h2, h3⟩ := hd _ rfl
  unfold lightning_charge_update
  split_ifs
  · right; rw [h2, h3]
  · left; exact h1
  · left; exact h1

lemma on_after_bolt_scan_eq (s : SimState) (ctx : HitContext) :
    on_after_bolt_scan s ctx = s := by
  unfold on_after_bolt_scan
  generalize s.effects = l
  induction l generalizing s with
  | nil => rfl
  | cons e l ih => simp only [List.foldl_cons]; exact ih s

lemma min9_succ (x : ℚ) : min (min x 9 + 1) 9 = min (x + 1) 9 := by
  rcases le_total x 9 with h | h
  · rw [min_eq_left h]
  · rw [min_eq_right h, min_eq_right (by linarith : (9 : ℚ) ≤ x + 1),
      min_eq_right (by linarith : (9 : ℚ) ≤ 9 + 1)]

lemma release_loop_level (advM buff gb : ℚ) :
    ∀ (n : ℕ) (s : SimState),
      (nashir_release_loop advM buff gb n s).nashir_charge_level = s.nashir_charge_level := by
  intro n
  induction n with
  | zero => intro s; rfl
  | succ n ih => intro s; simp [nashir_release_loop, ih]

lemma release_loop_stacks_6 (advM buff gb : ℚ) (s : SimState) :
    (nashir_release_loop advM buff gb 6 s).nashir_bolt_stacks
      = min (s.nashir_bolt_stacks + 6) 9 := by
  show (nashir_release_loop advM buff gb 6 s).nashir_bolt_stacks = _
  simp only [nashir_release_loop]
  norm_num [min9_succ]
  congr 1
  ring

/-- C6 amended: each real lightning bolt upgrades to the thunder variant
exactly when its stream draw is below 0.5 (a no-upgrade bolt books the
36 percent lightning coefficient, an upgraded bolt books the thunder
coefficient of the current charge level and adds one bolt stack capped at
9), booked bolt damage is multiplied by one plus 0.2 per capped stack; the
charge level advances by one at each charge-release phase below level 3,
independent of charged hits, and at level 3 the phase emits the 6-thunder
burst (stacks grow by 6 up to the cap) and resets the level to 1. -/
theorem c6_nashir_amended :
    (∀ (advM buff gb : ℚ) (s : SimState),
      s.battle.rng.stream s.battle.rng.pos ≥ 0.5 →
      ((nashir_process_bolts advM buff gb 1 s).nashir_bolt_stacks = s.nashir_bolt_stacks
      ∧ (nashir_process_bolts advM buff gb 1 s).nashir_charge_level = s.nashir_charge_level
      ∧ (nashir_process_bolts advM buff gb 1 s).battle.dmg_bolt
          = s.battle.dmg_bolt
            + claimed_damage
                (nashir_claimed_bolt_ctx advM buff gb nashir_base_lightning_coeff)
                s.battle
              * (1 + 0.2 * min s.nashir_bolt_stacks 9)))
    ∧ (∀ (advM buff gb : ℚ) (s : SimState),
      s.battle.rng.stream s.battle.rng.pos < 0.5 →
      ((nashir_process_bolts advM buff gb 1 s).nashir_bolt_stacks
          = min (s.nashir_bolt_stacks + 1) 9
      ∧ (nashir_process_bolts advM buff gb 1 s).battle.dmg_bolt
          = s.battle.dmg_bolt
            + claimed_damage
                (nashir_claimed_bolt_ctx advM buff gb
                  (nashir_thunder_coeff s.nashir_charge_level))
                s.battle
              * (1 + 0.2 * min s.nashir_bolt_stacks 9)))
    ∧ (∀ (advM : ℚ) (s : SimState), s.nashir_charge_level < 3 →
      nashir_on_end_round_charge_release advM s
        = { s with nashir_charge_level := s.nashir_charge_level + 1 })
    ∧ (∀ (advM : ℚ) (s : SimState), s.nashir_charge_level = 3 →
      ((nashir_on_end_round_charge_release advM s).nashir_charge_level = 1
      ∧ (nashir_on_end_round_charge_release advM s).nashir_bolt_stacks
          = min (s.nashir_bolt_stacks + 6) 9)) := by
  refine ⟨?_, ?_, ?_, ?_⟩
  · intro advM buff gb s h
    have hd : decide ((s.battle.rng.stream s.battle.rng.pos) < (0.5 : ℚ)) = false :=
      decide_eq_false (not_lt.mpr h)
    refine ⟨?_, ?_, ?_⟩ <;>
      simp [nashir_process_bolts, rng_next, hd, on_after_bolt_scan_eq,
        nashir_claimed_bolt_ctx, nashir_bolt_mult, compute_hit_damage_fst,
        compute_preserves_dmg_bolt, claimed_damage, claimed_effective_attack,
        claimed_K, claimed_global_total, claimed_inbattle_total, claimed_final_total,
        (by norm_num : (1.0 : ℚ) = 1), (by norm_num : (9.0 : ℚ) = 9)]
  · intro advM buff gb s h
    have hd : decide ((s.battle.rng.stream s.battle.rng.pos) < (0.5 : ℚ)) = true :=
      decide_eq_true h
    refine ⟨?_, ?_⟩ <;>
      simp [nashir_process_bolts, rng_next, hd, on_after_bolt_scan_eq,
        nashir_claimed_bolt_ctx, nashir_bolt_mult, compute_hit_damage_fst,
        compute_preserves_dmg_bolt, claimed_damage, claimed_effective_attack,
        claimed_K, claimed_global_total, claimed_inbattle_total, claimed_final_total,
        (by norm_num : (1.0 : ℚ) = 1), (by norm_num : (9.0 : ℚ) = 9)]
  · intro advM s h
    have h3 : s.nashir_charge_level ≠ 3 := Nat.ne_of_lt h
    simp [nashir_on_end_round_charge_release, h3, h]
  · intro advM s h
    constructor
    · simp [nashir_on_end_round_charge_release, h, release_loop_level]
    · simp [nashir_on_end_round_charge_release, h, release_loop_level,
        release_loop_stacks_6]

unseal Rat.mul Rat.add Rat.sub Rat.inv Rat.ofScientific in
/-- C6 witness: the amended theorem applied at concrete states, with a
draw of 0.9 (no upgrade), a draw of 0.1 (upgrade), the initial charge
level 1, and a level-3 state about to release. -/
theorem c6_nashir_amended_witness :
    (nashir_process_bolts 1 1 0 1
        { battle := { rng := { stream := fun _ => 0.9 } } }).nashir_bolt_stacks = 0
    ∧ (nashir_process_bolts 1 1 0 1
        { battle := { rng := { stream := fun _ => 0.1 } } }).nashir_bolt_stacks = 1
    ∧ nashir_on_end_round_charge_release 1 { battle := {} }
        = { battle := ({} : BattleState), nashir_charge_level := 2 }
    ∧ (nashir_on_end_round_charge_release 1
        { battle := {}, nashir_charge_level := 3 }).nashir_charge_level = 1
    ∧ (nashir_on_end_round_charge_release 1
        { battle := {}, nashir_charge_level := 3 }).nashir_bolt_stacks = 6 := by
  obtain ⟨h1, h2, h3, h4⟩ := c6_nashir_amended
  refine ⟨?_, ?_, ?_, ?_, ?_⟩
  · exact ((h1 1 1 0 _ (by decide)).1).trans (by decide)
  · exact ((h2 1 1 0 _ (by decide)).1).trans (by decide)
  · exact h3 1 { battle := {} } (by decide)
  · exact (h4 1 { battle := {}, nashir_charge_level := 3 } rfl).1
  · exact ((h4 1 { battle := {}, nashir_charge_level := 3 } rfl).2).trans (by decide)

/-! Claim C9: unknown configuration names. -/

unseal Rat.mul Rat.add Rat.sub Rat.inv Rat.ofScientific in
/-- C9: effect construction indeed degrades unknown names to the neutral
multiplier 1.0 with no adventurer, weapon or artifact effect — the build
output equals the build output with those slots empty, and so does the
whole simulation; but the claim that the simulation then never fails is
wrong: with the default toggles the run still raises AttributeError in
the generic bolt path (same engine bug as claim C3), as the concrete
evaluation shows. -/
theorem c9_unknown_names :
    (∀ (cfg : SimulationConfig) (stream : ℕ → ℚ),
      cfg.adventurer ≠ "DG" → cfg.adventurer ≠ "Leo" → cfg.adventurer ≠ "Daji" →
      cfg.weapon ≠ some "Nashir" → cfg.artifact ≠ some "ArcaneTome" →
      (build_effects_from_config cfg
          = build_effects_from_config { cfg with weapon := none, artifact := none }
        ∧ (build_effects_from_config cfg).2 = 1.0
        ∧ run_simulation cfg stream
          = run_simulation { cfg with weapon := none, artifact := none } stream))
    ∧ build_effects_from_config c9_unknown_config = ([.extraEndBolts 1.0 3 none 1], 1.0)
    ∧ sim_error (run_simulation c9_unknown_config (fun _ => 1/2))
        = some (.attributeError "lightning_as_demonic") := by
  refine ⟨?_, by decide, by decide⟩
  intro cfg stream h1 h2 h3 h4 h5
  have hb : build_effects_from_config cfg
      = build_effects_from_config { cfg with weapon := none, artifact := none } := by
    simp [build_effects_from_config, h1, h2, h3, h4, h5]
  refine ⟨hb, ?_, ?_⟩
  · simp [build_effects_from_config, h1, h2, h3]
  · have ha : sim_args_of_config cfg stream
        = sim_args_of_config { cfg with weapon := none, artifact := none } stream := by
      unfold sim_args_of_config
      rw [hb]
    unfold run_simulation
    rw [hb, ha]

unseal Rat.mul Rat.add Rat.sub Rat.inv Rat.ofScientific in
/-- C9 witness: the general part of the theorem applied to the concrete
all-unknown configuration. -/
theorem c9_unknown_names_witness :
    (build_effects_from_config c9_unknown_config).2 = 1.0
    ∧ run_simulation c9_unknown_config (fun _ => 1/2)
      = run_simulation { c9_unknown_config with weapon := none, artifact := none }
          (fun _ => 1/2) := by
  obtain ⟨hgen, _, _⟩ := c9_unknown_names
  obtain ⟨_, hmult, hrun⟩ := hgen c9_unknown_config (fun _ => 1/2)
    (by decide) (by decide) (by decide) (by decide) (by decide)
  exact ⟨hmult, hrun⟩

/-! Frame lemmas: no code the battle loop can reach ever writes
`dynamic_global_ninjutsu_bonus`, and nothing but the combo-mastery
after-hit hook ever writes `combo_stacks`. -/

lemma frame_ok_refl (s : SimState) : frame_ok s s := ⟨rfl, rfl⟩

lemma frame_ok_trans {a b c : SimState} (h1 : frame_ok a b) (h2 : frame_ok b c) :
    frame_ok a c := ⟨h2.1.trans h1.1, h2.2.trans h1.2⟩

lemma frame_nashir_process_bolts (advM buff gb : ℚ) :
    ∀ (n : ℕ) (s : SimState), frame_ok s (nashir_process_bolts advM buff gb n s) := by
  intro n
  induction n with
  | zero => intro s; exact frame_ok_refl s
  | succ n ih =>
    intro s
    refine frame_ok_trans ?_ (ih _)
    simp only [nashir_process_bolts, rng_next, on_after_bolt_scan_eq]
    constructor <;> (split <;>
      simp [compute_preserves_dynamic_global_ninjutsu_bonus, compute_preserves_combo_stacks])

lemma frame_nashir_process_lightning_bolt (advM : ℚ) (s : SimState) (buff : ℚ) (count : ℤ) :
    frame_ok s (nashir_process_lightning_bolt advM s buff count) := by
  unfold nashir_process_lightning_bolt
  split
  · exact frame_ok_refl s
  · exact frame_nashir_process_bolts advM buff _ _ s

lemma frame_nashir_skills (advM : ℚ) (s : SimState) :
    frame_ok s (nashir_on_end_round_skills advM s) :=
  frame_nashir_process_lightning_bolt advM s _ 1

lemma frame_nashir_release_loop (advM buff gb : ℚ) :
    ∀ (n : ℕ) (s : SimState), frame_ok s (nashir_release_loop advM buff gb n s) := by
  intro n
  induction n with
  | zero => intro s; exact frame_ok_refl s
  | succ n ih =>
    intro s
    refine frame_ok_trans ?_ (ih _)
    simp only [nashir_release_loop]
    exact ⟨by simp [compute_preserves_dynamic_global_ninjutsu_bonus],
      by simp [compute_preserves_combo_stacks]⟩

lemma frame_nashir_charge_release (advM : ℚ) (s : SimState) :
    frame_ok s (nashir_on_end_round_charge_release advM s) := by
  unfold nashir_on_end_round_charge_release
  split <;> dsimp only
  · refine frame_ok_trans
      (frame_nashir_release_loop advM (atk_buff_mult s.battle)
        s.battle.breath_global_this 6 s) ?_
    split <;> exact ⟨rfl, rfl⟩
  · split <;> exact ⟨rfl, rfl⟩

lemma frame_plain_lightning_bolts (advM buff : ℚ) :
    ∀ (n : ℕ) (s s' : SimState),
      plain_lightning_bolts advM buff n s = .ok s' → frame_ok s s' := by
  intro n
  induction n with
  | zero =>
    intro s s' h
    cases h
    exact frame_ok_refl s
  | succ n ih =>
    intro s s' h
    simp only [plain_lightning_bolts, getattrOrThrow] at h
    cases hlad : s.battle.lightning_as_demonic with
    | none => rw [hlad] at h; cases h
    | some lad =>
      rw [hlad] at h
      cases hdcb : s.battle.daji_bolt_coeff_bonus with
      | none => rw [hdcb] at h; simp [Bind.bind, Except.bind] at h
      | some dcb =>
        rw [hdcb] at h
        simp only [Bind.bind, Except.bind] at h
        refine frame_ok_trans ?_ (ih _ _ h)
        simp only [on_after_bolt_scan_eq]
        exact ⟨by simp [compute_preserves_dynamic_global_ninjutsu_bonus],
          by simp [compute_preserves_combo_stacks]⟩

lemma frame_extra_end_bolts (advM : ℚ) (n_bolts : ℤ) (nm : Option ℚ) (mf : ℤ)
    (s s' : SimState) (h : extra_end_bolts_skills advM n_bolts nm mf s = .ok s') :
    frame_ok s s' := by
  unfold extra_end_bolts_skills at h
  split at h
  · cases h; exact frame_ok_refl s
  · cases nm with
    | some m => cases h; exact frame_nashir_process_lightning_bolt m s _ _
    | none => exact frame_plain_lightning_bolts advM _ _ s s' h

lemma frame_basic_atk_bolt (advM chance : ℚ) (nm : Option ℚ) (mf : ℤ)
    (s s' : SimState) (h : basic_atk_bolt_after_hit advM chance nm mf s = .ok s') :
    frame_ok s s' := by
  simp only [basic_atk_bolt_after_hit, rng_next] at h
  split at h
  · cases h; exact ⟨rfl, rfl⟩
  · cases nm with
    | some m =>
      dsimp only at h
      cases h
      exact frame_ok_trans ⟨rfl, rfl⟩ (frame_nashir_process_lightning_bolt m _ _ _)
    | none =>
      dsimp only at h
      refine frame_ok_trans ?_ (frame_plain_lightning_bolts advM _ _ _ _ h)
      exact ⟨rfl, rfl⟩

lemma frame_five_bolts (advM : ℚ) (nm : Option ℚ) (mf : ℤ)
    (s s' : SimState) (h : five_bolts_skills advM nm mf s = .ok s') :
    frame_ok s s' := by
  unfold five_bolts_skills at h
  split at h
  · cases h; exact frame_ok_refl s
  · cases nm with
    | some m => cases h; exact frame_nashir_process_lightning_bolt m s _ _
    | none => exact frame_plain_lightning_bolts advM _ _ s s' h

lemma frame_ezra_round_start (advM bonus : ℚ) (s : SimState) :
    frame_ok s (ezra_on_round_start advM bonus s) := by
  unfold ezra_on_round_start
  exact ⟨by simp [compute_preserves_dynamic_global_ninjutsu_bonus],
    by simp [compute_preserves_combo_stacks]⟩

lemma frame_tome_proc_loop (advM coeffQ : ℚ) (per : ℕ) :
    ∀ (fuel : ℕ) (s : SimState), frame_ok s (tome_proc_loop advM coeffQ per fuel s) := by
  intro fuel
  induction fuel with
  | zero => intro s; exact frame_ok_refl s
  | succ fuel ih =>
    intro s
    simp only [tome_proc_loop]
    split
    · refine frame_ok_trans ?_ (ih _)
      exact ⟨by simp [compute_preserves_dynamic_global_ninjutsu_bonus],
        by simp [compute_preserves_combo_stacks]⟩
    · exact frame_ok_refl s

lemma frame_tome_after_hit (advM : ℚ) (per : ℕ) (coeffQ : ℚ) (ctx : HitContext)
    (s : SimState) : frame_ok s (tome_after_hit advM per coeffQ ctx s) := by
  unfold tome_after_hit
  split
  · exact frame_ok_refl s
  · exact frame_tome_proc_loop advM coeffQ per 3 _

lemma frame_leo_multi_hit_part (advM : ℚ) (h2 : Bool) (ctx : HitContext)
    (s : SimState) (pc : ℚ) : frame_ok s (leo_multi_hit_part advM h2 ctx s pc) := by
  unfold leo_multi_hit_part
  dsimp only
  split
  · simp only [rng_next]
    split
    · exact ⟨by simp [compute_preserves_dynamic_global_ninjutsu_bonus],
        by simp [compute_preserves_combo_stacks]⟩
    · exact ⟨by simp [compute_preserves_dynamic_global_ninjutsu_bonus],
        by simp [compute_preserves_combo_stacks]⟩
  · exact ⟨by simp [compute_preserves_dynamic_global_ninjutsu_bonus],
      by simp [compute_preserves_combo_stacks]⟩

lemma frame_leo_multi_after (advM : ℚ) (h2 : Bool) (ctx : HitContext) (s : SimState) :
    frame_ok s (leo_multi_hit_after_hit advM h2 ctx s) := by
  unfold leo_multi_hit_after_hit
  split
  · exact frame_ok_refl s
  · have hfold : ∀ (l : List ℚ) (s0 : SimState),
        frame_ok s0 (l.foldl (leo_multi_hit_part advM h2 ctx) s0) := by
      intro l
      induction l with
      | nil => intro s0; exact frame_ok_refl s0
      | cons p l ih =>
        intro s0
        exact frame_ok_trans (frame_leo_multi_hit_part advM h2 ctx s0 p) (ih _)
    refine frame_ok_trans (hfold leo_basic_parts s) ?_
    exact ⟨by simp [compute_preserves_dynamic_global_ninjutsu_bonus],
      by simp [compute_preserves_combo_stacks]⟩

lemma frame_leo_hurricane_hits (advM coeffQ : ℚ) :
    ∀ (n : ℕ) (s : SimState), frame_ok s (leo_hurricane_hits advM coeffQ n s) := by
  intro n
  induction n with
  | zero => intro s; exact frame_ok_refl s
  | succ n ih =>
    intro s
    refine frame_ok_trans ?_ (ih _)
    simp only [leo_hurricane_hits]
    exact ⟨by simp [compute_preserves_dynamic_global_ninjutsu_bonus],
      by simp [compute_preserves_combo_stacks]⟩

lemma frame_leo_hurricane_adventurer (advM : ℚ) (sr iv : ℕ) (coeffQ : ℚ) (s : SimState) :
    frame_ok s (leo_hurricane_adventurer advM sr iv coeffQ s) := by
  unfold leo_hurricane_adventurer
  dsimp only
  split
  · exact frame_ok_refl s
  · split
    · exact frame_ok_refl s
    · exact frame_leo_hurricane_hits advM coeffQ 5 s

lemma frame_dg_stacks_round_start (enabled : Bool) (mx : ℕ) (s : SimState) :
    frame_ok s (dg_stacks_round_start enabled mx s) := by
  unfold dg_stacks_round_start
  split <;> exact ⟨rfl, rfl⟩

lemma frame_dg_stacks_after_hit (enabled : Bool) (mx : ℕ) (s : SimState) :
    frame_ok s (dg_stacks_after_hit enabled mx s) := by
  unfold dg_stacks_after_hit
  split <;> exact ⟨rfl, rfl⟩

lemma frame_dg_flame_after_hit (coeffQ : ℚ) (ctx : HitContext) (s : SimState) :
    frame_ok s (dg_flame_after_hit coeffQ ctx s) := by
  unfold dg_flame_after_hit
  exact ⟨by simp [compute_preserves_dynamic_global_ninjutsu_bonus],
    by simp [compute_preserves_combo_stacks]⟩

lemma frame_dg_breath_adventurer (enabled : Bool) (c dn gn : ℚ) (s : SimState) :
    frame_ok s (dg_breath_adventurer enabled c dn gn s) := by
  unfold dg_breath_adventurer
  split
  · exact frame_ok_refl s
  · split
    · exact frame_ok_refl s
    · exact ⟨by simp [compute_preserves_dynamic_global_ninjutsu_bonus],
        by simp [compute_preserves_combo_stacks]⟩

lemma frame_effect_on_round_start (e : EffectInst) (s : SimState) :
    frame_ok s (effect_on_round_start e s) := by
  cases e
  case dgStacks en st mx => exact frame_dg_stacks_round_start en mx s
  case ezraRing a b => exact frame_ezra_round_start a b s
  all_goals exact ⟨rfl, rfl⟩

lemma before_hit_state_eq (e : EffectInst) (s : SimState) (ctx : HitContext) :
    (effect_on_before_hit e s ctx).1 = s := by
  cases e
  case leoMultiHit a b =>
    dsimp only [effect_on_before_hit]
    split <;> rfl
  all_goals rfl

lemma frame_effect_on_after_hit (e : EffectInst) (s : SimState) (ctx : HitContext)
    (s' : SimState) (h : effect_on_after_hit e s ctx = .ok s') :
    s'.battle.dynamic_global_ninjutsu_bonus = s.battle.dynamic_global_ninjutsu_bonus := by
  cases e
  case dgStacks en st mx => cases h; exact (frame_dg_stacks_after_hit en mx s).1
  case dgFlame c => cases h; exact (frame_dg_flame_after_hit c ctx s).1
  case comboMastery a b =>
    cases h
    unfold combo_after_hit
    split <;> rfl
  case basicAtkBolt a c nm mf => exact (frame_basic_atk_bolt a c nm mf s s' h).1
  case arcaneTome a p c => cases h; exact (frame_tome_after_hit a p c ctx s).1
  case leoMultiHit a b => cases h; exact (frame_leo_multi_after a b ctx s).1
  all_goals (cases h; rfl)

lemma frame_effect_on_end_round_adventurer (e : EffectInst) (s : SimState) :
    frame_ok s (effect_on_end_round_adventurer e s) := by
  cases e
  case dgBreath en c dn gn => exact frame_dg_breath_adventurer en c dn gn s
  case leoHurricane a sr iv c => exact frame_leo_hurricane_adventurer a sr iv c s
  all_goals exact ⟨rfl, rfl⟩

lemma frame_effect_on_end_round_skills (e : EffectInst) (s s' : SimState)
    (h : effect_on_end_round_skills e s = .ok s') : frame_ok s s' := by
  cases e
  case nashirScepter a => cases h; exact frame_nashir_skills a s
  case extraEndBolts a n nm mf => exact frame_extra_end_bolts a n nm mf s s' h
  case fiveBoltsAfterRound6 a nm mf => exact frame_five_bolts a nm mf s s' h
  all_goals (cases h; exact ⟨rfl, rfl⟩)

lemma frame_effect_on_end_round_buffs_expire (e : EffectInst) (s : SimState) :
    frame_ok s (effect_on_end_round_buffs_expire e s) := by
  cases e <;> exact ⟨rfl, rfl⟩

lemma frame_effect_on_end_round_charge_release (e : EffectInst) (s : SimState) :
    frame_ok s (effect_on_end_round_charge_release e s) := by
  cases e
  case nashirScepter a => exact frame_nashir_charge_release a s
  all_goals exact ⟨rfl, rfl⟩

lemma frame_scan_round_start (es : List EffectInst) :
    ∀ (s : SimState), frame_ok s (scan_round_start es s) := by
  unfold scan_round_start
  induction es with
  | nil => intro s; exact frame_ok_refl s
  | cons e es ih =>
    intro s
    simp only [List.foldl_cons]
    exact frame_ok_trans (frame_effect_on_round_start e s) (ih _)

lemma scan_before_hit_state_eq (es : List EffectInst) :
    ∀ (s : SimState) (ctx : HitContext), (scan_before_hit es s ctx).1 = s := by
  unfold scan_before_hit
  induction es with
  | nil => intro s ctx; rfl
  | cons e es ih =>
    intro s ctx
    simp only [List.foldl_cons]
    have h := ih (effect_on_before_hit e s ctx).1 (effect_on_before_hit e s ctx).2
    rw [h, before_hit_state_eq]

lemma frame_scan_after_hit (es : List EffectInst) :
    ∀ (s : SimState) (ctx : HitContext) (s' : SimState),
      scan_after_hit es s ctx = .ok s' →
      s'.battle.dynamic_global_ninjutsu_bonus = s.battle.dynamic_global_ninjutsu_bonus := by
  unfold scan_after_hit
  induction es with
  | nil => intro s ctx s' h; cases h; rfl
  | cons e es ih =>
    intro s ctx s' h
    simp only [List.foldlM_cons, Bind.bind] at h
    cases he : effect_on_after_hit e s ctx with
    | error err => rw [he] at h; cases h
    | ok s1 =>
      rw [he] at h
      simp only [Except.bind] at h
      exact (ih s1 ctx s' h).trans (frame_effect_on_after_hit e s ctx s1 he)

lemma frame_scan_end_adventurer (es : List EffectInst) :
    ∀ (s : SimState), frame_ok s (scan_end_adventurer es s) := by
  unfold scan_end_adventurer
  induction es with
  | nil => intro s; exact frame_ok_refl s
  | cons e es ih =>
    intro s
    simp only [List.foldl_cons]
    exact frame_ok_trans (frame_effect_on_end_round_adventurer e s) (ih _)

lemma frame_scan_end_skills (es : List EffectInst) :
    ∀ (s s' : SimState), scan_end_skills es s = .ok s' → frame_ok s s' := by
  unfold scan_end_skills
  induction es with
  | nil => intro s s' h; cases h; exact frame_ok_refl s
  | cons e es ih =>
    intro s s' h
    simp only [List.foldlM_cons, Bind.bind] at h
    cases he : effect_on_end_round_skills e s with
    | error err => rw [he] at h; cases h
    | ok s1 =>
      rw [he] at h
      simp only [Except.bind] at h
      exact frame_ok_trans (frame_effect_on_end_round_skills e s s1 he) (ih s1 s' h)

lemma frame_scan_end_buffs_expire (es : List EffectInst) :
    ∀ (s : SimState), frame_ok s (scan_end_buffs_expire es s) := by
  unfold scan_end_buffs_expire
  induction es with
  | nil => intro s; exact frame_ok_refl s
  | cons e es ih =>
    intro s
    simp only [List.foldl_cons]
    exact frame_ok_trans (frame_effect_on_end_round_buffs_expire e s) (ih _)

lemma frame_scan_end_charge_release (es : List EffectInst) :
    ∀ (s : SimState), frame_ok s (scan_end_charge_release es s) := by
  unfold scan_end_charge_release
  induction es with
  | nil => intro s; exact frame_ok_refl s
  | cons e es ih =>
    intro s
    simp only [List.foldl_cons]
    exact frame_ok_trans (frame_effect_on_end_round_charge_release e s) (ih _)

lemma frame_lightning_charge_reset (s : SimState) :
    frame_ok s (lightning_charge_reset s) := by
  unfold lightning_charge_reset
  split <;> exact ⟨rfl, rfl⟩

lemma frame_hit_step (advM : ℚ) (es : List EffectInst) (h : ℕ) (s s' : SimState)
    (hok : hit_step advM es h s = .ok s') :
    s'.battle.dynamic_global_ninjutsu_bonus = s.battle.dynamic_global_ninjutsu_bonus := by
  unfold hit_step at hok
  refine (frame_scan_after_hit es _ _ s' hok).trans ?_
  simp [compute_preserves_dynamic_global_ninjutsu_bonus]
  have hb := scan_before_hit_state_eq es s
    { damage_type := .basic, coeff := 1.0, is_basic := h == 1, is_combo := decide (h ≥ 2),
      hit_index_in_round := h, atk_mult_adventurer := advM, tags := [.basic] }
  rw [hb]

lemma frame_hits_fold (advM : ℚ) (es : List EffectInst) :
    ∀ (l : List ℕ) (s s' : SimState),
      l.foldlM (fun s h => hit_step advM es h s) s = .ok s' →
      s'.battle.dynamic_global_ninjutsu_bonus = s.battle.dynamic_global_ninjutsu_bonus := by
  intro l
  induction l with
  | nil => intro s s' h; cases h; rfl
  | cons r l ih =>
    intro s s' h
    simp only [List.foldlM_cons, Bind.bind] at h
    cases he : hit_step advM es r s with
    | error err => rw [he] at h; cases h
    | ok s1 =>
      rw [he] at h
      simp only [Except.bind] at h
      exact (ih s1 s' h).trans (frame_hit_step advM es r s s1 he)

lemma frame_round_step (advM : ℚ) (es : List EffectInst) (hits r : ℕ) (s s' : SimState)
    (hok : round_step advM es hits r s = .ok s') :
    s'.battle.dynamic_global_ninjutsu_bonus = s.battle.dynamic_global_ninjutsu_bonus := by
  simp only [round_step] at hok
  cases h1 : (List.range' 1 hits).foldlM (fun s h => hit_step advM es h s)
      (scan_round_start es { s with battle := { s.battle with round_index := r } }) with
  | error err => rw [h1] at hok; cases hok
  | ok s1 =>
    rw [h1] at hok
    simp only [Bind.bind, Except.bind] at hok
    cases h2 : scan_end_skills es (scan_end_adventurer es s1) with
    | error err => rw [h2] at hok; cases hok
    | ok s2 =>
      rw [h2] at hok
      cases hok
      have e1 := (frame_scan_round_start es
        { s with battle := { s.battle with round_index := r } }).1
      have e2 := frame_hits_fold advM es (List.range' 1 hits) _ s1 h1
      have e3 := (frame_scan_end_adventurer es s1).1
      have e4 := (frame_scan_end_skills es _ s2 h2).1
      have e5 := (frame_scan_end_buffs_expire es s2).1
      have e6 := (frame_lightning_charge_reset (scan_end_buffs_expire es s2)).1
      have e7 := (frame_scan_end_charge_release es
        (lightning_charge_reset (scan_end_buffs_expire es s2))).1
      rw [e7, e6, e5, e4, e3, e2, e1]

lemma frame_rounds_fold (advM : ℚ) (es : List EffectInst) (hits : ℕ) :
    ∀ (l : List ℕ) (s s' : SimState),
      l.foldlM (fun s r => round_step advM es hits r s) s = .ok s' →
      s'.battle.dynamic_global_ninjutsu_bonus = s.battle.dynamic_global_ninjutsu_bonus := by
  intro l
  induction l with
  | nil => intro s s' h; cases h; rfl
  | cons r l ih =>
    intro s s' h
    simp only [List.foldlM_cons, Bind.bind] at h
    cases he : round_step advM es hits r s with
    | error err => rw [he] at h; cases h
    | ok s1 =>
      rw [he] at h
      simp only [Except.bind] at h
      exact (ih s1 s' h).trans (frame_round_step advM es hits r s s1 he)

unseal Rat.mul Rat.add Rat.sub Rat.inv Rat.ofScientific in
/-- C10: the battle loop scans only on_round_start, on_before_hit,
on_after_hit and the four on_end_round phases; no reachable code invokes
on_before_charge_release, the only writer of
dynamic_global_ninjutsu_bonus, so in every completed run of any length the
field still holds its initial 0.0 — even though the Leo star-10 roster
really does register the charge-release effect that would grant the
one-time 60 percent ninjutsu buff. -/
theorem c10_ninjutsu_bonus_never_granted :
    (∀ (args : SimArgs) (es : List EffectInst) (s' : SimState),
      simulate_adventurer args es = .ok s' →
      s'.battle.dynamic_global_ninjutsu_bonus = 0.0)
    ∧ (leo_effects_for_star 10 false).contains (.leoChargeRelease 1.10 5.0 true)
        = true := by
  constructor
  · intro args es s' h
    unfold simulate_adventurer at h
    exact frame_rounds_fold args.adv_atk_mult es args.basic_hits_per_round _ _ s' h
  · decide

unseal Rat.mul Rat.add Rat.sub Rat.inv Rat.ofScientific in
/-- C10 witness: a concrete Leo star-10 run with the Nashir weapon
completes, and the theorem yields that its ninjutsu dynamic bonus is
still zero. -/
theorem c10_ninjutsu_bonus_witness :
    sim_proj (fun s => s.battle.dynamic_global_ninjutsu_bonus)
      (run_simulation
        { adventurer := "Leo", star := 10, weapon := some "Nashir", rounds := 3,
          basic_hits_per_round := 2 }
        (fun _ => 0.9)) = some 0.0 := by
  cases hok : run_simulation
      { adventurer := "Leo", star := 10, weapon := some "Nashir", rounds := 3,
        basic_hits_per_round := 2 }
      (fun _ => 0.9) with
  | error e =>
    have hne : sim_error (run_simulation
        { adventurer := "Leo", star := 10, weapon := some "Nashir", rounds := 3,
          basic_hits_per_round := 2 }
        (fun _ => 0.9)) = none := by decide
    rw [hok] at hne
    exact absurd hne (by simp [sim_error])
  | ok s =>
    simp only [sim_proj]
    rw [c10_ninjutsu_bonus_never_granted.1 _ _ s hok]

/-! Combo-stack monotonicity: `combo_stacks` is written only by the
combo-mastery after-hit hook, which can only raise it (up to the cap used
by the builder, 99). -/

lemma combo_of_frame {s s' : SimState} (h : frame_ok s s')
    (hle : s.battle.combo_stacks ≤ 99) :
    s.battle.combo_stacks ≤ s'.battle.combo_stacks ∧ s'.battle.combo_stacks ≤ 99 :=
  ⟨h.2.ge, h.2.le.trans hle⟩

lemma combo_effect_on_after_hit (e : EffectInst) (s : SimState) (ctx : HitContext)
    (s' : SimState) (hok : effect_on_after_hit e s ctx = .ok s') (hcap : cap_ok e)
    (hle : s.battle.combo_stacks ≤ 99) :
    s.battle.combo_stacks ≤ s'.battle.combo_stacks ∧ s'.battle.combo_stacks ≤ 99 := by
  cases e
  case comboMastery a cap =>
    cases hok
    have hc : cap = 99 := hcap
    subst hc
    unfold combo_after_hit
    split
    · refine ⟨?_, ?_⟩
      · simp only []
        exact le_min (Nat.le_succ _) hle
      · simp only []
        exact min_le_right _ _
    · exact ⟨le_rfl, hle⟩
  case dgStacks en st mx =>
    cases hok; exact combo_of_frame (frame_dg_stacks_after_hit en mx s) hle
  case dgFlame c =>
    cases hok; exact combo_of_frame (frame_dg_flame_after_hit c ctx s) hle
  case basicAtkBolt a c nm mf =>
    exact combo_of_frame (frame_basic_atk_bolt a c nm mf s s' hok) hle
  case arcaneTome a p c =>
    cases hok; exact combo_of_frame (frame_tome_after_hit a p c ctx s) hle
  case leoMultiHit a b =>
    cases hok; exact combo_of_frame (frame_leo_multi_after a b ctx s) hle
  all_goals (cases hok; exact ⟨le_rfl, hle⟩)

lemma combo_scan_after_hit (es : List EffectInst) (hcap : ∀ e ∈ es, cap_ok e) :
    ∀ (s : SimState) (ctx : HitContext) (s' : SimState),
      scan_after_hit es s ctx = .ok s' → s.battle.combo_stacks ≤ 99 →
      s.battle.combo_stacks ≤ s'.battle.combo_stacks ∧ s'.battle.combo_stacks ≤ 99 := by
  unfold scan_after_hit
  induction es with
  | nil => intro s ctx s' h hle; cases h; exact ⟨le_rfl, hle⟩
  | cons e es ih =>
    intro s ctx s' h hle
    simp only [List.foldlM_cons, Bind.bind] at h
    cases he : effect_on_after_hit e s ctx with
    | error err => rw [he] at h; cases h
    | ok s1 =>
      rw [he] at h
      simp only [Except.bind] at h
      have h1 := combo_effect_on_after_hit e s ctx s1 he (hcap e (by simp)) hle
      have h2 := ih (fun e he' => hcap e (by simp [he'])) s1 ctx s' h h1.2
      exact ⟨h1.1.trans h2.1, h2.2⟩

lemma combo_hit_step (advM : ℚ) (es : List EffectInst) (hcap : ∀ e ∈ es, cap_ok e)
    (h : ℕ) (s s' : SimState) (hok : hit_step advM es h s = .ok s')
    (hle : s.battle.combo_stacks ≤ 99) :
    s.battle.combo_stacks ≤ s'.battle.combo_stacks ∧ s'.battle.combo_stacks ≤ 99 := by
  unfold hit_step at hok
  have h2 := combo_scan_after_hit es hcap _ _ s' hok
  simp only [compute_preserves_combo_stacks, scan_before_hit_state_eq] at h2
  exact h2 hle

lemma combo_hits_fold (advM : ℚ) (es : List EffectInst) (hcap : ∀ e ∈ es, cap_ok e) :
    ∀ (l : List ℕ) (s s' : SimState),
      l.foldlM (fun s h => hit_step advM es h s) s = .ok s' →
      s.battle.combo_stacks ≤ 99 →
      s.battle.combo_stacks ≤ s'.battle.combo_stacks ∧ s'.battle.combo_stacks ≤ 99 := by
  intro l
  induction l with
  | nil => intro s s' h hle; cases h; exact ⟨le_rfl, hle⟩
  | cons r l ih =>
    intro s s' h hle
    simp only [List.foldlM_cons, Bind.bind] at h
    cases he : hit_step advM es r s with
    | error err => rw [he] at h; cases h
    | ok s1 =>
      rw [he] at h
      simp only [Except.bind] at h
      have h1 := combo_hit_step advM es hcap r s s1 he hle
      have h2 := ih s1 s' h h1.2
      exact ⟨h1.1.trans h2.1, h2.2⟩

lemma combo_round_step (advM : ℚ) (es : List EffectInst) (hcap : ∀ e ∈ es, cap_ok e)
    (hits r : ℕ) (s s' : SimState) (hok : round_step advM es hits r s = .ok s')
    (hle : s.battle.combo_stacks ≤ 99) :
    s.battle.combo_stacks ≤ s'.battle.combo_stacks ∧ s'.battle.combo_stacks ≤ 99 := by
  simp only [round_step] at hok
  cases h1 : (List.range' 1 hits).foldlM (fun s h => hit_step advM es h s)
      (scan_round_start es { s with battle := { s.battle with round_index := r } }) with
  | error err => rw [h1] at hok; cases hok
  | ok s1 =>
    rw [h1] at hok
    simp only [Bind.bind, Except.bind] at hok
    cases h2 : scan_end_skills es (scan_end_adventurer es s1) with
    | error err => rw [h2] at hok; cases hok
    | ok s2 =>
      rw [h2] at hok
      cases hok
      have e1 := (frame_scan_round_start es
        { s with battle := { s.battle with round_index := r } }).2
      have hfold := combo_hits_fold advM es hcap (List.range' 1 hits) _ s1 h1
      rw [e1] at hfold
      have hf := hfold hle
      have e3 := (frame_scan_end_adventurer es s1).2
      have e4 := (frame_scan_end_skills es _ s2 h2).2
      have e5 := (frame_scan_end_buffs_expire es s2).2
      have e6 := (frame_lightning_charge_reset (scan_end_buffs_expire es s2)).2
      have e7 := (frame_scan_end_charge_release es
        (lightning_charge_reset (scan_end_buffs_expire es s2))).2
      constructor
      · rw [e7, e6, e5, e4, e3]; exact hf.1
      · rw [e7, e6, e5, e4, e3]; exact hf.2

lemma combo_rounds_fold (advM : ℚ) (es : List EffectInst) (hcap : ∀ e ∈ es, cap_ok e)
    (hits : ℕ) :
    ∀ (l : List ℕ) (s s' : SimState),
      l.foldlM (fun s r => round_step advM es hits r s) s = .ok s' →
      s.battle.combo_stacks ≤ 99 →
      s.battle.combo_stacks ≤ s'.battle.combo_stacks ∧ s'.battle.combo_stacks ≤ 99 := by
  intro l
  induction l with
  | nil => intro s s' h hle; cases h; exact ⟨le_rfl, hle⟩
  | cons r l ih =>
    intro s s' h hle
    simp only [List.foldlM_cons, Bind.bind] at h
    cases he : round_step advM es hits r s with
    | error err => rw [he] at h; cases h
    | ok s1 =>
      rw [he] at h
      simp only [Except.bind] at h
      have h1 := combo_round_step advM es hcap hits r s s1 he hle
      have h2 := ih s1 s' h h1.2
      exact ⟨h1.1.trans h2.1, h2.2⟩

lemma simulate_split (args : SimArgs) (es : List EffectInst) (k m : ℕ) (h : k ≤ m) :
    simulate_adventurer { args with rounds := m } es
      = simulate_adventurer { args with rounds := k } es >>= fun s =>
          (List.range' (1 + k) (m - k)).foldlM
            (fun s r => round_step args.adv_atk_mult es args.basic_hits_per_round r s)
            s := by
  simp only [simulate_adventurer]
  have hsplit : List.range' 1 m = List.range' 1 k ++ List.range' (1 + k) (m - k) := by
    rw [List.range'_append_1 1 k (m - k), Nat.sub_add_cancel h]
  rw [hsplit, List.foldlM_append]
  rfl

lemma all_cap_ok_append {l1 l2 : List EffectInst} (h1 : all_cap_ok l1)
    (h2 : all_cap_ok l2) : all_cap_ok (l1 ++ l2) := by
  intro e he
  rcases List.mem_append.1 he with h | h
  · exact h1 e h
  · exact h2 e h

lemma all_cap_ok_ite {P : Prop} [Decidable P] {l1 l2 : List EffectInst}
    (h1 : all_cap_ok l1) (h2 : all_cap_ok l2) :
    all_cap_ok (if P then l1 else l2) := by
  split
  · exact h1
  · exact h2

lemma all_cap_ok_nil : all_cap_ok [] := by intro e he; cases he

lemma all_cap_ok_singleton {e : EffectInst} (h : cap_ok e) : all_cap_ok [e] := by
  intro x hx
  rcases List.mem_singleton.1 hx with rfl
  exact h

lemma all_cap_ok_dg (star : ℤ) (cm : Bool) : all_cap_ok (dg_effects_for_star star cm) := by
  unfold dg_effects_for_star
  refine all_cap_ok_append (all_cap_ok_append (all_cap_ok_append ?_ ?_) ?_) ?_
  · exact all_cap_ok_ite (all_cap_ok_singleton rfl) all_cap_ok_nil
  · exact all_cap_ok_singleton trivial
  · exact all_cap_ok_singleton trivial
  · refine all_cap_ok_ite (all_cap_ok_singleton trivial) ?_
    refine all_cap_ok_ite (all_cap_ok_singleton trivial) ?_
    exact all_cap_ok_ite (all_cap_ok_singleton trivial) (all_cap_ok_singleton trivial)

lemma all_cap_ok_leo (star : ℤ) (cm : Bool) :
    all_cap_ok (leo_effects_for_star star cm) := by
  unfold leo_effects_for_star
  refine all_cap_ok_append (all_cap_ok_append (all_cap_ok_append ?_ ?_) ?_) ?_
  · exact all_cap_ok_singleton trivial
  · refine all_cap_ok_ite (all_cap_ok_singleton trivial) ?_
    exact all_cap_ok_ite (all_cap_ok_singleton trivial) all_cap_ok_nil
  · exact all_cap_ok_singleton trivial
  · refine all_cap_ok_ite (all_cap_ok_singleton trivial) ?_
    exact all_cap_ok_ite (all_cap_ok_singleton trivial) all_cap_ok_nil

lemma all_cap_ok_build (cfg : SimulationConfig) :
    all_cap_ok (build_effects_from_config cfg).1 := by
  unfold build_effects_from_config
  dsimp only
  refine all_cap_ok_append (all_cap_ok_append (all_cap_ok_append (all_cap_ok_append
    (all_cap_ok_append (all_cap_ok_append ?_ ?_) ?_) ?_) ?_) ?_) ?_
  · split
    · exact all_cap_ok_dg cfg.star cfg.combo_mastery
    · split
      · exact all_cap_ok_leo cfg.star cfg.combo_mastery
      · split
        · exact all_cap_ok_nil
        · exact all_cap_ok_nil
  · cases hw : (if cfg.weapon = some "Nashir" then
        some (if cfg.adventurer = "DG" then
          (dg_effects_for_star cfg.star cfg.combo_mastery, (1.15 : ℚ))
        else if cfg.adventurer = "Leo" then
          (leo_effects_for_star cfg.star cfg.combo_mastery, (1.10 : ℚ))
        else if cfg.adventurer = "Daji" then ([], (1.15 : ℚ))
        else ([], (1.0 : ℚ))).2 else none) with
    | none => exact all_cap_ok_nil
    | some m => exact all_cap_ok_singleton trivial
  · exact all_cap_ok_ite (all_cap_ok_singleton trivial) all_cap_ok_nil
  · exact all_cap_ok_ite (all_cap_ok_singleton trivial) all_cap_ok_nil
  · exact all_cap_ok_ite (all_cap_ok_singleton trivial) all_cap_ok_nil
  · exact all_cap_ok_ite (all_cap_ok_singleton trivial) all_cap_ok_nil
  · refine all_cap_ok_ite ?_ all_cap_ok_nil
    exact all_cap_ok_ite (all_cap_ok_singleton trivial) (all_cap_ok_singleton trivial)

/-- C7: the combo-mastery effect (builder instance: step 0.10, cap 99)
multiplies the attack-buff factor before every hit by one plus 0.10 times
the pre-hit stack count and leaves the state untouched; after every
combo-flagged hit it adds exactly one stack capped at 99 and does nothing
otherwise; and across every run whose roster satisfies the builder cap
(which every build_effects_from_config roster does), combo stacks never
decrease from any round to any later round — they are never reset. -/
theorem c7_combo_mastery :
    (∀ (s : SimState) (ctx : HitContext),
      effect_on_before_hit (.comboMastery 0.10 99) s ctx
        = (s, { ctx with atk_mult_buff :=
            ctx.atk_mult_buff * (1.0 + 0.10 * (s.battle.combo_stacks : ℚ)) }))
    ∧ (∀ (s : SimState) (ctx : HitContext), ctx.is_combo = true →
      effect_on_after_hit (.comboMastery 0.10 99) s ctx
        = .ok { s with battle := { s.battle with
            combo_stacks := min (s.battle.combo_stacks + 1) 99 } })
    ∧ (∀ (s : SimState) (ctx : HitContext), ctx.is_combo = false →
      effect_on_after_hit (.comboMastery 0.10 99) s ctx = .ok s)
    ∧ (∀ (args : SimArgs) (es : List EffectInst) (k m : ℕ) (sk sm : SimState),
      (∀ e ∈ es, cap_ok e) → k ≤ m →
      simulate_adventurer { args with rounds := k } es = .ok sk →
      simulate_adventurer { args with rounds := m } es = .ok sm →
      sk.battle.combo_stacks ≤ sm.battle.combo_stacks)
    ∧ (∀ cfg : SimulationConfig, all_cap_ok (build_effects_from_config cfg).1) := by
  refine ⟨fun s ctx => rfl, ?_, ?_, ?_, all_cap_ok_build⟩
  · intro s ctx h
    simp [effect_on_after_hit, combo_after_hit, h]
  · intro s ctx h
    simp [effect_on_after_hit, combo_after_hit, h]
  · intro args es k m sk sm hcap hk hsk hsm
    rw [simulate_split args es k m hk, hsk] at hsm
    simp only [Bind.bind, Except.bind] at hsm
    have h0 : sk.battle.combo_stacks ≤ 99 := by
      unfold simulate_adventurer at hsk
      exact (combo_rounds_fold _ es hcap _ _ _ sk hsk (Nat.zero_le 99)).2
    exact (combo_rounds_fold args.adv_atk_mult es hcap args.basic_hits_per_round
      _ sk sm hsm h0).1

unseal Rat.mul Rat.add Rat.sub Rat.inv Rat.ofScientific in
/-- C7 witness: the monotonicity part applied at rounds 1 and 3 of a
concrete combo-mastery run. -/
theorem c7_combo_mastery_witness :
    ∃ sk sm,
      simulate_adventurer
          { (sim_args_of_config c7_witness_config (fun _ => 1/2)) with rounds := 1 }
          (build_effects_from_config c7_witness_config).1 = .ok sk
      ∧ simulate_adventurer
          { (sim_args_of_config c7_witness_config (fun _ => 1/2)) with rounds := 3 }
          (build_effects_from_config c7_witness_config).1 = .ok sm
      ∧ sk.battle.combo_stacks ≤ sm.battle.combo_stacks := by
  cases h1 : simulate_adventurer
      { (sim_args_of_config c7_witness_config (fun _ => 1/2)) with rounds := 1 }
      (build_effects_from_config c7_witness_config).1 with
  | error e =>
    have hne : sim_error (simulate_adventurer
        { (sim_args_of_config c7_witness_config (fun _ => 1/2)) with rounds := 1 }
        (build_effects_from_config c7_witness_config).1) = none := by decide
    rw [h1] at hne
    exact absurd hne (by simp [sim_error])
  | ok sk =>
    cases h3 : simulate_adventurer
        { (sim_args_of_config c7_witness_config (fun _ => 1/2)) with rounds := 3 }
        (build_effects_from_config c7_witness_config).1 with
    | error e =>
      have hne : sim_error (simulate_adventurer
          { (sim_args_of_config c7_witness_config (fun _ => 1/2)) with rounds := 3 }
          (build_effects_from_config c7_witness_config).1) = none := by decide
      rw [h3] at hne
      exact absurd hne (by simp [sim_error])
    | ok sm =>
      refine ⟨sk, sm, rfl, rfl, ?_⟩
      exact c7_combo_mastery.2.2.2.1 _ _ 1 3 sk sm
        (all_cap_ok_build c7_witness_config) (by norm_num) h1 h3

/-! Claim C8: bucket monotonicity.  The damage formula can go negative
when configured bonuses are negative, so the invariant is proved under
nonnegativity of the configured values, and refuted without them. -/

lemma dmgle_refl (s : SimState) : DmgLe s s :=
  ⟨le_rfl, le_rfl, le_rfl, le_rfl, le_rfl, le_rfl, le_rfl, le_rfl, le_rfl⟩

lemma dmgle_trans {a b c : SimState} (h1 : DmgLe a b) (h2 : DmgLe b c) : DmgLe a c :=
  ⟨h1.dmg_basic.trans h2.dmg_basic, h1.dmg_flame.trans h2.dmg_flame,
   h1.dmg_breath.trans h2.dmg_breath, h1.dmg_other.trans h2.dmg_other,
   h1.dmg_bolt.trans h2.dmg_bolt, h1.dmg_artifact.trans h2.dmg_artifact,
   h1.dmg_ninjutsu.trans h2.dmg_ninjutsu, h1.dmg_hurricane.trans h2.dmg_hurricane,
   h1.dmg_ultimate.trans h2.dmg_ultimate⟩

lemma dmg_nonneg_of_le {a b : SimState} (h0 : DmgNonneg a) (h : DmgLe a b) :
    DmgNonneg b :=
  ⟨h0.dmg_basic.trans h.dmg_basic, h0.dmg_flame.trans h.dmg_flame,
   h0.dmg_breath.trans h.dmg_breath, h0.dmg_other.trans h.dmg_other,
   h0.dmg_bolt.trans h.dmg_bolt, h0.dmg_artifact.trans h.dmg_artifact,
   h0.dmg_ninjutsu.trans h.dmg_ninjutsu, h0.dmg_hurricane.trans h.dmg_hurricane,
   h0.dmg_ultimate.trans h.dmg_ultimate⟩

lemma claimed_global_total_nonneg {ctx : HitContext} {b : BattleState}
    (hc : CtxNonneg ctx) (hb : BattleNonneg b) : 0 ≤ claimed_global_total ctx b := by
  have h1 := hc.global_bonus
  have h2 := hb.base_global_bonus
  have h3 := hb.base_global_skill_bonus
  have h4 := hb.base_global_lightning_bonus
  have h5 := hb.base_global_ninjutsu_bonus
  have h6 := hb.dynamic_global_ninjutsu_bonus
  unfold claimed_global_total
  split_ifs <;> linarith

lemma claimed_inbattle_total_nonneg {ctx : HitContext} {b : BattleState}
    (hc : CtxNonneg ctx) (hb : BattleNonneg b) : 0 ≤ claimed_inbattle_total ctx b := by
  have h1 := hc.inbattle_bonus
  have h2 := hb.base_inbattle_bonus
  have h3 := hb.base_inbattle_basic_bonus
  have h4 := hb.base_inbattle_skill_bonus
  have h5 := hb.base_inbattle_lightning_bonus
  have h6 := hb.dynamic_inbattle_lightning_bonus
  unfold claimed_inbattle_total
  split_ifs <;> linarith

lemma claimed_final_total_nonneg {ctx : HitContext} {b : BattleState}
    (hc : CtxNonneg ctx) (hb : BattleNonneg b) : 0 ≤ claimed_final_total ctx b := by
  have h1 := hc.final_bonus
  have h2 := hb.base_final_bonus
  have h3 := hb.base_final_skill_bonus
  have h4 := hb.base_final_lightning_bonus
  have h5 := hb.temp_final_lightning_bonus
  unfold claimed_final_total
  split_ifs <;> linarith

lemma compute_fst_nonneg {ctx : HitContext} {b : BattleState}
    (hc : CtxNonneg ctx) (hb : BattleNonneg b) : 0 ≤ (compute_hit_damage ctx b).1 := by
  rw [compute_hit_damage_fst]
  unfold claimed_damage
  have hg := claimed_global_total_nonneg hc hb
  have hi := claimed_inbattle_total_nonneg hc hb
  have hf := claimed_final_total_nonneg hc hb
  have hK : 0 ≤ claimed_K ctx := by unfold claimed_K; split_ifs <;> norm_num
  have hea : 0 ≤ claimed_effective_attack ctx :=
    mul_nonneg (mul_nonneg hc.atk_base hc.atk_mult_adventurer) hc.atk_mult_buff
  have g1 : (0 : ℚ) ≤ 1 + claimed_global_total ctx b := by linarith
  have g2 : (0 : ℚ) ≤ 1 + claimed_inbattle_total ctx b := by linarith
  have g3 : (0 : ℚ) ≤ 1 + claimed_final_total ctx b := by linarith
  exact mul_nonneg (mul_nonneg (mul_nonneg (mul_nonneg
    (mul_nonneg hea hc.coeff) hK) g1) g2) g3

lemma compute_battle_nonneg {b : BattleState} (ctx : HitContext)
    (hb : BattleNonneg b) : BattleNonneg (compute_hit_damage ctx b).2 := by
  have hdyn : 0 ≤ (compute_hit_damage ctx b).2.dynamic_inbattle_lightning_bonus := by
    rcases compute_dynamic_inbattle_cases ctx b with hd | hd
    · rw [hd]; exact hb.dynamic_inbattle_lightning_bonus
    · rw [hd]
      exact mul_nonneg (by positivity) hb.lightning_charge_step
  refine ⟨?_, ?_, ?_, ?_, ?_, ?_, ?_, ?_, ?_, ?_, ?_, ?_, ?_, ?_, ?_, ?_, hdyn, ?_, ?_, ?_⟩
  · rw [compute_preserves_breath_global_next]; exact hb.breath_global_next
  · rw [compute_preserves_breath_dragon_next]; exact hb.breath_dragon_next
  · rw [compute_preserves_breath_global_this]; exact hb.breath_global_this
  · rw [compute_preserves_breath_dragon_this]; exact hb.breath_dragon_this
  · rw [compute_preserves_base_global_bonus]; exact hb.base_global_bonus
  · rw [compute_preserves_base_inbattle_bonus]; exact hb.base_inbattle_bonus
  · rw [compute_preserves_base_final_bonus]; exact hb.base_final_bonus
  · rw [compute_preserves_base_global_lightning_bonus]
    exact hb.base_global_lightning_bonus
  · rw [compute_preserves_base_global_skill_bonus]; exact hb.base_global_skill_bonus
  · rw [compute_preserves_base_global_ninjutsu_bonus]
    exact hb.base_global_ninjutsu_bonus
  · rw [compute_preserves_base_final_skill_bonus]; exact hb.base_final_skill_bonus
  · rw [compute_preserves_base_final_lightning_bonus]
    exact hb.base_final_lightning_bonus
  · rw [compute_preserves_base_inbattle_basic_bonus]
    exact hb.base_inbattle_basic_bonus
  · rw [compute_preserves_base_inbattle_skill_bonus]
    exact hb.base_inbattle_skill_bonus
  · rw [compute_preserves_base_inbattle_lightning_bonus]
    exact hb.base_inbattle_lightning_bonus
  · rw [compute_preserves_lightning_charge_step]; exact hb.lightning_charge_step
  · rw [compute_preserves_temp_final_lightning_bonus]
    exact hb.temp_final_lightning_bonus
  · rw [compute_preserves_dynamic_global_ninjutsu_bonus]
    exact hb.dynamic_global_ninjutsu_bonus
  · rw [compute_preserves_daji_bolt_coeff_bonus]; exact hb.daji_bolt_coeff_bonus

lemma battle_nonneg_set_dmg {b : BattleState} (hb : BattleNonneg b)
    (v1 v2 v3 v4 v5 v6 v7 v8 v9 : ℚ) :
    BattleNonneg
      { b with
        dmg_basic := v1, dmg_flame := v2, dmg_breath := v3,
        dmg_other := v4, dmg_bolt := v5, dmg_artifact := v6, dmg_ninjutsu := v7,
        dmg_hurricane := v8, dmg_ultimate := v9 } :=
  ⟨hb.breath_global_next, hb.breath_dragon_next, hb.breath_global_this,
   hb.breath_dragon_this, hb.base_global_bonus, hb.base_inbattle_bonus,
   hb.base_final_bonus, hb.base_global_lightning_bonus, hb.base_global_skill_bonus,
   hb.base_global_ninjutsu_bonus, hb.base_final_skill_bonus,
   hb.base_final_lightning_bonus, hb.base_inbattle_basic_bonus,
   hb.base_inbattle_skill_bonus, hb.base_inbattle_lightning_bonus,
   hb.lightning_charge_step, hb.dynamic_inbattle_lightning_bonus,
   hb.temp_final_lightning_bonus, hb.dynamic_global_ninjutsu_bonus,
   hb.daji_bolt_coeff_bonus⟩

lemma battle_nonneg_set_dragon {b : BattleState} (hb : BattleNonneg b) (v : ℕ) :
    BattleNonneg { b with dragon_stacks := v } :=
  ⟨hb.breath_global_next, hb.breath_dragon_next, hb.breath_global_this,
   hb.breath_dragon_this, hb.base_global_bonus, hb.base_inbattle_bonus,
   hb.base_final_bonus, hb.base_global_lightning_bonus, hb.base_global_skill_bonus,
   hb.base_global_ninjutsu_bonus, hb.base_final_skill_bonus,
   hb.base_final_lightning_bonus, hb.base_inbattle_basic_bonus,
   hb.base_inbattle_skill_bonus, hb.base_inbattle_lightning_bonus,
   hb.lightning_charge_step, hb.dynamic_inbattle_lightning_bonus,
   hb.temp_final_lightning_bonus, hb.dynamic_global_ninjutsu_bonus,
   hb.daji_bolt_coeff_bonus⟩

lemma battle_nonneg_set_combo {b : BattleState} (hb : BattleNonneg b) (v : ℕ) :
    BattleNonneg { b with combo_stacks := v } :=
  ⟨hb.breath_global_next, hb.breath_dragon_next, hb.breath_global_this,
   hb.breath_dragon_this, hb.base_global_bonus, hb.base_inbattle_bonus,
   hb.base_final_bonus, hb.base_global_lightning_bonus, hb.base_global_skill_bonus,
   hb.base_global_ninjutsu_bonus, hb.base_final_skill_bonus,
   hb.base_final_lightning_bonus, hb.base_inbattle_basic_bonus,
   hb.base_inbattle_skill_bonus, hb.base_inbattle_lightning_bonus,
   hb.lightning_charge_step, hb.dynamic_inbattle_lightning_bonus,
   hb.temp_final_lightning_bonus, hb.dynamic_global_ninjutsu_bonus,
   hb.daji_bolt_coeff_bonus⟩

lemma battle_nonneg_set_round_index {b : BattleState} (hb : BattleNonneg b) (v : ℕ) :
    BattleNonneg { b with round_index := v } :=
  ⟨hb.breath_global_next, hb.breath_dragon_next, hb.breath_global_this,
   hb.breath_dragon_this, hb.base_global_bonus, hb.base_inbattle_bonus,
   hb.base_final_bonus, hb.base_global_lightning_bonus, hb.base_global_skill_bonus,
   hb.base_global_ninjutsu_bonus, hb.base_final_skill_bonus,
   hb.base_final_lightning_bonus, hb.base_inbattle_basic_bonus,
   hb.base_inbattle_skill_bonus, hb.base_inbattle_lightning_bonus,
   hb.lightning_charge_step, hb.dynamic_inbattle_lightning_bonus,
   hb.temp_final_lightning_bonus, hb.dynamic_global_ninjutsu_bonus,
   hb.daji_bolt_coeff_bonus⟩

lemma battle_nonneg_set_rng {b : BattleState} (hb : BattleNonneg b) (v : RNG) :
    BattleNonneg { b with rng := v } :=
  ⟨hb.breath_global_next, hb.breath_dragon_next, hb.breath_global_this,
   hb.breath_dragon_this, hb.base_global_bonus, hb.base_inbattle_bonus,
   hb.base_final_bonus, hb.base_global_lightning_bonus, hb.base_global_skill_bonus,
   hb.base_global_ninjutsu_bonus, hb.base_final_skill_bonus,
   hb.base_final_lightning_bonus, hb.base_inbattle_basic_bonus,
   hb.base_inbattle_skill_bonus, hb.base_inbattle_lightning_bonus,
   hb.lightning_charge_step, hb.dynamic_inbattle_lightning_bonus,
   hb.temp_final_lightning_bonus, hb.dynamic_global_ninjutsu_bonus,
   hb.daji_bolt_coeff_bonus⟩

lemma battle_nonneg_set_breath {b : BattleState} (hb : BattleNonneg b)
    {v1 v2 v3 v4 : ℚ} (h1 : 0 ≤ v1) (h2 : 0 ≤ v2) (h3 : 0 ≤ v3) (h4 : 0 ≤ v4) :
    BattleNonneg
      { b with
        breath_global_next := v1, breath_dragon_next := v2,
        breath_global_this := v3, breath_dragon_this := v4 } :=
  ⟨h1, h2, h3, h4, hb.base_global_bonus, hb.base_inbattle_bonus,
   hb.base_final_bonus, hb.base_global_lightning_bonus, hb.base_global_skill_bonus,
   hb.base_global_ninjutsu_bonus, hb.base_final_skill_bonus,
   hb.base_final_lightning_bonus, hb.base_inbattle_basic_bonus,
   hb.base_inbattle_skill_bonus, hb.base_inbattle_lightning_bonus,
   hb.lightning_charge_step, hb.dynamic_inbattle_lightning_bonus,
   hb.temp_final_lightning_bonus, hb.dynamic_global_ninjutsu_bonus,
   hb.daji_bolt_coeff_bonus⟩

lemma battle_nonneg_set_temp_final {b : BattleState} (hb : BattleNonneg b)
    {v : ℚ} (h : 0 ≤ v) :
    BattleNonneg { b with temp_final_lightning_bonus := v } :=
  ⟨hb.breath_global_next, hb.breath_dragon_next, hb.breath_global_this,
   hb.breath_dragon_this, hb.base_global_bonus, hb.base_inbattle_bonus,
   hb.base_final_bonus, hb.base_global_lightning_bonus, hb.base_global_skill_bonus,
   hb.base_global_ninjutsu_bonus, hb.base_final_skill_bonus,
   hb.base_final_lightning_bonus, hb.base_inbattle_basic_bonus,
   hb.base_inbattle_skill_bonus, hb.base_inbattle_lightning_bonus,
   hb.lightning_charge_step, hb.dynamic_inbattle_lightning_bonus, h,
   hb.dynamic_global_ninjutsu_bonus, hb.daji_bolt_coeff_bonus⟩

lemma battle_nonneg_set_flag {b : BattleState} (hb : BattleNonneg b) (v : Bool) :
    BattleNonneg { b with lightning_as_ninjutsu := v } :=
  ⟨hb.breath_global_next, hb.breath_dragon_next, hb.breath_global_this,
   hb.breath_dragon_this, hb.base_global_bonus, hb.base_inbattle_bonus,
   hb.base_final_bonus, hb.base_global_lightning_bonus, hb.base_global_skill_bonus,
   hb.base_global_ninjutsu_bonus, hb.base_final_skill_bonus,
   hb.base_final_lightning_bonus, hb.base_inbattle_basic_bonus,
   hb.base_inbattle_skill_bonus, hb.base_inbattle_lightning_bonus,
   hb.lightning_charge_step, hb.dynamic_inbattle_lightning_bonus,
   hb.temp_final_lightning_bonus, hb.dynamic_global_ninjutsu_bonus,
   hb.daji_bolt_coeff_bonus⟩

lemma battle_nonneg_set_lc {b : BattleState} (hb : BattleNonneg b)
    (n : ℕ) {v : ℚ} (h : 0 ≤ v) :
    BattleNonneg
      { b with
        lightning_charge_stacks := n,
        dynamic_inbattle_lightning_bonus := v } :=
  ⟨hb.breath_global_next, hb.breath_dragon_next, hb.breath_global_this,
   hb.breath_dragon_this, hb.base_global_bonus, hb.base_inbattle_bonus,
   hb.base_final_bonus, hb.base_global_lightning_bonus, hb.base_global_skill_bonus,
   hb.base_global_ninjutsu_bonus, hb.base_final_skill_bonus,
   hb.base_final_lightning_bonus, hb.base_inbattle_basic_bonus,
   hb.base_inbattle_skill_bonus, hb.base_inbattle_lightning_bonus,
   hb.lightning_charge_step, h, hb.temp_final_lightning_bonus,
   hb.dynamic_global_ninjutsu_bonus, hb.daji_bolt_coeff_bonus⟩

lemma nashir_thunder_coeff_nonneg (lvl : ℕ) : 0 ≤ nashir_thunder_coeff lvl := by
  unfold nashir_thunder_coeff nashir_thunder_bonus_by_level nashir_base_thunder_coeff
  split_ifs <;> norm_num

lemma nashir_base_lightning_coeff_nonneg : 0 ≤ nashir_base_lightning_coeff := by
  norm_num [nashir_base_lightning_coeff]

lemma nashir_bolt_mult_nonneg {st : ℚ} (h : 0 ≤ st) : 0 ≤ nashir_bolt_mult st := by
  unfold nashir_bolt_mult
  have : (0 : ℚ) ≤ min st 9.0 := le_min h (by norm_num)
  linarith

lemma atk_buff_combo_nonneg (n : ℕ) : (0 : ℚ) ≤ 1.0 + 0.10 * (n : ℚ) := by
  positivity

lemma grow_nashir_bolt_once (advM buff gb : ℚ) (ha : 0 ≤ advM) (hbf : 0 ≤ buff)
    (hgb : 0 ≤ gb) (s : SimState) (hs : StateNonneg s) :
    StateNonneg (nashir_process_bolts advM buff gb 1 s)
      ∧ DmgLe s (nashir_process_bolts advM buff gb 1 s) := by
  have hb1 : BattleNonneg { s.battle with rng :=
      { s.battle.rng with pos := s.battle.rng.pos + 1 } } :=
    battle_nonneg_set_rng hs.battle _
  simp only [nashir_process_bolts, rng_next, on_after_bolt_scan_eq]
  by_cases ht : s.battle.rng.stream s.battle.rng.pos < (0.5 : ℚ)
  · have hd : decide (s.battle.rng.stream s.battle.rng.pos < (0.5 : ℚ)) = true :=
      decide_eq_true ht
    simp only [hd, if_true]
    have hc : CtxNonneg {
        damage_type := DamageType.other_skill
        coeff := nashir_thunder_coeff s.nashir_charge_level
        atk_mult_adventurer := advM
        atk_mult_buff := buff
        global_bonus := gb
        tags := [Tag.skill, Tag.lightning, Tag.bolt] } :=
      ⟨nashir_thunder_coeff_nonneg _, by norm_num [ATK_BASE], ha, hbf, hgb,
        by norm_num, by norm_num⟩
    refine ⟨⟨?_, ?_⟩, ?_, ?_, ?_, ?_, ?_, ?_, ?_, ?_, ?_⟩
    · exact battle_nonneg_set_dmg (compute_battle_nonneg _ hb1) _ _ _ _ _ _ _ _ _
    · exact le_min (by linarith [hs.nashir_bolt_stacks]) (by norm_num)
    · rw [compute_preserves_dmg_basic]
    · rw [compute_preserves_dmg_flame]
    · rw [compute_preserves_dmg_breath]
    · rw [compute_preserves_dmg_other]
    · rw [compute_preserves_dmg_bolt]
      exact le_add_of_nonneg_right
        (mul_nonneg (compute_fst_nonneg hc hb1)
          (nashir_bolt_mult_nonneg hs.nashir_bolt_stacks))
    · rw [compute_preserves_dmg_artifact]
    · rw [compute_preserves_dmg_ninjutsu]
    · rw [compute_preserves_dmg_hurricane]
    · rw [compute_preserves_dmg_ultimate]
  · have hd : decide (s.battle.rng.stream s.battle.rng.pos < (0.5 : ℚ)) = false :=
      decide_eq_false ht
    simp only [hd, Bool.false_eq_true, if_false]
    have hc : CtxNonneg {
        damage_type := DamageType.other_skill
        coeff := nashir_base_lightning_coeff
        atk_mult_adventurer := advM
        atk_mult_buff := buff
        global_bonus := gb
        tags := [Tag.skill, Tag.lightning, Tag.bolt] } :=
      ⟨nashir_base_lightning_coeff_nonneg, by norm_num [ATK_BASE], ha, hbf, hgb,
        by norm_num, by norm_num⟩
    refine ⟨⟨?_, ?_⟩, ?_, ?_, ?_, ?_, ?_, ?_, ?_, ?_, ?_⟩
    · exact battle_nonneg_set_dmg (compute_battle_nonneg _ hb1) _ _ _ _ _ _ _ _ _
    · exact hs.nashir_bolt_stacks
    · rw [compute_preserves_dmg_basic]
    · rw [compute_preserves_dmg_flame]
    · rw [compute_preserves_dmg_breath]
    · rw [compute_preserves_dmg_other]
    · rw [compute_preserves_dmg_bolt]
      exact le_add_of_nonneg_right
        (mul_nonneg (compute_fst_nonneg hc hb1)
          (nashir_bolt_mult_nonneg hs.nashir_bolt_stacks))
    · rw [compute_preserves_dmg_artifact]
    · rw [compute_preserves_dmg_ninjutsu]
    · rw [compute_preserves_dmg_hurricane]
    · rw [compute_preserves_dmg_ultimate]

lemma nashir_process_bolts_succ_eq (advM buff gb : ℚ) (n : ℕ) (s : SimState) :
    nashir_process_bolts advM buff gb (n + 1) s
      = nashir_process_bolts advM buff gb n (nashir_process_bolts advM buff gb 1 s) := by
  simp only [nashir_process_bolts]

lemma grow_nashir_process_bolts (advM buff gb : ℚ) (ha : 0 ≤ advM) (hbf : 0 ≤ buff)
    (hgb : 0 ≤ gb) :
    ∀ (n : ℕ) (s : SimState), StateNonneg s →
      StateNonneg (nashir_process_bolts advM buff gb n s)
        ∧ DmgLe s (nashir_process_bolts advM buff gb n s) := by
  intro n
  induction n with
  | zero => intro s hs; exact ⟨hs, dmgle_refl s⟩
  | succ n ih =>
    intro s hs
    rw [nashir_process_bolts_succ_eq]
    obtain ⟨h1, h2⟩ := grow_nashir_bolt_once advM buff gb ha hbf hgb s hs
    obtain ⟨h3, h4⟩ := ih _ h1
    exact ⟨h3, dmgle_trans h2 h4⟩

lemma dmgle_of_battle_eq {s a b : SimState} (h : DmgLe s a) (hb : b.battle = a.battle) :
    DmgLe s b := by
  refine ⟨?_, ?_, ?_, ?_, ?_, ?_, ?_, ?_, ?_⟩ <;> rw [hb]
  exacts [h.dmg_basic, h.dmg_flame, h.dmg_breath, h.dmg_other, h.dmg_bolt,
    h.dmg_artifact, h.dmg_ninjutsu, h.dmg_hurricane, h.dmg_ultimate]

lemma grow_chain (g : SimState → SimState)
    (hg : ∀ t, StateNonneg t → StateNonneg (g t) ∧ DmgLe t (g t))
    {s S : SimState} (h1 : StateNonneg S) (h2 : DmgLe s S) :
    StateNonneg (g S) ∧ DmgLe s (g S) :=
  ⟨(hg S h1).1, dmgle_trans h2 (hg S h1).2⟩

lemma grow_nashir_process_lightning_bolt (m buff : ℚ) (hm : 0 ≤ m) (hbf : 0 ≤ buff)
    (count : ℤ) (s : SimState) (hs : StateNonneg s) :
    StateNonneg (nashir_process_lightning_bolt m s buff count)
      ∧ DmgLe s (nashir_process_lightning_bolt m s buff count) := by
  unfold nashir_process_lightning_bolt
  split
  · exact ⟨hs, dmgle_refl s⟩
  · exact grow_nashir_process_bolts m buff s.battle.breath_global_this hm hbf
      hs.battle.breath_global_this count.toNat s hs

lemma grow_nashir_on_end_round_skills (advM : ℚ) (ha : 0 ≤ advM)
    (s : SimState) (hs : StateNonneg s) :
    StateNonneg (nashir_on_end_round_skills advM s)
      ∧ DmgLe s (nashir_on_end_round_skills advM s) := by
  simp only [nashir_on_end_round_skills]
  exact grow_nashir_process_lightning_bolt advM (atk_buff_mult s.battle) ha
    (atk_buff_combo_nonneg s.battle.combo_stacks) 1 s hs

lemma grow_nashir_release_once (advM buff gb : ℚ) (ha : 0 ≤ advM) (hbf : 0 ≤ buff)
    (hgb : 0 ≤ gb) (s : SimState) (hs : StateNonneg s) :
    StateNonneg (nashir_release_loop advM buff gb 1 s)
      ∧ DmgLe s (nashir_release_loop advM buff gb 1 s) := by
  simp only [nashir_release_loop]
  have hc : CtxNonneg {
      damage_type := DamageType.other_skill
      coeff := nashir_thunder_coeff s.nashir_charge_level
      atk_mult_adventurer := advM
      atk_mult_buff := buff
      global_bonus := gb
      tags := [Tag.skill, Tag.lightning, Tag.bolt] } :=
    ⟨nashir_thunder_coeff_nonneg _, by norm_num [ATK_BASE], ha, hbf, hgb,
      by norm_num, by norm_num⟩
  refine ⟨⟨?_, ?_⟩, ?_, ?_, ?_, ?_, ?_, ?_, ?_, ?_, ?_⟩
  · exact battle_nonneg_set_dmg (compute_battle_nonneg _ hs.battle) _ _ _ _ _ _ _ _ _
  · exact le_min (by linarith [hs.nashir_bolt_stacks]) (by norm_num)
  · rw [compute_preserves_dmg_basic]
  · rw [compute_preserves_dmg_flame]
  · rw [compute_preserves_dmg_breath]
  · rw [compute_preserves_dmg_other]
  · rw [compute_preserves_dmg_bolt]
    exact le_add_of_nonneg_right
      (mul_nonneg (compute_fst_nonneg hc hs.battle)
        (nashir_bolt_mult_nonneg hs.nashir_bolt_stacks))
  · rw [compute_preserves_dmg_artifact]
  · rw [compute_preserves_dmg_ninjutsu]
  · rw [compute_preserves_dmg_hurricane]
  · rw [compute_preserves_dmg_ultimate]

lemma nashir_release_loop_succ_eq (advM buff gb : ℚ) (n : ℕ) (s : SimState) :
    nashir_release_loop advM buff gb (n + 1) s
      = nashir_release_loop advM buff gb n (nashir_release_loop advM buff gb 1 s) := by
  simp only [nashir_release_loop]

lemma grow_nashir_release_loop (advM buff gb : ℚ) (ha : 0 ≤ advM) (hbf : 0 ≤ buff)
    (hgb : 0 ≤ gb) :
    ∀ (n : ℕ) (s : SimState), StateNonneg s →
      StateNonneg (nashir_release_loop advM buff gb n s)
        ∧ DmgLe s (nashir_release_loop advM buff gb n s) := by
  intro n
  induction n with
  | zero => intro s hs; exact ⟨hs, dmgle_refl s⟩
  | succ n ih =>
    intro s hs
    rw [nashir_release_loop_succ_eq]
    obtain ⟨h1, h2⟩ := grow_nashir_release_once advM buff gb ha hbf hgb s hs
    obtain ⟨h3, h4⟩ := ih _ h1
    exact ⟨h3, dmgle_trans h2 h4⟩

lemma grow_nashir_charge_release (advM : ℚ) (ha : 0 ≤ advM)
    (s : SimState) (hs : StateNonneg s) :
    StateNonneg (nashir_on_end_round_charge_release advM s)
      ∧ DmgLe s (nashir_on_end_round_charge_release advM s) := by
  by_cases h3 : s.nashir_charge_level = 3
  · simp only [nashir_on_end_round_charge_release, h3, release_loop_level, if_true,
      if_pos, lt_irrefl, if_false, reduceIte]
    obtain ⟨g1, g2⟩ := grow_nashir_release_loop advM (atk_buff_mult s.battle)
      s.battle.breath_global_this ha (atk_buff_combo_nonneg s.battle.combo_stacks)
      hs.battle.breath_global_this 6 s hs
    exact ⟨⟨g1.battle, g1.nashir_bolt_stacks⟩, dmgle_of_battle_eq g2 rfl⟩
  · by_cases hlt : s.nashir_charge_level < 3
    · simp only [nashir_on_end_round_charge_release, if_neg h3, if_pos hlt]
      exact ⟨⟨hs.battle, hs.nashir_bolt_stacks⟩, dmgle_of_battle_eq (dmgle_refl s) rfl⟩
    · simp only [nashir_on_end_round_charge_release, if_neg h3, if_neg hlt]
      exact ⟨⟨hs.battle, hs.nashir_bolt_stacks⟩, dmgle_of_battle_eq (dmgle_refl s) rfl⟩

lemma grow_plain_bolt_once (advM buff : ℚ) (ha : 0 ≤ advM) (hbf : 0 ≤ buff)
    (s s' : SimState) (h : plain_lightning_bolts advM buff 1 s = .ok s')
    (hs : StateNonneg s) : StateNonneg s' ∧ DmgLe s s' := by
  simp only [plain_lightning_bolts, getattrOrThrow] at h
  cases hlad : s.battle.lightning_as_demonic with
  | none => rw [hlad] at h; cases h
  | some lad =>
    rw [hlad] at h
    cases hdcb : s.battle.daji_bolt_coeff_bonus with
    | none => rw [hdcb] at h; simp [Bind.bind, Except.bind] at h
    | some dcb =>
      rw [hdcb] at h
      simp only [Bind.bind, Except.bind, on_after_bolt_scan_eq] at h
      cases h
      have hdnn : 0 ≤ dcb := hs.battle.daji_bolt_coeff_bonus dcb hdcb
      refine ⟨⟨?_, hs.nashir_bolt_stacks⟩, ?_, ?_, ?_, ?_, ?_, ?_, ?_, ?_, ?_⟩
      · exact battle_nonneg_set_dmg (compute_battle_nonneg _ hs.battle) _ _ _ _ _ _ _ _ _
      · rw [compute_preserves_dmg_basic]
      · rw [compute_preserves_dmg_flame]
      · rw [compute_preserves_dmg_breath]
      · rw [compute_preserves_dmg_other]
        refine le_add_of_nonneg_right (compute_fst_nonneg ?_ hs.battle)
        exact ⟨add_nonneg (by norm_num) hdnn, by norm_num [ATK_BASE], ha, hbf,
          hs.battle.breath_global_this, by norm_num, by norm_num⟩
      · rw [compute_preserves_dmg_bolt]
      · rw [compute_preserves_dmg_artifact]
      · rw [compute_preserves_dmg_ninjutsu]
      · rw [compute_preserves_dmg_hurricane]
      · rw [compute_preserves_dmg_ultimate]

lemma plain_lightning_bolts_succ_eq (advM buff : ℚ) (n : ℕ) (s : SimState) :
    plain_lightning_bolts advM buff (n + 1) s
      = plain_lightning_bolts advM buff 1 s >>= plain_lightning_bolts advM buff n := by
  simp only [plain_lightning_bolts, getattrOrThrow]
  cases s.battle.lightning_as_demonic with
  | none => simp [Bind.bind, Except.bind]
  | some lad =>
    cases s.battle.daji_bolt_coeff_bonus with
    | none => simp [Bind.bind, Except.bind]
    | some dcb => simp [Bind.bind, Except.bind]

lemma grow_plain_lightning_bolts (advM buff : ℚ) (ha : 0 ≤ advM) (hbf : 0 ≤ buff) :
    ∀ (n : ℕ) (s s' : SimState), plain_lightning_bolts advM buff n s = .ok s' →
      StateNonneg s → StateNonneg s' ∧ DmgLe s s' := by
  intro n
  induction n with
  | zero => intro s s' h hs; cases h; exact ⟨hs, dmgle_refl s⟩
  | succ n ih =>
    intro s s' h hs
    rw [plain_lightning_bolts_succ_eq] at h
    cases h1 : plain_lightning_bolts advM buff 1 s with
    | error e => rw [h1] at h; cases h
    | ok s1 =>
      rw [h1] at h
      simp only [Bind.bind, Except.bind] at h
      obtain ⟨g1, g2⟩ := grow_plain_bolt_once advM buff ha hbf s s1 h1 hs
      obtain ⟨g3, g4⟩ := ih s1 s' h g1
      exact ⟨g3, dmgle_trans g2 g4⟩

lemma grow_extra_end_bolts (advM : ℚ) (n_bolts : ℤ) (nm : Option ℚ) (mf : ℤ)
    (ha : 0 ≤ advM) (hnm : ∀ q ∈ nm, 0 ≤ q) (s s' : SimState)
    (h : extra_end_bolts_skills advM n_bolts nm mf s = .ok s') (hs : StateNonneg s) :
    StateNonneg s' ∧ DmgLe s s' := by
  unfold extra_end_bolts_skills at h
  split at h
  · cases h; exact ⟨hs, dmgle_refl s⟩
  · cases nm with
    | some m =>
      dsimp only at h
      cases h
      exact grow_nashir_process_lightning_bolt m _ (hnm m rfl)
        (atk_buff_combo_nonneg _) _ s hs
    | none =>
      dsimp only at h
      exact grow_plain_lightning_bolts advM _ ha (atk_buff_combo_nonneg _) _ s s' h hs

lemma grow_basic_atk_bolt (advM chance : ℚ) (nm : Option ℚ) (mf : ℤ)
    (ha : 0 ≤ advM) (hnm : ∀ q ∈ nm, 0 ≤ q) (s s' : SimState)
    (h : basic_atk_bolt_after_hit advM chance nm mf s = .ok s') (hs : StateNonneg s) :
    StateNonneg s' ∧ DmgLe s s' := by
  simp only [basic_atk_bolt_after_hit, rng_next] at h
  split at h
  · cases h
    exact ⟨⟨battle_nonneg_set_rng hs.battle _, hs.nashir_bolt_stacks⟩,
      ⟨le_rfl, le_rfl, le_rfl, le_rfl, le_rfl, le_rfl, le_rfl, le_rfl, le_rfl⟩⟩
  · cases nm with
    | some m =>
      dsimp only at h
      cases h
      refine grow_chain _
        (fun t ht => grow_nashir_process_lightning_bolt m _ (hnm m rfl)
          (atk_buff_combo_nonneg _) _ t ht) ?_ ?_
      · exact ⟨battle_nonneg_set_rng hs.battle _, hs.nashir_bolt_stacks⟩
      · exact ⟨le_rfl, le_rfl, le_rfl, le_rfl, le_rfl, le_rfl, le_rfl, le_rfl, le_rfl⟩
    | none =>
      dsimp only at h
      obtain ⟨g1, g2⟩ := grow_plain_lightning_bolts advM _ ha
        (atk_buff_combo_nonneg _) _ _ s' h
        ⟨battle_nonneg_set_rng hs.battle _, hs.nashir_bolt_stacks⟩
      refine ⟨g1, dmgle_trans ?_ g2⟩
      exact ⟨le_rfl, le_rfl, le_rfl, le_rfl, le_rfl, le_rfl, le_rfl, le_rfl, le_rfl⟩

lemma grow_five_bolts (advM : ℚ) (nm : Option ℚ) (mf : ℤ)
    (ha : 0 ≤ advM) (hnm : ∀ q ∈ nm, 0 ≤ q) (s s' : SimState)
    (h : five_bolts_skills advM nm mf s = .ok s') (hs : StateNonneg s) :
    StateNonneg s' ∧ DmgLe s s' := by
  unfold five_bolts_skills at h
  split at h
  · cases h; exact ⟨hs, dmgle_refl s⟩
  · cases nm with
    | some m =>
      dsimp only at h
      cases h
      exact grow_nashir_process_lightning_bolt m _ (hnm m rfl)
        (atk_buff_combo_nonneg _) _ s hs
    | none =>
      dsimp only at h
      exact grow_plain_lightning_bolts advM _ ha (atk_buff_combo_nonneg _) _ s s' h hs

lemma grow_ezra_round_start (advM fb : ℚ) (ha : 0 ≤ advM) (hfb : 0 ≤ fb)
    (s : SimState) (hs : StateNonneg s) :
    StateNonneg (ezra_on_round_start advM fb s)
      ∧ DmgLe s (ezra_on_round_start advM fb s) := by
  simp only [ezra_on_round_start]
  have hb1 : BattleNonneg { s.battle with temp_final_lightning_bonus :=
      s.battle.temp_final_lightning_bonus + fb } :=
    battle_nonneg_set_temp_final hs.battle
      (add_nonneg hs.battle.temp_final_lightning_bonus hfb)
  refine ⟨⟨?_, hs.nashir_bolt_stacks⟩, ?_, ?_, ?_, ?_, ?_, ?_, ?_, ?_, ?_⟩
  · exact battle_nonneg_set_dmg (compute_battle_nonneg _ hb1) _ _ _ _ _ _ _ _ _
  · rw [compute_preserves_dmg_basic]
  · rw [compute_preserves_dmg_flame]
  · rw [compute_preserves_dmg_breath]
  · rw [compute_preserves_dmg_other]
  · rw [compute_preserves_dmg_bolt]
    refine le_add_of_nonneg_right (compute_fst_nonneg ?_ hb1)
    exact ⟨by norm_num, by norm_num [ATK_BASE], ha, atk_buff_combo_nonneg _,
      hs.battle.breath_global_this, by norm_num, by norm_num⟩
  · rw [compute_preserves_dmg_artifact]
  · rw [compute_preserves_dmg_ninjutsu]
  · rw [compute_preserves_dmg_hurricane]
  · rw [compute_preserves_dmg_ultimate]

lemma grow_tome_proc_loop (advM coeffQ : ℚ) (per : ℕ) (ha : 0 ≤ advM)
    (hcq : 0 ≤ coeffQ) :
    ∀ (fuel : ℕ) (s : SimState), StateNonneg s →
      StateNonneg (tome_proc_loop advM coeffQ per fuel s)
        ∧ DmgLe s (tome_proc_loop advM coeffQ per fuel s) := by
  intro fuel
  induction fuel with
  | zero => intro s hs; exact ⟨hs, dmgle_refl s⟩
  | succ fuel ih =>
    intro s hs
    simp only [tome_proc_loop]
    split
    · refine grow_chain (tome_proc_loop advM coeffQ per fuel) ih ?_ ?_
      · refine ⟨?_, hs.nashir_bolt_stacks⟩
        exact battle_nonneg_set_dmg (compute_battle_nonneg _ hs.battle) _ _ _ _ _ _ _ _ _
      · refine ⟨?_, ?_, ?_, ?_, ?_, ?_, ?_, ?_, ?_⟩
        · rw [compute_preserves_dmg_basic]
        · rw [compute_preserves_dmg_flame]
        · rw [compute_preserves_dmg_breath]
        · rw [compute_preserves_dmg_other]
          refine le_add_of_nonneg_right (compute_fst_nonneg ?_ hs.battle)
          exact ⟨hcq, by norm_num [ATK_BASE], ha, atk_buff_combo_nonneg _,
            hs.battle.breath_global_this, by norm_num, by norm_num⟩
        · rw [compute_preserves_dmg_bolt]
        · rw [compute_preserves_dmg_artifact]
        · rw [compute_preserves_dmg_ninjutsu]
        · rw [compute_preserves_dmg_hurricane]
        · rw [compute_preserves_dmg_ultimate]
    · exact ⟨hs, dmgle_refl s⟩

lemma grow_tome_after_hit (advM : ℚ) (per : ℕ) (coeffQ : ℚ) (ctx : HitContext)
    (ha : 0 ≤ advM) (hcq : 0 ≤ coeffQ) (s : SimState) (hs : StateNonneg s) :
    StateNonneg (tome_after_hit advM per coeffQ ctx s)
      ∧ DmgLe s (tome_after_hit advM per coeffQ ctx s) := by
  unfold tome_after_hit
  split
  · exact ⟨hs, dmgle_refl s⟩
  · refine grow_chain (tome_proc_loop advM coeffQ per 3)
      (grow_tome_proc_loop advM coeffQ per ha hcq 3) ?_ ?_
    · exact ⟨hs.battle, hs.nashir_bolt_stacks⟩
    · exact ⟨le_rfl, le_rfl, le_rfl, le_rfl, le_rfl, le_rfl, le_rfl, le_rfl, le_rfl⟩

lemma grow_leo_multi_hit_part (advM : ℚ) (has_2star : Bool) (ctx : HitContext)
    (ha : 0 ≤ advM) (hctx : CtxNonneg ctx) (pc : ℚ) (hpc : 0 ≤ pc)
    (s : SimState) (hs : StateNonneg s) :
    StateNonneg (leo_multi_hit_part advM has_2star ctx s pc)
      ∧ DmgLe s (leo_multi_hit_part advM has_2star ctx s pc) := by
  simp only [leo_multi_hit_part, rng_next]
  have hcb : CtxNonneg {
      damage_type := DamageType.basic
      coeff := pc
      is_basic := ctx.is_basic
      is_combo := ctx.is_combo
      hit_index_in_round := ctx.hit_index_in_round
      atk_base := ctx.atk_base
      atk_mult_adventurer := advM
      atk_mult_buff := ctx.atk_mult_buff
      global_bonus := ctx.global_bonus
      tags := [Tag.basic] } :=
    ⟨hpc, hctx.atk_base, ha, hctx.atk_mult_buff, hctx.global_bonus,
      by norm_num, by norm_num⟩
  cases hres1 : compute_hit_damage {
      damage_type := DamageType.basic
      coeff := pc
      is_basic := ctx.is_basic
      is_combo := ctx.is_combo
      hit_index_in_round := ctx.hit_index_in_round
      atk_base := ctx.atk_base
      atk_mult_adventurer := advM
      atk_mult_buff := ctx.atk_mult_buff
      global_bonus := ctx.global_bonus
      tags := [Tag.basic] } s.battle with
  | mk d1 b1 =>
  have hd1 : 0 ≤ d1 := by
    have h := compute_fst_nonneg hcb hs.battle
    rw [hres1] at h
    exact h
  have hb1 : BattleNonneg b1 := by
    have h := compute_battle_nonneg {
      damage_type := DamageType.basic
      coeff := pc
      is_basic := ctx.is_basic
      is_combo := ctx.is_combo
      hit_index_in_round := ctx.hit_index_in_round
      atk_base := ctx.atk_base
      atk_mult_adventurer := advM
      atk_mult_buff := ctx.atk_mult_buff
      global_bonus := ctx.global_bonus
      tags := [Tag.basic] } hs.battle
    rw [hres1] at h
    exact h
  have hsh := compute_snd_shape {
      damage_type := DamageType.basic
      coeff := pc
      is_basic := ctx.is_basic
      is_combo := ctx.is_combo
      hit_index_in_round := ctx.hit_index_in_round
      atk_base := ctx.atk_base
      atk_mult_adventurer := advM
      atk_mult_buff := ctx.atk_mult_buff
      global_bonus := ctx.global_bonus
      tags := [Tag.basic] } s.battle
  rw [hres1] at hsh
  dsimp only at hsh
  have e1 : b1.dmg_basic = s.battle.dmg_basic := by rw [hsh]
  have e2 : b1.dmg_flame = s.battle.dmg_flame := by rw [hsh]
  have e3 : b1.dmg_breath = s.battle.dmg_breath := by rw [hsh]
  have e4 : b1.dmg_other = s.battle.dmg_other := by rw [hsh]
  have e5 : b1.dmg_bolt = s.battle.dmg_bolt := by rw [hsh]
  have e6 : b1.dmg_artifact = s.battle.dmg_artifact := by rw [hsh]
  have e7 : b1.dmg_ninjutsu = s.battle.dmg_ninjutsu := by rw [hsh]
  have e8 : b1.dmg_hurricane = s.battle.dmg_hurricane := by rw [hsh]
  have e9 : b1.dmg_ultimate = s.battle.dmg_ultimate := by rw [hsh]
  dsimp only
  split
  · split
    · have hB2 : BattleNonneg { b1 with
          dmg_basic := b1.dmg_basic + d1
          rng := { stream := b1.rng.stream, pos := b1.rng.pos + 1 } } :=
        battle_nonneg_set_rng
          (battle_nonneg_set_dmg hb1 (b1.dmg_basic + d1) b1.dmg_flame b1.dmg_breath
            b1.dmg_other b1.dmg_bolt b1.dmg_artifact b1.dmg_ninjutsu b1.dmg_hurricane
            b1.dmg_ultimate)
          { stream := b1.rng.stream, pos := b1.rng.pos + 1 }
      have hc2 : CtxNonneg {
          damage_type := DamageType.other_skill
          coeff := pc
          atk_base := ctx.atk_base
          atk_mult_adventurer := advM
          atk_mult_buff := ctx.atk_mult_buff
          global_bonus := ctx.global_bonus
          tags := [Tag.skill, Tag.ninjutsu, Tag.basic] } :=
        ⟨hpc, hctx.atk_base, ha, hctx.atk_mult_buff, hctx.global_bonus,
          by norm_num, by norm_num⟩
      cases hres2 : compute_hit_damage {
          damage_type := DamageType.other_skill
          coeff := pc
          atk_base := ctx.atk_base
          atk_mult_adventurer := advM
          atk_mult_buff := ctx.atk_mult_buff
          global_bonus := ctx.global_bonus
          tags := [Tag.skill, Tag.ninjutsu, Tag.basic] }
        { b1 with
          dmg_basic := b1.dmg_basic + d1
          rng := { stream := b1.rng.stream, pos := b1.rng.pos + 1 } } with
      | mk d2 b2 =>
      have hd2 : 0 ≤ d2 := by
        have h := compute_fst_nonneg hc2 hB2
        rw [hres2] at h
        exact h
      have hb2 : BattleNonneg b2 := by
        have h := compute_battle_nonneg {
            damage_type := DamageType.other_skill
            coeff := pc
            atk_base := ctx.atk_base
            atk_mult_adventurer := advM
            atk_mult_buff := ctx.atk_mult_buff
            global_bonus := ctx.global_bonus
            tags := [Tag.skill, Tag.ninjutsu, Tag.basic] } hB2
        rw [hres2] at h
        exact h
      have hsh2 := compute_snd_shape {
          damage_type := DamageType.other_skill
          coeff := pc
          atk_base := ctx.atk_base
          atk_mult_adventurer := advM
          atk_mult_buff := ctx.atk_mult_buff
          global_bonus := ctx.global_bonus
          tags := [Tag.skill, Tag.ninjutsu, Tag.basic] }
        { b1 with
          dmg_basic := b1.dmg_basic + d1
          rng := { stream := b1.rng.stream, pos := b1.rng.pos + 1 } }
      rw [hres2] at hsh2
      dsimp only at hsh2
      have f1 : b2.dmg_basic = b1.dmg_basic + d1 := by rw [hsh2]
      have f2 : b2.dmg_flame = b1.dmg_flame := by rw [hsh2]
      have f3 : b2.dmg_breath = b1.dmg_breath := by rw [hsh2]
      have f4 : b2.dmg_other = b1.dmg_other := by rw [hsh2]
      have f5 : b2.dmg_bolt = b1.dmg_bolt := by rw [hsh2]
      have f6 : b2.dmg_artifact = b1.dmg_artifact := by rw [hsh2]
      have f7 : b2.dmg_ninjutsu = b1.dmg_ninjutsu := by rw [hsh2]
      have f8 : b2.dmg_hurricane = b1.dmg_hurricane := by rw [hsh2]
      have f9 : b2.dmg_ultimate = b1.dmg_ultimate := by rw [hsh2]
      dsimp only
      refine ⟨⟨?_, hs.nashir_bolt_stacks⟩, ?_, ?_, ?_, ?_, ?_, ?_, ?_, ?_, ?_⟩
      · exact battle_nonneg_set_dmg hb2 _ _ _ _ _ _ _ _ _
      · simp only [f1, e1]
        exact le_add_of_nonneg_right hd1
      · simp only [f2, e2, le_refl]
      · simp only [f3, e3, le_refl]
      · simp only [f4, e4]
        exact le_add_of_nonneg_right hd2
      · simp only [f5, e5, le_refl]
      · simp only [f6, e6, le_refl]
      · simp only [f7, e7, le_refl]
      · simp only [f8, e8, le_refl]
      · simp only [f9, e9, le_refl]
    · refine ⟨⟨?_, hs.nashir_bolt_stacks⟩, ?_, ?_, ?_, ?_, ?_, ?_, ?_, ?_, ?_⟩
      · exact battle_nonneg_set_rng
          (battle_nonneg_set_dmg hb1 (b1.dmg_basic + d1) b1.dmg_flame b1.dmg_breath
            b1.dmg_other b1.dmg_bolt b1.dmg_artifact b1.dmg_ninjutsu b1.dmg_hurricane
            b1.dmg_ultimate)
          { stream := b1.rng.stream, pos := b1.rng.pos + 1 }
      · simp only [e1]
        exact le_add_of_nonneg_right hd1
      · simp only [e2, le_refl]
      · simp only [e3, le_refl]
      · simp only [e4, le_refl]
      · simp only [e5, le_refl]
      · simp only [e6, le_refl]
      · simp only [e7, le_refl]
      · simp only [e8, le_refl]
      · simp only [e9, le_refl]
  · refine ⟨⟨?_, hs.nashir_bolt_stacks⟩, ?_, ?_, ?_, ?_, ?_, ?_, ?_, ?_, ?_⟩
    · exact battle_nonneg_set_dmg hb1 _ _ _ _ _ _ _ _ _
    · simp only [e1]
      exact le_add_of_nonneg_right hd1
    · simp only [e2, le_refl]
    · simp only [e3, le_refl]
    · simp only [e4, le_refl]
    · simp only [e5, le_refl]
    · simp only [e6, le_refl]
    · simp only [e7, le_refl]
    · simp only [e8, le_refl]
    · simp only [e9, le_refl]

lemma grow_leo_multi_hit_after_hit (advM : ℚ) (has_2star : Bool) (ctx : HitContext)
    (ha : 0 ≤ advM) (hctx : CtxNonneg ctx) (s : SimState) (hs : StateNonneg s) :
    StateNonneg (leo_multi_hit_after_hit advM has_2star ctx s)
      ∧ DmgLe s (leo_multi_hit_after_hit advM has_2star ctx s) := by
  unfold leo_multi_hit_after_hit
  split
  · exact ⟨hs, dmgle_refl s⟩
  · simp only [leo_basic_parts, List.foldl_cons, List.foldl_nil]
    have h1 := grow_leo_multi_hit_part advM has_2star ctx ha hctx 0.30 (by norm_num) s hs
    have h2 := grow_leo_multi_hit_part advM has_2star ctx ha hctx 0.70 (by norm_num) _ h1.1
    have h3 := grow_leo_multi_hit_part advM has_2star ctx ha hctx 1.00 (by norm_num) _ h2.1
    have hle := dmgle_trans (dmgle_trans h1.2 h2.2) h3.2
    refine ⟨⟨?_, h3.1.nashir_bolt_stacks⟩, ?_, ?_, ?_, ?_, ?_, ?_, ?_, ?_, ?_⟩
    · exact battle_nonneg_set_dmg (compute_battle_nonneg _ h3.1.battle) _ _ _ _ _ _ _ _ _
    · refine le_trans hle.dmg_basic ?_
      rw [compute_preserves_dmg_basic]
    · refine le_trans hle.dmg_flame ?_
      rw [compute_preserves_dmg_flame]
    · refine le_trans hle.dmg_breath ?_
      rw [compute_preserves_dmg_breath]
    · refine le_trans hle.dmg_other ?_
      rw [compute_preserves_dmg_other]
      refine le_add_of_nonneg_right (compute_fst_nonneg ?_ h3.1.battle)
      exact ⟨by norm_num, hctx.atk_base, ha, hctx.atk_mult_buff, hctx.global_bonus,
        by norm_num, by norm_num⟩
    · refine le_trans hle.dmg_bolt ?_
      rw [compute_preserves_dmg_bolt]
    · refine le_trans hle.dmg_artifact ?_
      rw [compute_preserves_dmg_artifact]
    · refine le_trans hle.dmg_ninjutsu ?_
      rw [compute_preserves_dmg_ninjutsu]
    · refine le_trans hle.dmg_hurricane ?_
      rw [compute_preserves_dmg_hurricane]
    · refine le_trans hle.dmg_ultimate ?_
      rw [compute_preserves_dmg_ultimate]

lemma grow_leo_hurricane_once (advM coeffQ : ℚ) (ha : 0 ≤ advM) (hcq : 0 ≤ coeffQ)
    (s : SimState) (hs : StateNonneg s) :
    StateNonneg (leo_hurricane_hits advM coeffQ 1 s)
      ∧ DmgLe s (leo_hurricane_hits advM coeffQ 1 s) := by
  simp only [leo_hurricane_hits]
  refine ⟨⟨?_, hs.nashir_bolt_stacks⟩, ?_, ?_, ?_, ?_, ?_, ?_, ?_, ?_, ?_⟩
  · exact battle_nonneg_set_dmg (compute_battle_nonneg _ hs.battle) _ _ _ _ _ _ _ _ _
  · rw [compute_preserves_dmg_basic]
  · rw [compute_preserves_dmg_flame]
  · rw [compute_preserves_dmg_breath]
  · rw [compute_preserves_dmg_other]
    refine le_add_of_nonneg_right (compute_fst_nonneg ?_ hs.battle)
    exact ⟨hcq, by norm_num [ATK_BASE], ha, by norm_num,
      hs.battle.breath_global_this, by norm_num, by norm_num⟩
  · rw [compute_preserves_dmg_bolt]
  · rw [compute_preserves_dmg_artifact]
  · rw [compute_preserves_dmg_ninjutsu]
  · rw [compute_preserves_dmg_hurricane]
  · rw [compute_preserves_dmg_ultimate]

lemma leo_hurricane_hits_succ_eq (advM coeffQ : ℚ) (n : ℕ) (s : SimState) :
    leo_hurricane_hits advM coeffQ (n + 1) s
      = leo_hurricane_hits advM coeffQ n (leo_hurricane_hits advM coeffQ 1 s) := by
  simp only [leo_hurricane_hits]

lemma grow_leo_hurricane_hits (advM coeffQ : ℚ) (ha : 0 ≤ advM) (hcq : 0 ≤ coeffQ) :
    ∀ (n : ℕ) (s : SimState), StateNonneg s →
      StateNonneg (leo_hurricane_hits advM coeffQ n s)
        ∧ DmgLe s (leo_hurricane_hits advM coeffQ n s) := by
  intro n
  induction n with
  | zero => intro s hs; exact ⟨hs, dmgle_refl s⟩
  | succ n ih =>
    intro s hs
    rw [leo_hurricane_hits_succ_eq]
    obtain ⟨h1, h2⟩ := grow_leo_hurricane_once advM coeffQ ha hcq s hs
    obtain ⟨h3, h4⟩ := ih _ h1
    exact ⟨h3, dmgle_trans h2 h4⟩

lemma grow_leo_hurricane_adventurer (advM : ℚ) (start_round interval : ℕ)
    (coeffQ : ℚ) (ha : 0 ≤ advM) (hcq : 0 ≤ coeffQ) (s : SimState)
    (hs : StateNonneg s) :
    StateNonneg (leo_hurricane_adventurer advM start_round interval coeffQ s)
      ∧ DmgLe s (leo_hurricane_adventurer advM start_round interval coeffQ s) := by
  simp only [leo_hurricane_adventurer]
  split
  · exact ⟨hs, dmgle_refl s⟩
  · split
    · exact ⟨hs, dmgle_refl s⟩
    · exact grow_leo_hurricane_hits advM coeffQ ha hcq 5 s hs

lemma grow_dg_stacks_round_start (enabled : Bool) (max_stacks : ℕ)
    (s : SimState) (hs : StateNonneg s) :
    StateNonneg (dg_stacks_round_start enabled max_stacks s)
      ∧ DmgLe s (dg_stacks_round_start enabled max_stacks s) := by
  unfold dg_stacks_round_start
  split
  · exact ⟨hs, dmgle_refl s⟩
  · exact ⟨⟨battle_nonneg_set_dragon hs.battle _, hs.nashir_bolt_stacks⟩,
      ⟨le_rfl, le_rfl, le_rfl, le_rfl, le_rfl, le_rfl, le_rfl, le_rfl, le_rfl⟩⟩

lemma grow_dg_stacks_after_hit (enabled : Bool) (max_stacks : ℕ)
    (s : SimState) (hs : StateNonneg s) :
    StateNonneg (dg_stacks_after_hit enabled max_stacks s)
      ∧ DmgLe s (dg_stacks_after_hit enabled max_stacks s) := by
  unfold dg_stacks_after_hit
  split
  · exact ⟨hs, dmgle_refl s⟩
  · exact ⟨⟨battle_nonneg_set_dragon hs.battle _, hs.nashir_bolt_stacks⟩,
      ⟨le_rfl, le_rfl, le_rfl, le_rfl, le_rfl, le_rfl, le_rfl, le_rfl, le_rfl⟩⟩

lemma grow_dg_flame_after_hit (coeffQ : ℚ) (ctx : HitContext) (hcq : 0 ≤ coeffQ)
    (hctx : CtxNonneg ctx) (s : SimState) (hs : StateNonneg s) :
    StateNonneg (dg_flame_after_hit coeffQ ctx s)
      ∧ DmgLe s (dg_flame_after_hit coeffQ ctx s) := by
  simp only [dg_flame_after_hit]
  refine ⟨⟨?_, hs.nashir_bolt_stacks⟩, ?_, ?_, ?_, ?_, ?_, ?_, ?_, ?_, ?_⟩
  · exact battle_nonneg_set_dmg (compute_battle_nonneg _ hs.battle) _ _ _ _ _ _ _ _ _
  · rw [compute_preserves_dmg_basic]
  · rw [compute_preserves_dmg_flame]
    refine le_add_of_nonneg_right (compute_fst_nonneg ?_ hs.battle)
    exact ⟨hcq, hctx.atk_base, hctx.atk_mult_adventurer, atk_buff_combo_nonneg _,
      add_nonneg hctx.global_bonus hs.battle.breath_dragon_this,
      by norm_num, by norm_num⟩
  · rw [compute_preserves_dmg_breath]
  · rw [compute_preserves_dmg_other]
  · rw [compute_preserves_dmg_bolt]
  · rw [compute_preserves_dmg_artifact]
  · rw [compute_preserves_dmg_ninjutsu]
  · rw [compute_preserves_dmg_hurricane]
  · rw [compute_preserves_dmg_ultimate]

lemma grow_dg_breath_round_start (s : SimState) (hs : StateNonneg s) :
    StateNonneg (dg_breath_round_start s) ∧ DmgLe s (dg_breath_round_start s) := by
  unfold dg_breath_round_start
  exact ⟨⟨battle_nonneg_set_breath hs.battle (by norm_num) (by norm_num)
      hs.battle.breath_global_next hs.battle.breath_dragon_next,
    hs.nashir_bolt_stacks⟩,
    ⟨le_rfl, le_rfl, le_rfl, le_rfl, le_rfl, le_rfl, le_rfl, le_rfl, le_rfl⟩⟩

lemma grow_dg_breath_adventurer (enabled : Bool) (coeffQ dn gn : ℚ)
    (hcq : 0 ≤ coeffQ) (hdn : 0 ≤ dn) (hgn : 0 ≤ gn) (s : SimState)
    (hs : StateNonneg s) :
    StateNonneg (dg_breath_adventurer enabled coeffQ dn gn s)
      ∧ DmgLe s (dg_breath_adventurer enabled coeffQ dn gn s) := by
  unfold dg_breath_adventurer
  split
  · exact ⟨hs, dmgle_refl s⟩
  · split
    · exact ⟨hs, dmgle_refl s⟩
    · refine ⟨⟨?_, hs.nashir_bolt_stacks⟩, ?_, ?_, ?_, ?_, ?_, ?_, ?_, ?_, ?_⟩
      · refine battle_nonneg_set_breath
          (battle_nonneg_set_dmg (compute_battle_nonneg _ hs.battle) _ _ _ _ _ _ _ _ _)
          ?_ ?_ ?_ ?_
        · exact add_nonneg (compute_battle_nonneg _ hs.battle).breath_global_next hgn
        · exact add_nonneg (compute_battle_nonneg _ hs.battle).breath_dragon_next hdn
        · exact add_nonneg (compute_battle_nonneg _ hs.battle).breath_global_this hgn
        · exact add_nonneg (compute_battle_nonneg _ hs.battle).breath_dragon_this hdn
      · simp only [compute_preserves_dmg_basic, le_refl]
      · simp only [compute_preserves_dmg_flame, le_refl]
      · simp only [compute_preserves_dmg_breath]
        refine le_add_of_nonneg_right (compute_fst_nonneg ?_ hs.battle)
        refine ⟨hcq, by norm_num [ATK_BASE], by norm_num, by norm_num, ?_,
          by norm_num, by norm_num⟩
        exact add_nonneg (add_nonneg hs.battle.breath_global_this
          hs.battle.breath_dragon_this) (mul_nonneg (by norm_num) (Nat.cast_nonneg _))
      · simp only [compute_preserves_dmg_other, le_refl]
      · simp only [compute_preserves_dmg_bolt, le_refl]
      · simp only [compute_preserves_dmg_artifact, le_refl]
      · simp only [compute_preserves_dmg_ninjutsu, le_refl]
      · simp only [compute_preserves_dmg_hurricane, le_refl]
      · simp only [compute_preserves_dmg_ultimate, le_refl]

lemma grow_combo_after_hit (max_stacks : ℕ) (ctx : HitContext)
    (s : SimState) (hs : StateNonneg s) :
    StateNonneg (combo_after_hit max_stacks ctx s)
      ∧ DmgLe s (combo_after_hit max_stacks ctx s) := by
  unfold combo_after_hit
  split
  · exact ⟨⟨battle_nonneg_set_combo hs.battle _, hs.nashir_bolt_stacks⟩,
      ⟨le_rfl, le_rfl, le_rfl, le_rfl, le_rfl, le_rfl, le_rfl, le_rfl, le_rfl⟩⟩
  · exact ⟨hs, dmgle_refl s⟩

lemma grow_lightning_charge_reset (s : SimState) (hs : StateNonneg s) :
    StateNonneg (lightning_charge_reset s) ∧ DmgLe s (lightning_charge_reset s) := by
  unfold lightning_charge_reset
  split
  · exact ⟨⟨battle_nonneg_set_lc hs.battle 0 (by norm_num), hs.nashir_bolt_stacks⟩,
      ⟨le_rfl, le_rfl, le_rfl, le_rfl, le_rfl, le_rfl, le_rfl, le_rfl, le_rfl⟩⟩
  · exact ⟨hs, dmgle_refl s⟩

lemma effect_before_fst (e : EffectInst) (s : SimState) (ctx : HitContext) :
    (effect_on_before_hit e s ctx).1 = s := by
  cases e <;> simp only [effect_on_before_hit] <;> first | rfl | (split <;> rfl)

lemma ctx_nonneg_effect_before (e : EffectInst) (he : effect_nonneg e) (s : SimState)
    (hsb : BattleNonneg s.battle) (ctx : HitContext) (hc : CtxNonneg ctx) :
    CtxNonneg (effect_on_before_hit e s ctx).2 := by
  cases e
  case dgStacks en st mx =>
    simp only [effect_on_before_hit, dg_stacks_before_hit]
    split_ifs
    · exact ⟨hc.coeff, hc.atk_base, hc.atk_mult_adventurer, hc.atk_mult_buff,
        add_nonneg hc.global_bonus (mul_nonneg he (Nat.cast_nonneg _)),
        hc.inbattle_bonus, hc.final_bonus⟩
    · exact hc
    · exact hc
  case dgBreath en c dn gn =>
    exact ⟨hc.coeff, hc.atk_base, hc.atk_mult_adventurer, hc.atk_mult_buff,
      add_nonneg hc.global_bonus hsb.breath_global_this,
      hc.inbattle_bonus, hc.final_bonus⟩
  case comboMastery st mx =>
    exact ⟨hc.coeff, hc.atk_base, hc.atk_mult_adventurer,
      mul_nonneg hc.atk_mult_buff
        (by linarith [mul_nonneg he (Nat.cast_nonneg s.battle.combo_stacks)]),
      hc.global_bonus, hc.inbattle_bonus, hc.final_bonus⟩
  case leoMultiHit a b2 =>
    simp only [effect_on_before_hit]
    split
    · exact ⟨by norm_num, hc.atk_base, hc.atk_mult_adventurer, hc.atk_mult_buff,
        hc.global_bonus, hc.inbattle_bonus, hc.final_bonus⟩
    · exact hc
  all_goals exact hc

lemma ctx_nonneg_scan_before (es : List EffectInst) (hes : ∀ e ∈ es, effect_nonneg e) :
    ∀ (s : SimState) (ctx : HitContext), BattleNonneg s.battle → CtxNonneg ctx →
      CtxNonneg (scan_before_hit es s ctx).2 := by
  unfold scan_before_hit
  induction es with
  | nil => intro s ctx _ hc; exact hc
  | cons e es ih =>
    intro s ctx hsb hc
    simp only [List.foldl_cons]
    rcases hp : effect_on_before_hit e s ctx with ⟨s1, ctx1⟩
    have hs1 : s1 = s := by
      have h := effect_before_fst e s ctx
      rw [hp] at h
      exact h
    subst hs1
    refine ih (fun x hx => hes x (by simp [hx])) s1 ctx1 hsb ?_
    have h := ctx_nonneg_effect_before e (hes e (by simp)) s1 hsb ctx hc
    rw [hp] at h
    exact h

lemma grow_effect_round_start (e : EffectInst) (he : effect_nonneg e)
    (s : SimState) (hs : StateNonneg s) :
    StateNonneg (effect_on_round_start e s) ∧ DmgLe s (effect_on_round_start e s) := by
  cases e
  case dgStacks en st mx => exact grow_dg_stacks_round_start en mx s hs
  case dgBreath en c dn gn => exact grow_dg_breath_round_start s hs
  case ezraRing a fb => exact grow_ezra_round_start a fb he.1 he.2 s hs
  case arcaneTome a per c =>
    exact ⟨⟨hs.battle, hs.nashir_bolt_stacks⟩,
      ⟨le_rfl, le_rfl, le_rfl, le_rfl, le_rfl, le_rfl, le_rfl, le_rfl, le_rfl⟩⟩
  case leoLightningFlag en =>
    exact ⟨⟨battle_nonneg_set_flag hs.battle en, hs.nashir_bolt_stacks⟩,
      ⟨le_rfl, le_rfl, le_rfl, le_rfl, le_rfl, le_rfl, le_rfl, le_rfl, le_rfl⟩⟩
  all_goals exact ⟨hs, dmgle_refl s⟩

lemma grow_scan_round_start (es : List EffectInst) (hes : ∀ e ∈ es, effect_nonneg e) :
    ∀ (s : SimState), StateNonneg s →
      StateNonneg (scan_round_start es s) ∧ DmgLe s (scan_round_start es s) := by
  unfold scan_round_start
  induction es with
  | nil => intro s hs; exact ⟨hs, dmgle_refl s⟩
  | cons e es ih =>
    intro s hs
    simp only [List.foldl_cons]
    obtain ⟨h1, h2⟩ := grow_effect_round_start e (hes e (by simp)) s hs
    obtain ⟨h3, h4⟩ := ih (fun x hx => hes x (by simp [hx])) _ h1
    exact ⟨h3, dmgle_trans h2 h4⟩

lemma grow_effect_after_hit (e : EffectInst) (he : effect_nonneg e) (ctx : HitContext)
    (hctx : CtxNonneg ctx) (s s' : SimState) (h : effect_on_after_hit e s ctx = .ok s')
    (hs : StateNonneg s) : StateNonneg s' ∧ DmgLe s s' := by
  cases e
  case dgStacks en st mx => cases h; exact grow_dg_stacks_after_hit en mx s hs
  case dgFlame c => cases h; exact grow_dg_flame_after_hit c ctx he hctx s hs
  case comboMastery st mx => cases h; exact grow_combo_after_hit mx ctx s hs
  case basicAtkBolt a ch nm mf =>
    exact grow_basic_atk_bolt a ch nm mf he.1 he.2 s s' h hs
  case arcaneTome a per c =>
    cases h; exact grow_tome_after_hit a per c ctx he.1 he.2 s hs
  case leoMultiHit a b2 =>
    cases h; exact grow_leo_multi_hit_after_hit a b2 ctx he hctx s hs
  all_goals (cases h; exact ⟨hs, dmgle_refl s⟩)

lemma grow_scan_after_hit (es : List EffectInst) (hes : ∀ e ∈ es, effect_nonneg e)
    (ctx : HitContext) (hctx : CtxNonneg ctx) :
    ∀ (s s' : SimState), scan_after_hit es s ctx = .ok s' → StateNonneg s →
      StateNonneg s' ∧ DmgLe s s' := by
  unfold scan_after_hit
  induction es with
  | nil => intro s s' h hs; cases h; exact ⟨hs, dmgle_refl s⟩
  | cons e es ih =>
    intro s s' h hs
    simp only [List.foldlM_cons, Bind.bind] at h
    cases he2 : effect_on_after_hit e s ctx with
    | error err => rw [he2] at h; cases h
    | ok s1 =>
      rw [he2] at h
      simp only [Except.bind] at h
      obtain ⟨h1, h2⟩ := grow_effect_after_hit e (hes e (by simp)) ctx hctx s s1 he2 hs
      obtain ⟨h3, h4⟩ := ih (fun x hx => hes x (by simp [hx])) s1 s' h h1
      exact ⟨h3, dmgle_trans h2 h4⟩

lemma grow_effect_end_adventurer (e : EffectInst) (he : effect_nonneg e)
    (s : SimState) (hs : StateNonneg s) :
    StateNonneg (effect_on_end_round_adventurer e s)
      ∧ DmgLe s (effect_on_end_round_adventurer e s) := by
  cases e
  case dgBreath en c dn gn =>
    exact grow_dg_breath_adventurer en c dn gn he.1 he.2.1 he.2.2 s hs
  case leoHurricane a sr iv c =>
    exact grow_leo_hurricane_adventurer a sr iv c he.1 he.2 s hs
  all_goals exact ⟨hs, dmgle_refl s⟩

lemma grow_scan_end_adventurer (es : List EffectInst) (hes : ∀ e ∈ es, effect_nonneg e) :
    ∀ (s : SimState), StateNonneg s →
      StateNonneg (scan_end_adventurer es s) ∧ DmgLe s (scan_end_adventurer es s) := by
  unfold scan_end_adventurer
  induction es with
  | nil => intro s hs; exact ⟨hs, dmgle_refl s⟩
  | cons e es ih =>
    intro s hs
    simp only [List.foldl_cons]
    obtain ⟨h1, h2⟩ := grow_effect_end_adventurer e (hes e (by simp)) s hs
    obtain ⟨h3, h4⟩ := ih (fun x hx => hes x (by simp [hx])) _ h1
    exact ⟨h3, dmgle_trans h2 h4⟩

lemma grow_effect_end_skills (e : EffectInst) (he : effect_nonneg e)
    (s s' : SimState) (h : effect_on_end_round_skills e s = .ok s')
    (hs : StateNonneg s) : StateNonneg s' ∧ DmgLe s s' := by
  cases e
  case nashirScepter a => cases h; exact grow_nashir_on_end_round_skills a he s hs
  case extraEndBolts a nb nm mf =>
    exact grow_extra_end_bolts a nb nm mf he.1 he.2 s s' h hs
  case fiveBoltsAfterRound6 a nm mf =>
    exact grow_five_bolts a nm mf he.1 he.2 s s' h hs
  all_goals (cases h; exact ⟨hs, dmgle_refl s⟩)

lemma grow_scan_end_skills (es : List EffectInst) (hes : ∀ e ∈ es, effect_nonneg e) :
    ∀ (s s' : SimState), scan_end_skills es s = .ok s' → StateNonneg s →
      StateNonneg s' ∧ DmgLe s s' := by
  unfold scan_end_skills
  induction es with
  | nil => intro s s' h hs; cases h; exact ⟨hs, dmgle_refl s⟩
  | cons e es ih =>
    intro s s' h hs
    simp only [List.foldlM_cons, Bind.bind] at h
    cases he2 : effect_on_end_round_skills e s with
    | error err => rw [he2] at h; cases h
    | ok s1 =>
      rw [he2] at h
      simp only [Except.bind] at h
      obtain ⟨h1, h2⟩ := grow_effect_end_skills e (hes e (by simp)) s s1 he2 hs
      obtain ⟨h3, h4⟩ := ih (fun x hx => hes x (by simp [hx])) s1 s' h h1
      exact ⟨h3, dmgle_trans h2 h4⟩

lemma grow_effect_end_buffs_expire (e : EffectInst) (s : SimState) (hs : StateNonneg s) :
    StateNonneg (effect_on_end_round_buffs_expire e s)
      ∧ DmgLe s (effect_on_end_round_buffs_expire e s) := by
  cases e
  case ezraRing a fb =>
    exact ⟨⟨battle_nonneg_set_temp_final hs.battle (by norm_num),
      hs.nashir_bolt_stacks⟩,
      ⟨le_rfl, le_rfl, le_rfl, le_rfl, le_rfl, le_rfl, le_rfl, le_rfl, le_rfl⟩⟩
  all_goals exact ⟨hs, dmgle_refl s⟩

lemma grow_scan_end_buffs_expire (es : List EffectInst) :
    ∀ (s : SimState), StateNonneg s →
      StateNonneg (scan_end_buffs_expire es s)
        ∧ DmgLe s (scan_end_buffs_expire es s) := by
  unfold scan_end_buffs_expire
  induction es with
  | nil => intro s hs; exact ⟨hs, dmgle_refl s⟩
  | cons e es ih =>
    intro s hs
    simp only [List.foldl_cons]
    obtain ⟨h1, h2⟩ := grow_effect_end_buffs_expire e s hs
    obtain ⟨h3, h4⟩ := ih _ h1
    exact ⟨h3, dmgle_trans h2 h4⟩

lemma grow_effect_end_charge_release (e : EffectInst) (he : effect_nonneg e)
    (s : SimState) (hs : StateNonneg s) :
    StateNonneg (effect_on_end_round_charge_release e s)
      ∧ DmgLe s (effect_on_end_round_charge_release e s) := by
  cases e
  case nashirScepter a => exact grow_nashir_charge_release a he s hs
  all_goals exact ⟨hs, dmgle_refl s⟩

lemma grow_scan_end_charge_release (es : List EffectInst)
    (hes : ∀ e ∈ es, effect_nonneg e) :
    ∀ (s : SimState), StateNonneg s →
      StateNonneg (scan_end_charge_release es s)
        ∧ DmgLe s (scan_end_charge_release es s) := by
  unfold scan_end_charge_release
  induction es with
  | nil => intro s hs; exact ⟨hs, dmgle_refl s⟩
  | cons e es ih =>
    intro s hs
    simp only [List.foldl_cons]
    obtain ⟨h1, h2⟩ := grow_effect_end_charge_release e (hes e (by simp)) s hs
    obtain ⟨h3, h4⟩ := ih (fun x hx => hes x (by simp [hx])) _ h1
    exact ⟨h3, dmgle_trans h2 h4⟩

set_option maxHeartbeats 1000000 in
lemma grow_hit_step (advM : ℚ) (ha : 0 ≤ advM) (es : List EffectInst)
    (hes : ∀ e ∈ es, effect_nonneg e) (hnum : ℕ) (s s' : SimState)
    (h : hit_step advM es hnum s = .ok s') (hs : StateNonneg s) :
    StateNonneg s' ∧ DmgLe s s' := by
  unfold hit_step at h
  have hc0 : CtxNonneg {
      damage_type := DamageType.basic
      coeff := 1.0
      is_basic := hnum == 1
      is_combo := decide (hnum ≥ 2)
      hit_index_in_round := hnum
      atk_mult_adventurer := advM
      tags := [Tag.basic] } :=
    ⟨by norm_num, by norm_num [ATK_BASE], ha, by norm_num, by norm_num,
      by norm_num, by norm_num⟩
  have hcp := ctx_nonneg_scan_before es hes s _ hs.battle hc0
  have G := grow_scan_after_hit es hes _
    ⟨hcp.coeff, hcp.atk_base, hcp.atk_mult_adventurer, hcp.atk_mult_buff,
      hcp.global_bonus, hcp.inbattle_bonus, hcp.final_bonus⟩ _ s' h
  simp only [scan_before_hit_state_eq] at G
  have G2 := G ⟨battle_nonneg_set_dmg (compute_battle_nonneg _ hs.battle)
    _ _ _ _ _ _ _ _ _, hs.nashir_bolt_stacks⟩
  refine ⟨G2.1, dmgle_trans ?_ G2.2⟩
  refine ⟨?_, ?_, ?_, ?_, ?_, ?_, ?_, ?_, ?_⟩
  · simp only [compute_preserves_dmg_basic]
    exact le_add_of_nonneg_right (compute_fst_nonneg hcp hs.battle)
  · simp only [compute_preserves_dmg_flame, le_refl]
  · simp only [compute_preserves_dmg_breath, le_refl]
  · simp only [compute_preserves_dmg_other, le_refl]
  · simp only [compute_preserves_dmg_bolt, le_refl]
  · simp only [compute_preserves_dmg_artifact, le_refl]
  · simp only [compute_preserves_dmg_ninjutsu, le_refl]
  · simp only [compute_preserves_dmg_hurricane, le_refl]
  · simp only [compute_preserves_dmg_ultimate, le_refl]

lemma grow_hits_fold (advM : ℚ) (ha : 0 ≤ advM) (es : List EffectInst)
    (hes : ∀ e ∈ es, effect_nonneg e) :
    ∀ (l : List ℕ) (s s' : SimState),
      l.foldlM (fun s h => hit_step advM es h s) s = .ok s' → StateNonneg s →
      StateNonneg s' ∧ DmgLe s s' := by
  intro l
  induction l with
  | nil => intro s s' h hs; cases h; exact ⟨hs, dmgle_refl s⟩
  | cons r l ih =>
    intro s s' h hs
    simp only [List.foldlM_cons, Bind.bind] at h
    cases he : hit_step advM es r s with
    | error err => rw [he] at h; cases h
    | ok s1 =>
      rw [he] at h
      simp only [Except.bind] at h
      obtain ⟨h1, h2⟩ := grow_hit_step advM ha es hes r s s1 he hs
      obtain ⟨h3, h4⟩ := ih s1 s' h h1
      exact ⟨h3, dmgle_trans h2 h4⟩

lemma grow_round_step (advM : ℚ) (ha : 0 ≤ advM) (es : List EffectInst)
    (hes : ∀ e ∈ es, effect_nonneg e) (hits r : ℕ) (s s' : SimState)
    (hok : round_step advM es hits r s = .ok s') (hs : StateNonneg s) :
    StateNonneg s' ∧ DmgLe s s' := by
  simp only [round_step] at hok
  cases h1 : (List.range' 1 hits).foldlM (fun s h => hit_step advM es h s)
      (scan_round_start es { s with battle := { s.battle with round_index := r } }) with
  | error err => rw [h1] at hok; cases hok
  | ok s1 =>
    rw [h1] at hok
    simp only [Bind.bind, Except.bind] at hok
    cases h2 : scan_end_skills es (scan_end_adventurer es s1) with
    | error err => rw [h2] at hok; cases hok
    | ok s2 =>
      rw [h2] at hok
      cases hok
      have g0 : StateNonneg { s with battle := { s.battle with round_index := r } }
          ∧ DmgLe s { s with battle := { s.battle with round_index := r } } :=
        ⟨⟨battle_nonneg_set_round_index hs.battle r, hs.nashir_bolt_stacks⟩,
          ⟨le_rfl, le_rfl, le_rfl, le_rfl, le_rfl, le_rfl, le_rfl, le_rfl, le_rfl⟩⟩
      have g1 := grow_scan_round_start es hes _ g0.1
      have g2 := grow_hits_fold advM ha es hes (List.range' 1 hits) _ s1 h1 g1.1
      have g3 := grow_scan_end_adventurer es hes s1 g2.1
      have g4 := grow_scan_end_skills es hes _ s2 h2 g3.1
      have g5 := grow_scan_end_buffs_expire es s2 g4.1
      have g6 := grow_lightning_charge_reset _ g5.1
      have g7 := grow_scan_end_charge_release es hes _ g6.1
      exact ⟨g7.1, dmgle_trans g0.2 (dmgle_trans g1.2 (dmgle_trans g2.2
        (dmgle_trans g3.2 (dmgle_trans g4.2 (dmgle_trans g5.2
          (dmgle_trans g6.2 g7.2))))))⟩

lemma grow_rounds_fold (advM : ℚ) (ha : 0 ≤ advM) (es : List EffectInst)
    (hes : ∀ e ∈ es, effect_nonneg e) (hits : ℕ) :
    ∀ (l : List ℕ) (s s' : SimState),
      l.foldlM (fun s r => round_step advM es hits r s) s = .ok s' → StateNonneg s →
      StateNonneg s' ∧ DmgLe s s' := by
  intro l
  induction l with
  | nil => intro s s' h hs; cases h; exact ⟨hs, dmgle_refl s⟩
  | cons r l ih =>
    intro s s' h hs
    simp only [List.foldlM_cons, Bind.bind] at h
    cases he : round_step advM es hits r s with
    | error err => rw [he] at h; cases h
    | ok s1 =>
      rw [he] at h
      simp only [Except.bind] at h
      obtain ⟨h1, h2⟩ := grow_round_step advM ha es hes hits r s s1 he hs
      obtain ⟨h3, h4⟩ := ih s1 s' h h1
      exact ⟨h3, dmgle_trans h2 h4⟩

lemma init_state_nonneg (args : SimArgs) (es : List EffectInst)
    (hargs : ArgsNonneg args) : StateNonneg (init_sim_state args es) := by
  unfold init_sim_state
  refine ⟨⟨?_, ?_, ?_, ?_, ?_, ?_, ?_, ?_, ?_, ?_, ?_, ?_, ?_, ?_, ?_, ?_, ?_, ?_,
    ?_, ?_⟩, ?_⟩
  · norm_num
  · norm_num
  · norm_num
  · norm_num
  · exact hargs.base_global_bonus
  · exact hargs.base_inbattle_bonus
  · exact hargs.base_final_bonus
  · exact hargs.base_global_lightning_bonus
  · exact hargs.base_global_skill_bonus
  · exact hargs.base_global_ninjutsu_bonus
  · exact hargs.base_final_skill_bonus
  · exact hargs.base_final_lightning_bonus
  · exact hargs.base_inbattle_basic_bonus
  · exact hargs.base_inbattle_skill_bonus
  · exact hargs.base_inbattle_lightning_bonus
  · exact hargs.lightning_charge_step
  · norm_num
  · norm_num
  · norm_num
  · intro q hq; cases hq
  · norm_num

lemma init_dmg_nonneg (args : SimArgs) (es : List EffectInst) :
    DmgNonneg (init_sim_state args es) := by
  unfold init_sim_state
  refine ⟨?_, ?_, ?_, ?_, ?_, ?_, ?_, ?_, ?_⟩ <;> norm_num

lemma all_en_append {l1 l2 : List EffectInst} (h1 : all_effect_nonneg l1)
    (h2 : all_effect_nonneg l2) : all_effect_nonneg (l1 ++ l2) := by
  intro e he
  rcases List.mem_append.1 he with h | h
  · exact h1 e h
  · exact h2 e h

lemma all_en_ite {P : Prop} [Decidable P] {l1 l2 : List EffectInst}
    (h1 : all_effect_nonneg l1) (h2 : all_effect_nonneg l2) :
    all_effect_nonneg (if P then l1 else l2) := by
  split
  · exact h1
  · exact h2

lemma all_en_nil : all_effect_nonneg [] := by intro e he; cases he

lemma all_en_singleton {e : EffectInst} (h : effect_nonneg e) :
    all_effect_nonneg [e] := by
  intro x hx
  rcases List.mem_singleton.1 hx with rfl
  exact h

lemma all_en_dg (star : ℤ) (cm : Bool) :
    all_effect_nonneg (dg_effects_for_star star cm) := by
  unfold dg_effects_for_star
  refine all_en_append (all_en_append (all_en_append ?_ ?_) ?_) ?_
  · exact all_en_ite (all_en_singleton (by norm_num [effect_nonneg])) all_en_nil
  · exact all_en_singleton (by norm_num [effect_nonneg])
  · refine all_en_singleton ?_
    simp only [effect_nonneg]
    split <;> norm_num
  · refine all_en_ite (all_en_singleton (by norm_num [effect_nonneg])) ?_
    refine all_en_ite (all_en_singleton (by norm_num [effect_nonneg])) ?_
    exact all_en_ite (all_en_singleton (by norm_num [effect_nonneg]))
      (all_en_singleton (by norm_num [effect_nonneg]))

lemma all_en_leo (star : ℤ) (cm : Bool) :
    all_effect_nonneg (leo_effects_for_star star cm) := by
  unfold leo_effects_for_star
  refine all_en_append (all_en_append (all_en_append ?_ ?_) ?_) ?_
  · exact all_en_singleton (by norm_num [effect_nonneg])
  · refine all_en_ite (all_en_singleton (by norm_num [effect_nonneg])) ?_
    exact all_en_ite (all_en_singleton (by norm_num [effect_nonneg])) all_en_nil
  · exact all_en_singleton (by simp [effect_nonneg])
  · refine all_en_ite (all_en_singleton (by simp [effect_nonneg])) ?_
    exact all_en_ite (all_en_singleton (by simp [effect_nonneg])) all_en_nil

lemma build_adv_mult_nonneg (cfg : SimulationConfig) :
    0 ≤ (if cfg.adventurer = "DG" then
        (dg_effects_for_star cfg.star cfg.combo_mastery, (1.15 : ℚ))
      else if cfg.adventurer = "Leo" then
        (leo_effects_for_star cfg.star cfg.combo_mastery, (1.10 : ℚ))
      else if cfg.adventurer = "Daji" then ([], (1.15 : ℚ))
      else ([], (1.0 : ℚ))).2 := by
  split_ifs <;> norm_num

lemma build_nashirMult_nonneg (cfg : SimulationConfig) :
    ∀ q ∈ (if cfg.weapon = some "Nashir" then
      some (if cfg.adventurer = "DG" then
          (dg_effects_for_star cfg.star cfg.combo_mastery, (1.15 : ℚ))
        else if cfg.adventurer = "Leo" then
          (leo_effects_for_star cfg.star cfg.combo_mastery, (1.10 : ℚ))
        else if cfg.adventurer = "Daji" then ([], (1.15 : ℚ))
        else ([], (1.0 : ℚ))).2 else none), 0 ≤ q := by
  intro q hq
  split at hq
  · cases hq
    exact build_adv_mult_nonneg cfg
  · cases hq

lemma build_mult_nonneg (cfg : SimulationConfig) :
    0 ≤ (build_effects_from_config cfg).2 := by
  unfold build_effects_from_config
  dsimp only
  exact build_adv_mult_nonneg cfg

lemma all_en_build (cfg : SimulationConfig) (hc : ConfigNonneg cfg) :
    all_effect_nonneg (build_effects_from_config cfg).1 := by
  unfold build_effects_from_config
  dsimp only
  refine all_en_append (all_en_append (all_en_append (all_en_append
    (all_en_append (all_en_append ?_ ?_) ?_) ?_) ?_) ?_) ?_
  · split
    · exact all_en_dg cfg.star cfg.combo_mastery
    · split
      · exact all_en_leo cfg.star cfg.combo_mastery
      · split
        · exact all_en_nil
        · exact all_en_nil
  · cases hw : (if cfg.weapon = some "Nashir" then
        some (if cfg.adventurer = "DG" then
          (dg_effects_for_star cfg.star cfg.combo_mastery, (1.15 : ℚ))
        else if cfg.adventurer = "Leo" then
          (leo_effects_for_star cfg.star cfg.combo_mastery, (1.10 : ℚ))
        else if cfg.adventurer = "Daji" then ([], (1.15 : ℚ))
        else ([], (1.0 : ℚ))).2 else none) with
    | none => exact all_en_nil
    | some m =>
      refine all_en_singleton ?_
      have hm := build_nashirMult_nonneg cfg m
      rw [hw] at hm
      exact hm rfl
  · refine all_en_ite (all_en_singleton ?_) all_en_nil
    exact ⟨build_adv_mult_nonneg cfg, hc.ezra_final_light_bonus⟩
  · refine all_en_ite (all_en_singleton ?_) all_en_nil
    exact ⟨build_adv_mult_nonneg cfg, build_nashirMult_nonneg cfg⟩
  · refine all_en_ite (all_en_singleton ?_) all_en_nil
    exact ⟨build_adv_mult_nonneg cfg, build_nashirMult_nonneg cfg⟩
  · refine all_en_ite (all_en_singleton ?_) all_en_nil
    exact ⟨build_adv_mult_nonneg cfg, build_nashirMult_nonneg cfg⟩
  · refine all_en_ite ?_ all_en_nil
    refine all_en_ite (all_en_singleton ?_) (all_en_singleton ?_)
    · exact ⟨build_adv_mult_nonneg cfg, by norm_num⟩
    · exact ⟨build_adv_mult_nonneg cfg, by norm_num⟩

lemma args_nonneg_of_config (cfg : SimulationConfig) (stream : ℕ → ℚ)
    (hc : ConfigNonneg cfg) : ArgsNonneg (sim_args_of_config cfg stream) := by
  unfold sim_args_of_config
  exact ⟨build_mult_nonneg cfg, hc.base_global_bonus, hc.base_inbattle_bonus,
    hc.base_final_bonus, hc.base_global_skill_bonus, hc.base_global_lightning_bonus,
    hc.base_global_ninjutsu_bonus, hc.base_final_skill_bonus,
    hc.base_final_lightning_bonus, hc.base_inbattle_basic_bonus,
    hc.base_inbattle_skill_bonus, hc.base_inbattle_lightning_bonus,
    hc.lightning_charge_step⟩

/-- C8: the claim is unconditional over all runs, but the damage formula
books negative amounts as soon as a configured bonus is negative, so the
invariant is proved for every run whose numeric inputs are nonnegative. -/
theorem c8_buckets_monotone_amended :
    (∀ (args : SimArgs) (es : List EffectInst) (k m : ℕ) (sk sm : SimState),
      ArgsNonneg args → (∀ e ∈ es, effect_nonneg e) → k ≤ m →
      simulate_adventurer { args with rounds := k } es = .ok sk →
      simulate_adventurer { args with rounds := m } es = .ok sm →
      DmgNonneg sk ∧ DmgLe sk sm)
    ∧ (∀ (cfg : SimulationConfig) (stream : ℕ → ℚ), ConfigNonneg cfg →
      ArgsNonneg (sim_args_of_config cfg stream)
        ∧ ∀ e ∈ (build_effects_from_config cfg).1, effect_nonneg e) := by
  constructor
  · intro args es k m sk sm hargs hes hk hsk hsm
    rw [simulate_split args es k m hk, hsk] at hsm
    simp only [Bind.bind, Except.bind] at hsm
    have hargs2 : ArgsNonneg { args with rounds := k } :=
      ⟨hargs.adv_atk_mult, hargs.base_global_bonus, hargs.base_inbattle_bonus,
        hargs.base_final_bonus, hargs.base_global_skill_bonus,
        hargs.base_global_lightning_bonus, hargs.base_global_ninjutsu_bonus,
        hargs.base_final_skill_bonus, hargs.base_final_lightning_bonus,
        hargs.base_inbattle_basic_bonus, hargs.base_inbattle_skill_bonus,
        hargs.base_inbattle_lightning_bonus, hargs.lightning_charge_step⟩
    unfold simulate_adventurer at hsk
    obtain ⟨hSk, hLe⟩ := grow_rounds_fold _ hargs.adv_atk_mult es hes _ _ _ sk hsk
      (init_state_nonneg _ es hargs2)
    refine ⟨dmg_nonneg_of_le (init_dmg_nonneg _ es) hLe, ?_⟩
    exact (grow_rounds_fold _ hargs.adv_atk_mult es hes _ _ sk sm hsm hSk).2
  · intro cfg stream hc
    exact ⟨args_nonneg_of_config cfg stream hc, all_en_build cfg hc⟩

unseal Rat.mul Rat.add Rat.sub Rat.inv Rat.ofScientific in
/-- C8 witness: the amended monotonicity applied at rounds 1 and 2 of a
concrete run built from a nonnegative configuration. -/
theorem c8_buckets_monotone_witness :
    ∃ sk sm,
      simulate_adventurer
          { (sim_args_of_config c8_witness_config (fun _ => 1/2)) with rounds := 1 }
          (build_effects_from_config c8_witness_config).1 = .ok sk
      ∧ simulate_adventurer
          { (sim_args_of_config c8_witness_config (fun _ => 1/2)) with rounds := 2 }
          (build_effects_from_config c8_witness_config).1 = .ok sm
      ∧ DmgNonneg sk ∧ DmgLe sk sm := by
  cases h1 : simulate_adventurer
      { (sim_args_of_config c8_witness_config (fun _ => 1/2)) with rounds := 1 }
      (build_effects_from_config c8_witness_config).1 with
  | error e =>
    have hne : sim_error (simulate_adventurer
        { (sim_args_of_config c8_witness_config (fun _ => 1/2)) with rounds := 1 }
        (build_effects_from_config c8_witness_config).1) = none := by decide
    rw [h1] at hne
    exact absurd hne (by simp [sim_error])
  | ok sk =>
    cases h2 : simulate_adventurer
        { (sim_args_of_config c8_witness_config (fun _ => 1/2)) with rounds := 2 }
        (build_effects_from_config c8_witness_config).1 with
    | error e =>
      have hne : sim_error (simulate_adventurer
          { (sim_args_of_config c8_witness_config (fun _ => 1/2)) with rounds := 2 }
          (build_effects_from_config c8_witness_config).1) = none := by decide
      rw [h2] at hne
      exact absurd hne (by simp [sim_error])
    | ok sm =>
      refine ⟨sk, sm, rfl, rfl, ?_⟩
      have hcfg : ConfigNonneg c8_witness_config := by
        refine ⟨?_, ?_, ?_, ?_, ?_, ?_, ?_, ?_, ?_, ?_, ?_, ?_, ?_⟩ <;>
          norm_num [c8_witness_config]
      obtain ⟨hargs, hes⟩ :=
        c8_buckets_monotone_amended.2 c8_witness_config (fun _ => 1/2) hcfg
      exact c8_buckets_monotone_amended.1 _ _ 1 2 sk sm hargs hes
        (by norm_num) h1 h2

unseal Rat.mul Rat.add Rat.sub Rat.inv Rat.ofScientific in
/-- C8 counterexample: with a configured global bonus of minus two the one
completed round books a negative basic bucket, so no unconditional
nonnegativity or monotonicity invariant holds for every run. -/
theorem c8_counterexample :
    sim_proj (fun s => s.battle.dmg_basic)
        (run_simulation c8_failing_config (fun _ => 1/2)) = some (-69000)
      ∧ ((-69000 : ℚ) < 0) := by
  exact ⟨by decide, by norm_num⟩

end CapybaraSim
